import Mathlib

/-!
# PrivaPulse: the X402 claim negotiation

A shallow embedding of the claim endpoint of `server.js` (`hasValidProof`,
`claimHandler`, the routes and the `cors` middleware in front of them), of the claim
agent of `src/utils/AgentService.js` (`runClaimRewardAgent`) with the shielded
transfer of `src/utils/unlinkReward.js` (`runShieldedTransfer`), and of the
completion handler of `src/App.jsx` (`handleZenComplete`), followed by the
properties proved about them.

JavaScript values are embedded as a datatype `JsVal`; the operators the code
applies to them (`!`, `||`, `===`, `typeof`, property access, `?.`) are
functions on `JsVal`. Asynchronous code is embedded sequentially: every
`await` is a plain call, and the effects of a run (log lines, requests,
signer and transfer calls) are returned as an ordered list of events.
-/

namespace PrivaPulse

/-! ## JavaScript values -/

mutual
/-- JavaScript values as the code meets them: `undefined` and the values JSON can
carry. Numbers are restricted to the integers (the code only ever tests a number
for truthiness). -/
inductive JsVal where
  | undefined
  | null
  | bool (b : Bool)
  | num (n : Int)
  | str (s : String)
  | arr (items : JsItems)
  | obj (fields : JsFields)
/-- The elements of an array. -/
inductive JsItems where
  | nil
  | cons (head : JsVal) (tail : JsItems)
/-- The own properties of a plain object, in order. -/
inductive JsFields where
  | nil
  | cons (key : String) (value : JsVal) (rest : JsFields)
end

deriving instance DecidableEq for JsVal
deriving instance DecidableEq for JsItems
deriving instance DecidableEq for JsFields

/-- Own-property lookup: the first binding of `k`, if any. -/
def JsFields.lookup (k : String) : JsFields → Option JsVal
  | .nil => none
  | .cons key value rest => if key = k then some value else JsFields.lookup k rest

/-- Build the property list of an object literal. -/
def JsFields.ofList : List (String × JsVal) → JsFields
  | [] => .nil
  | (k, v) :: rest => .cons k v (JsFields.ofList rest)

/-- An object literal `{ k1: v1, ... }`. -/
def JsVal.record (l : List (String × JsVal)) : JsVal :=
  .obj (JsFields.ofList l)

/-- JavaScript truthiness (`Boolean(v)`): `undefined`, `null`, `false`, `0` and `''`
are falsy, everything else (every array and object included) is truthy. -/
def JsVal.truthy : JsVal → Bool
  | .undefined => false
  | .null => false
  | .bool b => b
  | .num n => n != 0
  | .str s => s != ""
  | .arr _ => true
  | .obj _ => true

/-- The test `typeof v === 'object'`: true of `null`, arrays and plain objects. -/
def JsVal.typeofObject : JsVal → Bool
  | .null => true
  | .arr _ => true
  | .obj _ => true
  | _ => false

/-- Property access `v.k` for the property names the code reads (`proof`,
`verified`, `proofId`, `classification`, `address`): the own property of a plain
object, `undefined` for a missing one and for arrays and primitives, which carry
none of these names. (The code never reads a property of `null` or `undefined`
without a guard.) -/
def JsVal.getProp (v : JsVal) (k : String) : JsVal :=
  match v with
  | .obj fields => (fields.lookup k).getD .undefined
  | _ => .undefined

/-- Optional chaining `v?.k`: `undefined` when `v` is `null` or `undefined`,
otherwise `v.k`. -/
def JsVal.optProp (v : JsVal) (k : String) : JsVal :=
  match v with
  | .undefined => .undefined
  | .null => .undefined
  | w => w.getProp k

/-- The operator `a || b`: `a` when `a` is truthy, otherwise `b`. -/
def JsVal.or (a b : JsVal) : JsVal :=
  if a.truthy then a else b

/-- The test `v === true`. -/
def JsVal.isTrue (v : JsVal) : Bool :=
  decide (v = .bool true)

/-! ## The claim server (`server.js`) -/

/-- An inbound request as `claimHandler` reads it: `req.body` (left by
`express.json`, `undefined` when no body was parsed) and `req.headers`, whose names
Node gives in lower case. -/
structure Request where
  body : JsVal
  headers : List (String × String)

/-- The read `req.headers[name]`: the header value, `undefined` when absent. -/
def Request.header (req : Request) (name : String) : JsVal :=
  match req.headers.lookup name with
  | some v => .str v
  | none => .undefined

/-- What `claimHandler` emits: the status, the headers it sets itself with
`res.setHeader`, and the value handed to `res.json`. -/
structure Response where
  status : Nat
  headers : List (String × String)
  body : JsVal
deriving DecidableEq

/-- `hasValidProof` of `server.js` (lines 47-52). The last line returns the value
of the `||` chain itself, not a boolean. -/
def hasValidProof (body : JsVal) : JsVal :=
  if !body.truthy || !body.typeofObject then .bool false
  else
    let proof := body.getProp "proof"
    if !proof.truthy || !proof.typeofObject then .bool false
    else
      ((JsVal.bool (proof.getProp "verified").isTrue).or (proof.getProp "proofId")).or
        (proof.getProp "classification")

/-- `claimHandler` of `server.js` (lines 57-81); the `console.log` line is left
out. -/
def claimHandler (req : Request) : Response :=
  let body := req.body.or (.obj .nil)
  let xPayment := req.header "x-payment"
  let xPaymentResolved := req.header "x-payment-resolved"
  let hasPayment := (xPayment.or xPaymentResolved).truthy
  if !(hasValidProof body).truthy then
    { status := 400, headers := [],
      body := .record [("error", .str "Missing or invalid EZKL proof in body")] }
  else if !hasPayment then
    { status := 402, headers := [("x402-payment-request", "monad-testnet-0x123")],
      body := .record [("error", .str "Payment Required"),
                       ("message", .str "X-PAYMENT header required to complete claim")] }
  else
    { status := 200, headers := [],
      body := .record [("success", .bool true), ("reward", .str "1.0 PRP")] }

/-- The fixed 400 response. -/
def invalidProofResponse : Response :=
  { status := 400, headers := [],
    body := .record [("error", .str "Missing or invalid EZKL proof in body")] }

/-- The fixed 402 response with its challenge header. -/
def paymentRequiredResponse : Response :=
  { status := 402, headers := [("x402-payment-request", "monad-testnet-0x123")],
    body := .record [("error", .str "Payment Required"),
                     ("message", .str "X-PAYMENT header required to complete claim")] }

/-- The fixed 200 response. -/
def grantedResponse : Response :=
  { status := 200, headers := [],
    body := .record [("success", .bool true), ("reward", .str "1.0 PRP")] }

/-- The contract `isValidAttestation(body) -> bool` in the words of the
specification: the payload is a record that contains a nested `proof` record, and
that record has `verified === true`, or a populated `proofId`, or a populated
`classification`. A field counts as populated when it is present and truthy; for
a string that is: non-empty. -/
def isValidAttestation (body : JsVal) : Bool :=
  match body with
  | .obj fields =>
    match fields.lookup "proof" with
    | some (.obj proof) =>
      decide (proof.lookup "verified" = some (.bool true)) ||
        (match proof.lookup "proofId" with
          | some v => v.truthy
          | none => false) ||
        (match proof.lookup "classification" with
          | some v => v.truthy
          | none => false)
    | _ => false
  | _ => false

/-! ## The payment resolver and the network, as the agent sees them -/

/-- A value thrown by `fetch`, `res.text()`, the signer, `send` or `parseAmount`, as
the two `catch` blocks observe it: `err?.message` (`none` when the thrown value is
`null`, `undefined` or has no `message`) and `String(err)`. A `message`, when
there is one, is a string, as it is for every `Error`. Thrown values of any other
kind are the subject of the namespace `General` below, of which this model is the
part with `Error`-like values (`run_ofWorld`). -/
structure Thrown where
  message : Option String
  asString : String
deriving DecidableEq

/-- The expression `err?.message || String(err)` of both `catch` blocks. -/
def Thrown.reason (err : Thrown) : String :=
  match err.message with
  | some m => if m ≠ "" then m else err.asString
  | none => err.asString

/-- One element of the list handed to the Unlink `send` function. -/
structure SendInput where
  token : String
  recipient : JsVal
  amount : Int
deriving DecidableEq

/-- A member of the `unlink` bundle that is meant to hold a function: either a
function, given by its behaviour, or any other value (`undefined` when the member
is missing). -/
inductive Slot (φ : Type) where
  | value (v : JsVal)
  | func (f : φ)

/-- Truthiness of a slot: every function is truthy. -/
def Slot.truthy {φ : Type} : Slot φ → Bool
  | .value v => v.truthy
  | .func _ => true

/-- The second argument of `runClaimRewardAgent` once destructured:
`{ send, activeAccount, signX402Header }`. A call of `send` or of the signer either
returns or throws. -/
structure Unlink where
  send : Slot (List SendInput → Except Thrown Unit)
  activeAccount : JsVal
  signX402Header : Slot (String → Except Thrown JsVal)

/-- The arguments of one `fetch` call. `body` is the value that the code passes
through `JSON.stringify`; header values are the values as the code supplies them. -/
structure FetchInit where
  url : String
  method : String
  headers : List (String × JsVal)
  body : JsVal
deriving DecidableEq

/-- The `Response` that `fetch` resolves to, as far as the agent reads it:
`res.status`, `res.headers.get(name)` and the result of `await res.text()`. -/
structure FetchResponse where
  status : Nat
  headers : String → Option String
  text : Except Thrown String

/-- The flag `res.ok`, which the Fetch standard defines as a status in 200..299. -/
def FetchResponse.ok (res : FetchResponse) : Bool :=
  decide (200 ≤ res.status ∧ res.status ≤ 299)

/-- Everything outside the agent: the two build-time environment variables, the
network (`fetch`, which may answer the first call of an attempt, index 0, and the
second, index 1, differently) and `parseAmount` of `@unlink-xyz/core`. -/
structure World where
  viteClaimRewardUrl : Option String
  vitePrpTokenAddress : Option String
  fetch : Nat → FetchInit → Except Thrown FetchResponse
  parseAmount : String → Nat → Except Thrown Int

/-- The observable effects of a run, in the order in which they happen. -/
inductive Event where
  | log (line : String)
  | fetch (init : FetchInit)
  | sign (paymentRequest : String)
  | send (inputs : List SendInput)
  | consoleError (label : String) (message : String)
deriving DecidableEq

/-- The record `{ success, error? }` that both `runShieldedTransfer` and
`runClaimRewardAgent` return. -/
structure Outcome where
  success : Bool
  error : Option String
deriving DecidableEq

/-- `String.prototype.includes` on the characters of the two strings. -/
def includesChars : List Char → List Char → Bool
  | [], pat => pat.isEmpty
  | c :: cs, pat => pat.isPrefixOf (c :: cs) || includesChars cs pat

/-- The call `s.includes(pat)`. -/
def includes (s pat : String) : Bool :=
  includesChars s.data pat.data

/-! ## The shielded transfer (`src/utils/unlinkReward.js`) -/

/-- `PRP_TOKEN_ADDRESS`: `import.meta.env.VITE_PRP_TOKEN_ADDRESS || '0x00...0'`. -/
def PRP_TOKEN_ADDRESS (w : World) : String :=
  match w.vitePrpTokenAddress with
  | some a => if a ≠ "" then a else "0x0000000000000000000000000000000000000000"
  | none => "0x0000000000000000000000000000000000000000"

/-- `PRP_DECIMALS`. -/
def PRP_DECIMALS : Nat := 18

/-- `REWARD_AMOUNT`. -/
def REWARD_AMOUNT : String := "1.0"

/-- `runShieldedTransfer` of `unlinkReward.js` (lines 31-52), with its result and
the effects of the call. A slot that holds no function fails the first guard
(`!send || typeof send !== 'function'`). -/
def runShieldedTransfer (w : World) (send : Slot (List SendInput → Except Thrown Unit))
    (activeAccount : JsVal) (tokenAddress : String) : Outcome × List Event :=
  match send with
  | .value _ => ({ success := false, error := some "Unlink send not available." }, [])
  | .func sendFn =>
    if !(activeAccount.optProp "address").truthy then
      ({ success := false, error := some "No wallet connected." }, [])
    else
      match w.parseAmount REWARD_AMOUNT PRP_DECIMALS with
      | .error err =>
        ({ success := false, error := some err.reason },
         [.consoleError "[Unlink] Shielded send failed:" err.reason])
      | .ok amount =>
        let inputs : List SendInput :=
          [{ token := tokenAddress, recipient := activeAccount.getProp "address", amount := amount }]
        match sendFn inputs with
        | .ok _ => ({ success := true, error := none }, [.send inputs])
        | .error err =>
          ({ success := false, error := some err.reason },
           [.send inputs, .consoleError "[Unlink] Shielded send failed:" err.reason])

/-! ## The claim agent (`src/utils/AgentService.js`) -/

/-- `CLAIM_URL`: `import.meta.env.VITE_CLAIM_REWARD_URL || 'http://127.0.0.1:5000/api/claim'`. -/
def CLAIM_URL (w : World) : String :=
  match w.viteClaimRewardUrl with
  | some u => if u ≠ "" then u else "http://127.0.0.1:5000/api/claim"
  | none => "http://127.0.0.1:5000/api/claim"

/-- The local function `log` (lines 19-22): the line `[Agent]: msg` is handed to
`onLog`. The third argument `onLog` is taken to be a function that returns
normally; what it receives are the `log` events of the run. -/
def agentLog (msg : String) : Event :=
  .log ("[Agent]: " ++ msg)

/-- The first `fetch` call (lines 35-39). -/
def initialRequest (w : World) (proof : JsVal) : FetchInit :=
  { url := CLAIM_URL w, method := "POST",
    headers := [("Content-Type", .str "application/json")],
    body := .record [("proof", proof)] }

/-- The retry of the signer branch (lines 48-55). -/
def signedRetry (w : World) (proof xPaymentHeader : JsVal) : FetchInit :=
  { url := CLAIM_URL w, method := "POST",
    headers := [("Content-Type", .str "application/json"), ("X-PAYMENT", xPaymentHeader)],
    body := .record [("proof", proof)] }

/-- The retry of the other branch (lines 65-72). -/
def shieldedRetry (w : World) (proof : JsVal) : FetchInit :=
  { url := CLAIM_URL w, method := "POST",
    headers := [("Content-Type", .str "application/json"), ("X-Payment-Resolved", .str "shielded")],
    body := .record [("proof", proof), ("paymentResolved", .bool true)] }

/-- Lines 76-83: the outcome read off the last response `res`. -/
def conclude (res : FetchResponse) : Except Thrown Outcome × List Event :=
  if !res.ok then
    match res.text with
    | .error err => (.error err, [])
    | .ok errText =>
      (.ok { success := false,
             error := some (if errText ≠ "" then errText else "HTTP " ++ toString res.status) },
       [agentLog ("Claim failed: " ++ toString res.status ++ " " ++ errText)])
  else
    (.ok { success := true, error := none },
     [agentLog "200 Success. Shielded payout confirmed on Monad."])

/-- The condition of line 45,
`signX402Header && typeof signX402Header === 'function' && paymentRequest`:
the signer and the token when it holds. -/
def signerAndToken (signX402Header : Slot (String → Except Thrown JsVal))
    (paymentRequest : Option String) : Option ((String → Except Thrown JsVal) × String) :=
  match signX402Header, paymentRequest with
  | .func sign, some token => if token ≠ "" then some (sign, token) else none
  | _, _ => none

/-- Lines 46-55 followed by lines 76-83: sign the challenge and retry. -/
def signerBranch (w : World) (proof : JsVal) (sign : String → Except Thrown JsVal)
    (paymentRequest : String) : Except Thrown Outcome × List Event :=
  match sign paymentRequest with
  | .error err => (.error err, [.sign paymentRequest])
  | .ok xPaymentHeader =>
    let before : List Event :=
      [.sign paymentRequest, agentLog "402 Challenge resolved. Retrying with payment header...",
       .fetch (signedRetry w proof xPaymentHeader)]
    match w.fetch 1 (signedRetry w proof xPaymentHeader) with
    | .error err => (.error err, before)
    | .ok res => ((conclude res).1, before ++ (conclude res).2)

/-- Lines 64-72 followed by lines 76-83: retry with the fixed marker. -/
def markerRetry (w : World) (proof : JsVal) : Except Thrown Outcome × List Event :=
  let before : List Event :=
    [agentLog "402 Challenge resolved. Retrying with payment header...",
     .fetch (shieldedRetry w proof)]
  match w.fetch 1 (shieldedRetry w proof) with
  | .error err => (.error err, before)
  | .ok res => ((conclude res).1, before ++ (conclude res).2)

/-- Lines 57-73 followed by lines 76-83: the `else` branch of line 56. -/
def transferBranch (w : World) (proof : JsVal) (u : Unlink) :
    Except Thrown Outcome × List Event :=
  if u.send.truthy && (u.activeAccount.optProp "address").truthy then
    let transfer := runShieldedTransfer w u.send u.activeAccount (PRP_TOKEN_ADDRESS w)
    if !transfer.1.success then
      (.ok { success := false, error := transfer.1.error },
       transfer.2 ++ [agentLog ("Shielded transfer failed: " ++ transfer.1.error.getD "undefined")])
    else
      ((markerRetry w proof).1, transfer.2 ++ (markerRetry w proof).2)
  else
    markerRetry w proof

/-- The body of the `try` block (lines 35-83): its result, returned or thrown, and
its effects. -/
def tryBlock (w : World) (proof : JsVal) (u : Unlink) : Except Thrown Outcome × List Event :=
  match w.fetch 0 (initialRequest w proof) with
  | .error err => (.error err, [.fetch (initialRequest w proof)])
  | .ok res =>
    if res.status = 402 then
      let before : List Event :=
        [.fetch (initialRequest w proof), agentLog "402 Challenge Received. Agent signing payment..."]
      match signerAndToken u.signX402Header (res.headers "x402-payment-request") with
      | some (sign, paymentRequest) =>
        ((signerBranch w proof sign paymentRequest).1,
         before ++ (signerBranch w proof sign paymentRequest).2)
      | none => ((transferBranch w proof u).1, before ++ (transferBranch w proof u).2)
    else
      ((conclude res).1, .fetch (initialRequest w proof) :: (conclude res).2)

/-- The `catch` block (lines 84-91), for a thrown value with a string `message`: on
a string `msg.includes` does not throw. `General.catchBlock` is the block for any
thrown value. -/
def catchBlock (err : Thrown) : Outcome × List Event :=
  let msg := err.reason
  let isNetworkError :=
    includes msg "Failed to fetch" || includes msg "NetworkError" || includes msg "Load failed"
  ({ success := false, error := some msg },
   [agentLog (if isNetworkError then
      "Connection failed. Is the claim server running? Run in a separate terminal: npm run server"
    else "Error: " ++ msg)])

/-- The bundle `{}` that `unlink || {}` falls back to: all three members
`undefined`. -/
def emptyUnlink : Unlink :=
  { send := .value .undefined, activeAccount := .undefined, signX402Header := .value .undefined }

/-- `runClaimRewardAgent` of `AgentService.js` (lines 18-92): the outcome the call
resolves to and the effects of the run. `unlink` is `none` for a missing, `null`
or otherwise falsy second argument. -/
def runClaimRewardAgent (w : World) (proofResult : JsVal) (unlink : Option Unlink) :
    Outcome × List Event :=
  if !(proofResult.optProp "verified").truthy then
    ({ success := false, error := some "Invalid proof result" }, [])
  else
    let u := unlink.getD emptyUnlink
    let start := agentLog "EZKL Proof detected. Initializing X402 handshake..."
    match tryBlock w proofResult u with
    | (.ok outcome, events) => (outcome, start :: events)
    | (.error err, events) => ((catchBlock err).1, start :: events ++ (catchBlock err).2)

/-- The requests of a run, in the order sent. -/
def requestsOf : List Event → List FetchInit
  | [] => []
  | .fetch init :: rest => init :: requestsOf rest
  | _ :: rest => requestsOf rest

/-- The tokens the signer was called with. -/
def signCallsOf : List Event → List String
  | [] => []
  | .sign token :: rest => token :: signCallsOf rest
  | _ :: rest => signCallsOf rest

/-- The argument lists `send` was called with. -/
def sendCallsOf : List Event → List (List SendInput)
  | [] => []
  | .send inputs :: rest => inputs :: sendCallsOf rest
  | _ :: rest => sendCallsOf rest

/-- A try-block result after the `catch` block has handled a thrown value: what
the whole `try ... catch` statement returns, and its effects. -/
def settle (r : Except Thrown Outcome × List Event) : Outcome × List Event :=
  match r with
  | (.ok outcome, events) => (outcome, events)
  | (.error err, events) => ((catchBlock err).1, events ++ (catchBlock err).2)

/-- A server that answers every request with status 402. -/
def AlwaysChallenges (w : World) : Prop :=
  ∀ n init, ∃ res, w.fetch n init = .ok res ∧ res.status = 402

/-- A resolver that does not fail: the signer, when there is one, returns a
credential for every token, and the shielded transfer, whenever the agent would run
it (line 57), succeeds. -/
def ResolverNeverFails (w : World) (u : Unlink) : Prop :=
  (∀ sign, u.signX402Header = .func sign → ∀ token, ∃ credential, sign token = .ok credential) ∧
  (u.send.truthy = true → (u.activeAccount.optProp "address").truthy = true →
    (runShieldedTransfer w u.send u.activeAccount (PRP_TOKEN_ADDRESS w)).1.success = true)

/-! ## Sample collaborators -/

/-- A 402 response carrying the challenge token that `server.js` issues. -/
def challengeResponse : FetchResponse :=
  { status := 402,
    headers := fun name => if name = "x402-payment-request" then some "monad-testnet-0x123" else none,
    text := .ok "Payment Required" }

/-- A 200 response. -/
def okResponse : FetchResponse :=
  { status := 200, headers := fun _ => none, text := .ok "granted" }

/-- A server that answers 402 to every request. -/
def alwaysChallenge : World :=
  { viteClaimRewardUrl := none, vitePrpTokenAddress := none,
    fetch := fun _ _ => .ok challengeResponse,
    parseAmount := fun _ _ => .ok 1000000000000000000 }

/-- A server that challenges the first request of an attempt and grants the second. -/
def challengeThenGrant : World :=
  { viteClaimRewardUrl := none, vitePrpTokenAddress := none,
    fetch := fun n _ => if n = 0 then .ok challengeResponse else .ok okResponse,
    parseAmount := fun _ _ => .ok 1000000000000000000 }

/-- A server that grants every request. -/
def alwaysGrant : World :=
  { viteClaimRewardUrl := none, vitePrpTokenAddress := none,
    fetch := fun _ _ => .ok okResponse,
    parseAmount := fun _ _ => .ok 1000000000000000000 }

/-- A proof result as the classifier produces it. -/
def verifiedProof : JsVal :=
  .record [("verified", .bool true), ("classification", .str "recovered")]

/-- A bundle whose signer returns a credential. -/
def signingUnlink : Unlink :=
  { send := .value .undefined, activeAccount := .null,
    signX402Header := .func (fun token => .ok (.str ("signed:" ++ token))) }

/-- A bundle whose signer throws `new Error('User rejected the request')`. -/
def rejectingUnlink : Unlink :=
  { send := .value .undefined, activeAccount := .null,
    signX402Header := .func (fun _ =>
      .error { message := some "User rejected the request",
               asString := "Error: User rejected the request" }) }

/-- A bundle with no signer, a wallet account and a `send` that succeeds. -/
def transferringUnlink : Unlink :=
  { send := .func (fun _ => .ok ()),
    activeAccount := .record [("address", .str "unlink1qxyz")],
    signX402Header := .value .undefined }

/-- A bundle with no signer, a wallet account and a `send` that throws
`new Error('insufficient funds')`. -/
def failingTransferUnlink : Unlink :=
  { send := .func (fun _ =>
      .error { message := some "insufficient funds", asString := "Error: insufficient funds" }),
    activeAccount := .record [("address", .str "unlink1qxyz")],
    signX402Header := .value .undefined }

/-- A bundle with a working signer and a working transfer at once. -/
def fullUnlink : Unlink :=
  { send := .func (fun _ => .ok ()),
    activeAccount := .record [("address", .str "unlink1qxyz")],
    signX402Header := .func (fun token => .ok (.str ("signed:" ++ token))) }

/-- The fixed hint that the `catch` block logs for a connectivity failure (line 88). -/
def connectionHint : String :=
  "Connection failed. Is the claim server running? Run in a separate terminal: npm run server"

/-- The flag `isNetworkError` of line 86. -/
def isNetworkError (msg : String) : Bool :=
  includes msg "Failed to fetch" || includes msg "NetworkError" || includes msg "Load failed"

/-- The line logged when a 402 arrives (line 42). -/
def challengeLog : Event :=
  agentLog "402 Challenge Received. Agent signing payment..."

/-- The line logged before either retry (lines 47 and 64). -/
def resolvedLog : Event :=
  agentLog "402 Challenge resolved. Retrying with payment header..."

/-- The shielded transfer as the agent runs it (line 58). -/
def agentTransfer (w : World) (u : Unlink) : Outcome × List Event :=
  runShieldedTransfer w u.send u.activeAccount (PRP_TOKEN_ADDRESS w)

/-- The ways the `try` block can run, each with the result and the effects it then
has: the paths through lines 35-83. -/
inductive TryShape (w : World) (proof : JsVal) (u : Unlink) :
    Except Thrown Outcome × List Event → Prop where
  | initialThrows (err : Thrown) :
      w.fetch 0 (initialRequest w proof) = .error err →
      TryShape w proof u (.error err, [.fetch (initialRequest w proof)])
  | answered (res : FetchResponse) :
      w.fetch 0 (initialRequest w proof) = .ok res → res.status ≠ 402 →
      TryShape w proof u ((conclude res).1, .fetch (initialRequest w proof) :: (conclude res).2)
  | signerThrows (res : FetchResponse) (sign : String → Except Thrown JsVal) (token : String)
      (err : Thrown) :
      w.fetch 0 (initialRequest w proof) = .ok res → res.status = 402 →
      u.signX402Header = .func sign → res.headers "x402-payment-request" = some token →
      token ≠ "" → sign token = .error err →
      TryShape w proof u
        (.error err, [.fetch (initialRequest w proof), challengeLog, .sign token])
  | signedRetryThrows (res : FetchResponse) (sign : String → Except Thrown JsVal)
      (token : String) (credential : JsVal) (err : Thrown) :
      w.fetch 0 (initialRequest w proof) = .ok res → res.status = 402 →
      u.signX402Header = .func sign → res.headers "x402-payment-request" = some token →
      token ≠ "" → sign token = .ok credential →
      w.fetch 1 (signedRetry w proof credential) = .error err →
      TryShape w proof u
        (.error err, [.fetch (initialRequest w proof), challengeLog, .sign token, resolvedLog,
                      .fetch (signedRetry w proof credential)])
  | signedRetryAnswered (res : FetchResponse) (sign : String → Except Thrown JsVal)
      (token : String) (credential : JsVal) (retryRes : FetchResponse) :
      w.fetch 0 (initialRequest w proof) = .ok res → res.status = 402 →
      u.signX402Header = .func sign → res.headers "x402-payment-request" = some token →
      token ≠ "" → sign token = .ok credential →
      w.fetch 1 (signedRetry w proof credential) = .ok retryRes →
      TryShape w proof u
        ((conclude retryRes).1,
         [.fetch (initialRequest w proof), challengeLog, .sign token, resolvedLog,
          .fetch (signedRetry w proof credential)] ++ (conclude retryRes).2)
  | transferFails (res : FetchResponse) (reason : String) :
      w.fetch 0 (initialRequest w proof) = .ok res → res.status = 402 →
      signerAndToken u.signX402Header (res.headers "x402-payment-request") = none →
      u.send.truthy = true → (u.activeAccount.optProp "address").truthy = true →
      (agentTransfer w u).1.success = false → (agentTransfer w u).1.error = some reason →
      TryShape w proof u
        (.ok { success := false, error := some reason },
         [.fetch (initialRequest w proof), challengeLog] ++ (agentTransfer w u).2 ++
           [agentLog ("Shielded transfer failed: " ++ reason)])
  | markerRetryThrows (res : FetchResponse) (transferEvents : List Event) (err : Thrown) :
      w.fetch 0 (initialRequest w proof) = .ok res → res.status = 402 →
      signerAndToken u.signX402Header (res.headers "x402-payment-request") = none →
      ((u.send.truthy && (u.activeAccount.optProp "address").truthy) = false ∧
          transferEvents = [] ∨
        (u.send.truthy && (u.activeAccount.optProp "address").truthy) = true ∧
          (agentTransfer w u).1.success = true ∧ transferEvents = (agentTransfer w u).2) →
      w.fetch 1 (shieldedRetry w proof) = .error err →
      TryShape w proof u
        (.error err,
         [.fetch (initialRequest w proof), challengeLog] ++ transferEvents ++
           [resolvedLog, .fetch (shieldedRetry w proof)])
  | markerRetryAnswered (res : FetchResponse) (transferEvents : List Event)
      (retryRes : FetchResponse) :
      w.fetch 0 (initialRequest w proof) = .ok res → res.status = 402 →
      signerAndToken u.signX402Header (res.headers "x402-payment-request") = none →
      ((u.send.truthy && (u.activeAccount.optProp "address").truthy) = false ∧
          transferEvents = [] ∨
        (u.send.truthy && (u.activeAccount.optProp "address").truthy) = true ∧
          (agentTransfer w u).1.success = true ∧ transferEvents = (agentTransfer w u).2) →
      w.fetch 1 (shieldedRetry w proof) = .ok retryRes →
      TryShape w proof u
        ((conclude retryRes).1,
         [.fetch (initialRequest w proof), challengeLog] ++ transferEvents ++
           [resolvedLog, .fetch (shieldedRetry w proof)] ++ (conclude retryRes).2)

/-- The final response of an attempt: the initial response when its status is not
402, otherwise the response to the retry that the run sent. -/
def FinalResponse (w : World) (proofResult : JsVal) (unlink : Option Unlink)
    (res : FetchResponse) : Prop :=
  ∃ first, w.fetch 0 (initialRequest w proofResult) = .ok first ∧
    ((first.status ≠ 402 ∧ res = first) ∨
     (first.status = 402 ∧ ∃ retry,
        requestsOf (runClaimRewardAgent w proofResult unlink).2 =
          [initialRequest w proofResult, retry] ∧
        w.fetch 1 retry = .ok res))

/-- A transport failure: `fetch` throws `err` at the initial call, or at the retry
that the run sent. -/
def TransportFailure (w : World) (proofResult : JsVal) (unlink : Option Unlink)
    (err : Thrown) : Prop :=
  w.fetch 0 (initialRequest w proofResult) = .error err ∨
  ∃ retry,
    requestsOf (runClaimRewardAgent w proofResult unlink).2 =
      [initialRequest w proofResult, retry] ∧
    w.fetch 1 retry = .error err

/-- Anything thrown inside the `try` block of an attempt: by `fetch` (a transport
failure), by the signer the run called, or by reading the body of a final response
that is not ok. -/
def ThrownInAttempt (w : World) (proofResult : JsVal) (unlink : Option Unlink)
    (err : Thrown) : Prop :=
  TransportFailure w proofResult unlink err ∨
  (∃ sign token, (unlink.getD emptyUnlink).signX402Header = .func sign ∧
    signCallsOf (runClaimRewardAgent w proofResult unlink).2 = [token] ∧
    sign token = .error err) ∨
  (∃ res, FinalResponse w proofResult unlink res ∧ res.ok = false ∧ res.text = .error err)

/-- A 201 response. -/
def createdResponse : FetchResponse :=
  { status := 201, headers := fun _ => none, text := .ok "created" }

/-- A server that answers 201 to every request. -/
def alwaysCreated : World :=
  { viteClaimRewardUrl := none, vitePrpTokenAddress := none,
    fetch := fun _ _ => .ok createdResponse,
    parseAmount := fun _ _ => .ok 1000000000000000000 }

/-- An unreachable server: `fetch` throws `new TypeError('Failed to fetch')`. -/
def unreachable : World :=
  { viteClaimRewardUrl := none, vitePrpTokenAddress := none,
    fetch := fun _ _ => .error { message := some "Failed to fetch",
                                  asString := "TypeError: Failed to fetch" },
    parseAmount := fun _ _ => .ok 1000000000000000000 }

/-- The line that the `catch` block logs for a thrown value (lines 87-89). -/
def catchLine (err : Thrown) : Event :=
  agentLog (if isNetworkError err.reason then connectionHint else "Error: " ++ err.reason)

/-- A logged message describes the failure whose reason the outcome carries: it is
one of the four failure messages of the agent (lines 60, 78, 88 and 89). -/
def DescribesFailure (reason msg : String) : Prop :=
  msg = "Shielded transfer failed: " ++ reason ∨
  (isNetworkError reason = true ∧ msg = connectionHint) ∨
  (isNetworkError reason = false ∧ msg = "Error: " ++ reason) ∨
  ∃ (status : Nat) (text : String),
    msg = "Claim failed: " ++ toString status ++ " " ++ text ∧
    reason = if text ≠ "" then text else "HTTP " ++ toString status

/-! ## The completion handler of the app (`src/App.jsx`) -/

/-- The lines handed to `onLog` during a run. -/
def logLinesOf : List Event → List String
  | [] => []
  | .log line :: rest => line :: logLinesOf rest
  | _ :: rest => logLinesOf rest

/-- The React state that `handleZenComplete` writes: `zenActive`,
`simulatedHrvForProof`, `hrvResult`, `shieldingStatus` (`null`, `'pending'`,
`'success'` or `'error'`), `shieldingError`, `agentProcessing`, `agentLogs`, and
the number of entries of `recentRewardLogEntries`. -/
structure UiState where
  zenActive : Bool
  simulatedHrvForProof : JsVal
  hrvResult : JsVal
  shieldingStatus : Option String
  shieldingError : Option String
  agentProcessing : Bool
  agentLogs : List String
  rewardEntries : Nat
deriving DecidableEq

/-- `handleZenComplete` of `App.jsx` (lines 168-214): the state once the handler has
finished. `hook` holds the values that the render took from `useUnlink()`: `send`,
`activeAccount` and `unlink?.signX402Header`, which is the bundle of line 182. The
intermediate `'pending'` states are overwritten before the handler ends. `send` is
given by its behaviour on its argument, so the fallback call of line 197 behaves as
a call made by the agent does. -/
def handleZenComplete (w : World) (hook : Unlink) (classificationResult : JsVal)
    (s : UiState) : UiState :=
  let s1 : UiState :=
    { s with zenActive := false, simulatedHrvForProof := .null,
             hrvResult := if classificationResult.truthy then classificationResult
                          else s.hrvResult }
  if (classificationResult.optProp "verified").isTrue then
    let result := runClaimRewardAgent w classificationResult (some hook)
    let s2 : UiState :=
      { s1 with shieldingError := none, agentProcessing := false,
                agentLogs := s1.agentLogs ++ logLinesOf result.2 }
    if result.1.success then
      { s2 with shieldingStatus := some "success", rewardEntries := s2.rewardEntries + 1 }
    else if hook.activeAccount.truthy then
      let transferResult :=
        runShieldedTransfer w hook.send hook.activeAccount (PRP_TOKEN_ADDRESS w)
      if transferResult.1.success then
        { s2 with shieldingStatus := some "success",
                  agentLogs := s2.agentLogs ++
                    ["[Agent]: 402 Challenge resolved. Shielded payout confirmed on Monad."],
                  rewardEntries := s2.rewardEntries + 1 }
      else
        { s2 with shieldingStatus := some "error",
                  shieldingError := some (match transferResult.1.error with
                    | some e => if e ≠ "" then e else "Transfer failed"
                    | none => "Transfer failed") }
    else
      { s2 with shieldingStatus := some "success" }
  else
    s1

/-- The state of the app before a claim: nothing shown. -/
def idleUi : UiState :=
  { zenActive := true, simulatedHrvForProof := .null, hrvResult := .null,
    shieldingStatus := none, shieldingError := none, agentProcessing := false,
    agentLogs := [], rewardEntries := 0 }

/-! ## The route table of the server (`server.js`, lines 16-86) -/

/-- A request as the Express application sees it: `req.method` (upper case),
`req.path`, `req.headers` (names in lower case) and the body as `express.json`
leaves it. -/
structure HttpRequest where
  method : String
  path : String
  headers : List (String × String)
  body : JsVal

/-- The string in lower case. -/
def lowerCase (s : String) : String :=
  String.mk (s.data.map Char.toLower)

/-- Express route matching with its default settings (case-insensitive, not
strict): a route path matches the request path with or without one trailing
slash. -/
def pathMatches (route path : String) : Bool :=
  lowerCase path = route || lowerCase path = route ++ "/"

/-- The handlers of `app.options('/api/claim', ...)` and
`app.options('/api/claim/', ...)` (lines 24-37). `res.sendStatus` sends no JSON
value. -/
def optionsHandler (req : HttpRequest) : Response :=
  let o :=
    match req.headers.lookup "origin" with
    | some origin => if origin ≠ "" then origin else "http://localhost:5173"
    | none => "http://localhost:5173"
  { status := 204,
    headers := [("Access-Control-Allow-Origin", o),
                ("Access-Control-Allow-Methods", "POST, OPTIONS"),
                ("Access-Control-Allow-Headers", "Content-Type, X-PAYMENT, X-Payment-Resolved")],
    body := .undefined }

/-- The handler of `app.get('/', ...)` (lines 39-41). -/
def rootHandler : Response :=
  { status := 200, headers := [],
    body := .record [("ok", .bool true), ("message", .str "X402 claim API"),
                     ("claim", .str "POST /api/claim")] }

/-- The handler of `app.get('/api/claim', ...)` (lines 43-45). -/
def methodNotAllowedHandler : Response :=
  { status := 405, headers := [],
    body := .record [("error", .str "Method Not Allowed"), ("use", .str "POST")] }

/-- The last middleware (lines 84-86). -/
def notFoundHandler (req : HttpRequest) : Response :=
  { status := 404, headers := [],
    body := .record [("error", .str "Not Found"), ("path", .str req.path)] }

/-- A `GET` route also answers `HEAD` requests in Express. -/
def isGetLike (method : String) : Bool :=
  method = "GET" || method = "HEAD"

/-- The routes of lines 24-55 and the final 404 middleware, in the order in which
they are registered; the first that matches answers. -/
def router (req : HttpRequest) : Response :=
  if req.method = "OPTIONS" && pathMatches "/api/claim" req.path then optionsHandler req
  else if isGetLike req.method && (lowerCase req.path = "/" || lowerCase req.path = "") then
    rootHandler
  else if isGetLike req.method && pathMatches "/api/claim" req.path then methodNotAllowedHandler
  else if req.method = "POST" && pathMatches "/api/claim" req.path then
    claimHandler { body := req.body, headers := req.headers }
  else notFoundHandler req

/-- What a middleware does with a request: it ends the response itself, or it adds
headers and calls `next()`. -/
inductive MiddlewareResult where
  | ended (res : Response)
  | next (headers : List (String × String))

/-- The middleware `cors({ origin: allowOrigin })` of line 16. The `cors` package is
not part of the repository; this is its documented behaviour with the options of
line 16. `allowOrigin` (lines 12-15) allows every origin, so the request origin is
reflected. The option `preflightContinue` keeps its default `false`: an `OPTIONS`
request is answered by the middleware itself, with status 204
(`optionsSuccessStatus`), the default method list and the reflected request
headers, and `next()` is not called. (The `Vary` and `Content-Length` headers it
also sets are left out.) -/
def corsMiddleware (req : HttpRequest) : MiddlewareResult :=
  let originHeader : List (String × String) :=
    match req.headers.lookup "origin" with
    | some origin => if origin ≠ "" then [("Access-Control-Allow-Origin", origin)] else []
    | none => []
  if req.method = "OPTIONS" then
    .ended
      { status := 204,
        headers := originHeader ++
          [("Access-Control-Allow-Methods", "GET,HEAD,PUT,PATCH,POST,DELETE")] ++
          (match req.headers.lookup "access-control-request-headers" with
            | some requested =>
              if requested ≠ "" then [("Access-Control-Allow-Headers", requested)] else []
            | none => []),
        body := .undefined }
  else
    .next originHeader

/-- The application: the `cors` middleware of line 16 first, then (after
`express.json` and the logging middleware, which change no response) the routes. -/
def app (req : HttpRequest) : Response :=
  match corsMiddleware req with
  | .ended res => res
  | .next headers =>
    { status := (router req).status, headers := headers ++ (router req).headers,
      body := (router req).body }

/-- A browser preflight for the claim endpoint. -/
def claimPreflight : HttpRequest :=
  { method := "OPTIONS", path := "/api/claim",
    headers := [("origin", "http://localhost:5173"),
                ("access-control-request-method", "POST"),
                ("access-control-request-headers", "content-type,x-payment")],
    body := .undefined }

/-- The payment-evidence test of line 61 read off the headers: `X-PAYMENT` or
`X-Payment-Resolved` is present with a non-empty value. -/
def paymentEvidence (req : Request) : Bool :=
  (match req.headers.lookup "x-payment" with
    | some v => v != ""
    | none => false) ||
  (match req.headers.lookup "x-payment-resolved" with
    | some v => v != ""
    | none => false)

/-- Every line of a list of effects carries the prefix of the local `log`. -/
def AgentLines (events : List Event) : Prop :=
  ∀ line ∈ logLinesOf events, ∃ msg, line = "[Agent]: " ++ msg

/-! ## The agent composed with the claim handler -/

mutual
/-- The conversion `String(v)`, which `fetch` applies to a header value. -/
def JsVal.toText : JsVal → String
  | .undefined => "undefined"
  | .null => "null"
  | .bool b => if b then "true" else "false"
  | .num n => toString n
  | .str s => s
  | .arr items => JsItems.joinText items
  | .obj _ => "[object Object]"
/-- `Array.prototype.join` with a comma: `null` and `undefined` elements give the
empty string. -/
def JsItems.joinText : JsItems → String
  | .nil => ""
  | .cons v rest =>
    (match v with
      | .undefined => ""
      | .null => ""
      | w => JsVal.toText w) ++
    (match rest with
      | .nil => ""
      | r => "," ++ JsItems.joinText r)
end

mutual
/-- The value `JSON.parse(JSON.stringify(v))`: what a JSON body is on arrival. A
property whose value is `undefined` is dropped; an `undefined` array element becomes
`null`. -/
def JsVal.jsonClone : JsVal → JsVal
  | .undefined => .undefined
  | .null => .null
  | .bool b => .bool b
  | .num n => .num n
  | .str s => .str s
  | .arr items => .arr (JsItems.jsonClone items)
  | .obj fields => .obj (JsFields.jsonClone fields)
/-- The elements of the cloned array. -/
def JsItems.jsonClone : JsItems → JsItems
  | .nil => .nil
  | .cons v rest =>
    .cons (match v with
      | .undefined => .null
      | w => JsVal.jsonClone w) (JsItems.jsonClone rest)
/-- The properties of the cloned object. -/
def JsFields.jsonClone : JsFields → JsFields
  | .nil => .nil
  | .cons key v rest =>
    match v with
    | .undefined => JsFields.jsonClone rest
    | w => .cons key (JsVal.jsonClone w) (JsFields.jsonClone rest)
end

/-- The `Response` that the agent reads for a response of `claimHandler`. `stringify`
stands for `JSON.stringify`, which `res.json` applies to the body; `headers.get`
ignores the case of the name. Every header of the response is readable, as it is
for a page of the same origin and outside a browser. -/
def respond (stringify : JsVal → String) (res : Response) : FetchResponse :=
  { status := res.status,
    headers := fun name => res.headers.lookup (lowerCase name),
    text := .ok (stringify res.body) }

/-- A bundle whose signer returns the empty string. -/
def emptySigner : Unlink :=
  { send := .value .undefined, activeAccount := .null,
    signX402Header := .func (fun _ => .ok (.str "")) }

/-! ## The PRP balance from the history (`src/components/PrivateAssets.jsx`) -/

/-- One element of `entry.amounts`, as `sumPrpFromHistory` reads it: `amt.token`
(`none` when missing or falsy) and the result of `BigInt(amt.delta)`, `none` when
that conversion throws. -/
structure HistoryAmount where
  token : Option String
  delta : Option Int

/-- One history entry: `entry.amounts`, `none` when the entry has no such list. -/
structure HistoryEntry where
  amounts : Option (List HistoryAmount)

/-- `tokenKey` of `PrivateAssets.jsx` (lines 10-12): `(addr || '').toLowerCase()`.
Addresses are ASCII, for which `lowerCase` is `toLowerCase`. -/
def tokenKey (addr : Option String) : String :=
  lowerCase (addr.getD "")

/-- The inner loop of `sumPrpFromHistory` (lines 28-36), started with the running
`sum`. -/
def sumAmounts (key : String) : Int → List HistoryAmount → Int
  | sum, [] => sum
  | sum, amt :: rest =>
    if tokenKey amt.token = key then
      match amt.delta with
      | some delta => sumAmounts key (sum + delta) rest
      | none => sumAmounts key sum rest
    else sumAmounts key sum rest

/-- The outer loop of `sumPrpFromHistory` (lines 27-37), started with the running
`sum`; `entry.amounts || []` is the list looped over. -/
def sumEntries (key : String) : Int → List HistoryEntry → Int
  | sum, [] => sum
  | sum, entry :: rest => sumEntries key (sumAmounts key sum (entry.amounts.getD [])) rest

/-- `sumPrpFromHistory` of `PrivateAssets.jsx` (lines 24-39). -/
def sumPrpFromHistory (history : List HistoryEntry) (prpTokenAddress : Option String) : Int :=
  sumEntries (tokenKey prpTokenAddress) 0 history

/-- The sum in the words of the specification: the deltas, where there is one, of
all amounts of all entries whose token is the PRP token up to letter case, added
up. -/
def signedPrpSum (history : List HistoryEntry) (prpTokenAddress : Option String) : Int :=
  (((history.map (fun entry => entry.amounts.getD [])).flatten.filter
      (fun amt => decide (tokenKey amt.token = tokenKey prpTokenAddress))).filterMap
      (fun amt => amt.delta)).sum

/-! ## The insurance proof (`src/utils/insuranceProof.js`) -/

/-- A JavaScript number: `NaN`, the two infinities, or a finite value, given by its
exact rational value. Every double is such a value; what is proved below for all
these values holds for the doubles among them. -/
inductive JsNumber where
  | nan
  | negInf
  | finite (q : ℚ)
  | posInf
deriving DecidableEq

/-- The comparison `a < b` of two numbers: false as soon as one of them is `NaN`. -/
def JsNumber.lt : JsNumber → JsNumber → Bool
  | .nan, _ => false
  | _, .nan => false
  | .finite a, .finite b => decide (a < b)
  | .negInf, .negInf => false
  | .negInf, _ => true
  | _, .negInf => false
  | .posInf, _ => false
  | .finite _, .posInf => true

/-- The comparison `a > b`, which is `b < a`. -/
def JsNumber.gt (a b : JsNumber) : Bool := JsNumber.lt b a

/-- The comparison `a >= b`: false as soon as one of them is `NaN`, otherwise the
negation of `a < b`. -/
def JsNumber.ge : JsNumber → JsNumber → Bool
  | .nan, _ => false
  | _, .nan => false
  | a, b => !JsNumber.lt a b

/-- The text of a number in a template literal, `String(n)`. An integer of absolute
value at most `2^53` is written with all its decimal digits, which are its shortest
round-trip digits; `decimal` stands for the shortest round-trip notation of every
other finite value (`-2^63` is written `-9223372036854776000`). -/
def JsNumber.toText (decimal : ℚ → String) : JsNumber → String
  | .nan => "NaN"
  | .negInf => "-Infinity"
  | .posInf => "Infinity"
  | .finite q =>
    if q.den = 1 ∧ q.num.natAbs ≤ 9007199254740992 then toString q.num else decimal q

/-- The digit of value `d` in `Number.prototype.toString(36)`. -/
def digit36 (d : Nat) : Char :=
  if d < 10 then Char.ofNat (48 + d) else Char.ofNat (87 + d)

/-- The digits of `n` in base 36 in front of `acc`; `fuel` bounds the number of
digits. -/
def toBase36Aux : Nat → Nat → List Char → List Char
  | 0, _, acc => acc
  | fuel + 1, n, acc =>
    if n < 36 then digit36 n :: acc
    else toBase36Aux fuel (n / 36) (digit36 (n % 36) :: acc)

/-- The text `n.toString(36)` of a non-negative integer, here `Date.now()`. -/
def toBase36 (n : Nat) : String :=
  String.mk (toBase36Aux (n + 1) n [])

/-- `REQUIRED_BALANCE` of `insuranceProof.js` (line 6). -/
def REQUIRED_BALANCE : JsNumber := .finite 10

/-- The value that `generateInsuranceProof` resolves with. -/
structure InsuranceResult where
  success : Bool
  proofPayload : Option String
  error : Option String
deriving DecidableEq

/-- `generateInsuranceProof` of `insuranceProof.js` (lines 14-38). `now` is the value
of `Date.now()` after the 600 ms timer, `useDemoBalance` is `opts.useDemoBalance`
(`undefined` for the default `opts`). The payload is the text that `JSON.stringify`
gives for the object of lines 28-33. Nothing inside the `try` block can throw, so
the `catch` branch of line 35 is never taken. -/
def generateInsuranceProof (decimal : ℚ → String) (now : Nat)
    (shieldedBalance : JsNumber) (useDemoBalance : JsVal) : InsuranceResult :=
  let effectiveBalance := if useDemoBalance.truthy then REQUIRED_BALANCE else shieldedBalance
  if JsNumber.lt effectiveBalance REQUIRED_BALANCE then
    { success := false,
      proofPayload := none,
      error := some ("Need at least " ++ JsNumber.toText decimal REQUIRED_BALANCE ++
        " $PRP in your shielded balance. You have " ++
        JsNumber.toText decimal shieldedBalance ++ " $PRP.") }
  else
    { success := true,
      proofPayload := some ("\x7b\"claim\":\"balance_gte\",\"value\":" ++
        JsNumber.toText decimal REQUIRED_BALANCE ++ ",\"nonce\":\"" ++ toBase36 now ++
        "\",\"scope\":\"insurance_discount\"\x7d"),
      error := none }

/-- `canGenerate` of `SelectiveDisclosure.jsx` (line 32):
`shieldedBalance >= 10 || demo10PRP`. -/
def canGenerate (shieldedBalance : JsNumber) (demo10PRP : Bool) : Bool :=
  JsNumber.ge shieldedBalance (.finite 10) || demo10PRP

/-! ## The mock classification (`src/utils/hrvClassification.js`) -/

/-- `CLASSES` of `hrvClassification.js` (line 9). -/
def CLASSES : List String := ["stressed", "recovering", "recovered"]

/-- The double-precision operations `/`, `*` and `+` of line 32, with their
rounding. -/
structure DoubleOps where
  div : JsNumber → JsNumber → JsNumber
  mul : JsNumber → JsNumber → JsNumber
  add : JsNumber → JsNumber → JsNumber

/-- The double that the literal `0.4` denotes. -/
def pointFour : JsNumber := .finite (3602879701896397 / 9007199254740992)

/-- The double that the literal `0.3` denotes. -/
def pointThree : JsNumber := .finite (5404319552844595 / 18014398509481984)

/-- The double that the literal `0.6` denotes. -/
def pointSix : JsNumber := .finite (5404319552844595 / 9007199254740992)

/-- The double that the literal `0.35` denotes. -/
def pointThreeFive : JsNumber := .finite (3152519739159347 / 9007199254740992)

/-- The value of `score` in `classifyMock` (lines 31-32). The row is
`hrvInput[0] || [800, 50, 60, 15]`: an array is truthy, so the default row stands in
only for a missing first row. A missing element is `undefined`, which the division
reads as `NaN`. -/
def mockScore (ops : DoubleOps) (hrvInput : List (List JsNumber)) : JsNumber :=
  let row := hrvInput.head?.getD [.finite 800, .finite 50, .finite 60, .finite 15]
  let rmssd := row.getD 1 .nan
  let sdnn := row.getD 2 .nan
  let pNN50 := row.getD 3 .nan
  ops.add
    (ops.add (ops.mul (ops.div rmssd (.finite 100)) pointFour)
      (ops.mul (ops.div sdnn (.finite 120)) pointThree))
    (ops.mul (ops.div pNN50 (.finite 30)) pointThree)

/-- The value that `classifyMock` returns. -/
structure MockClass where
  classIndex : Nat
  label : Option String
deriving DecidableEq

/-- `classifyMock` of `hrvClassification.js` (lines 30-37). -/
def classifyMock (ops : DoubleOps) (hrvInput : List (List JsNumber)) : MockClass :=
  let score := mockScore ops hrvInput
  let classIndex := if JsNumber.gt score pointSix then 2
    else if JsNumber.gt score pointThreeFive then 1 else 0
  { classIndex := classIndex, label := CLASSES[classIndex]? }

/-- The `witness` object of the mock proof response. -/
structure MockWitness where
  inputs : List (List (List JsNumber))
  outputs : List (List Nat)
  maxLookupInputs : Nat
deriving DecidableEq

/-- The value that `buildMockProofResponse` returns. -/
structure MockProofResponse where
  taskId : String
  status : String
  proof : String
  witness : MockWitness
deriving DecidableEq

/-- `buildMockProofResponse` of `hrvClassification.js` (lines 42-57). `proofHex` is
the random text of lines 43-46, `now` the value of `Date.now()` and `suffix` the
random text `Math.random().toString(36).slice(2, 10)`. -/
def buildMockProofResponse (now : Nat) (suffix proofHex : String)
    (hrvInput : List (List JsNumber)) (classIndex : Nat) : MockProofResponse :=
  { taskId := "mock-" ++ toString now ++ "-" ++ suffix,
    status := "SUCCESS",
    proof := proofHex,
    witness :=
      { inputs := [hrvInput.map (fun row => (row ++ [.finite 0, .finite 0, .finite 0]).take 4)],
        outputs := [[classIndex, 0, 0, 0]],
        maxLookupInputs := 362 } }

/-- The value that `classifyHRVWithEzkl` resolves with. -/
structure HrvResult where
  classification : Option String
  classIndex : Nat
  verified : Bool
  proofId : String
  witness : MockWitness
  proof : String
deriving DecidableEq

/-- `classifyHRVWithEzkl` of `hrvClassification.js` (lines 66-119) on the mock path:
the block of lines 72-104 is skipped (no `artifactId`, or no `window`) or falls
through. `hrvInput` is the `input` of the random `generateMockHRVData`. -/
def classifyHRVWithEzkl (ops : DoubleOps) (hrvInput : List (List JsNumber)) (now : Nat)
    (suffix proofHex : String) : HrvResult :=
  let c := classifyMock ops hrvInput
  let mock := buildMockProofResponse now suffix proofHex hrvInput c.classIndex
  { classification := c.label,
    classIndex := c.classIndex,
    verified := true,
    proofId := mock.taskId,
    witness := mock.witness,
    proof := mock.proof }

/-! ## The HTTP path between the agent and the claim handler -/

/-- The escape of one character in `JSON.stringify` of a string: the quote, the
backslash and the control characters below U+0020 are escaped, every other character
stands for itself. -/
def escapeJson (c : Char) : String :=
  if c.toNat = 34 then "\\\""
  else if c.toNat = 92 then "\\\\"
  else if c.toNat = 8 then "\\b"
  else if c.toNat = 12 then "\\f"
  else if c.toNat = 10 then "\\n"
  else if c.toNat = 13 then "\\r"
  else if c.toNat = 9 then "\\t"
  else if c.toNat < 32 then
    "\\u00" ++ String.mk [digit36 (c.toNat / 16), digit36 (c.toNat % 16)]
  else String.singleton c

/-- The text `JSON.stringify(s)` of a string. -/
def quoteJson (s : String) : String :=
  "\"" ++ String.join (s.data.map escapeJson) ++ "\""

mutual
/-- The text `JSON.stringify(v)` of a value that is not `undefined`; for `undefined`
the text it has as an array element. Integers are written with all their digits. -/
def JsVal.jsonText : JsVal → String
  | .undefined => "null"
  | .null => "null"
  | .bool b => if b then "true" else "false"
  | .num n => toString n
  | .str s => quoteJson s
  | .arr items => "[" ++ JsItems.jsonText items ++ "]"
  | .obj fields => "\x7b" ++ JsFields.jsonText fields ++ "\x7d"
/-- The elements of an array, separated by commas. -/
def JsItems.jsonText : JsItems → String
  | .nil => ""
  | .cons v rest =>
    JsVal.jsonText v ++
    (match rest with
      | .nil => ""
      | r => "," ++ JsItems.jsonText r)
/-- The members of an object, separated by commas; a property whose value is
`undefined` is left out. -/
def JsFields.jsonText : JsFields → String
  | .nil => ""
  | .cons key v rest =>
    match v with
    | .undefined => JsFields.jsonText rest
    | w =>
      quoteJson key ++ ":" ++ JsVal.jsonText w ++
        (if JsFields.jsonText rest = "" then "" else "," ++ JsFields.jsonText rest)
end

/-- HTTP whitespace: tab, line feed, carriage return and space. -/
def isHttpWhitespace (c : Char) : Bool :=
  c.toNat = 9 || c.toNat = 10 || c.toNat = 13 || c.toNat = 32

/-- A header value as `fetch` normalizes it: HTTP whitespace is stripped from both
ends. -/
def normalizeHeaderValue (value : String) : String :=
  String.mk ((value.data.dropWhile isHttpWhitespace).reverse.dropWhile isHttpWhitespace).reverse

/-- A character that a header value may hold on its way to the handler: tab,
U+0020 to U+007E and U+0080 to U+00FF. -/
def isHeaderChar (c : Char) : Bool :=
  c.toNat = 9 || (32 ≤ c.toNat && c.toNat ≤ 126) || (128 ≤ c.toNat && c.toNat ≤ 255)

/-- A header value that reaches the handler. `fetch` throws a `TypeError` for a value
with a character above U+00FF, a NUL, a line feed or a carriage return; the other
control characters are refused by `fetch` or by the HTTP parser of the server,
depending on the platform, and are taken here to be refused by `fetch` too. -/
def isHeaderValue (value : String) : Bool :=
  value.data.all isHeaderChar

/-- The headers of a `fetch` call as they arrive: names in lower case, values
converted to strings and normalized; `none` when `fetch` refuses a value. -/
def wireHeaders : List (String × JsVal) → Option (List (String × String))
  | [] => some []
  | (name, value) :: rest =>
    if isHeaderValue (normalizeHeaderValue value.toText) then
      (wireHeaders rest).map
        (fun arrived => (lowerCase name, normalizeHeaderValue value.toText) :: arrived)
    else none

/-- The request that `claimHandler` receives for a `fetch` call of the agent: the
body parsed from the JSON text, the headers as they arrive. `none` when `fetch`
refuses a header value and sends nothing. -/
def deliver (init : FetchInit) : Option Request :=
  (wireHeaders init.headers).map
    (fun arrived => { body := init.body.jsonClone, headers := arrived })

/-- The default `limit` of `express.json`, `'100kb'`, in bytes. -/
def JSON_LIMIT : Nat := 102400

/-- The answer of Express to a body above the limit of `express.json`
(`server.js`, line 17): status 413 with the error page of its default error
handler, given as `errorPage`. -/
def payloadTooLarge (errorPage : String) : FetchResponse :=
  { status := 413, headers := fun _ => none, text := .ok errorPage }

/-- The world in which every `fetch` of the agent goes to the claim route of
`server.js`: `fetch` throws `refusal` for a header value it refuses; `express.json`
answers a body text of more than `JSON_LIMIT` bytes with 413; every other request is
answered by `claimHandler`. `stringify` stands for `JSON.stringify`, `refusal` for the
`TypeError` of `fetch`; the environment and `parseAmount` are those of `w`. -/
def claimServer (w : World) (stringify : JsVal → String) (refusal : Thrown)
    (errorPage : String) : World :=
  { viteClaimRewardUrl := w.viteClaimRewardUrl,
    vitePrpTokenAddress := w.vitePrpTokenAddress,
    fetch := fun _ init =>
      match deliver init with
      | none => .error refusal
      | some req =>
        if (stringify init.body).utf8ByteSize ≤ JSON_LIMIT then
          .ok (respond stringify (claimHandler req))
        else .ok (payloadTooLarge errorPage),
    parseAmount := w.parseAmount }

/-- A bundle whose signer returns a single space. -/
def blankSigner : Unlink :=
  { send := .value .undefined, activeAccount := .null,
    signX402Header := .func (fun _ => .ok (.str " ")) }

/-- A text of 200000 letters `a`. -/
def longText : String :=
  String.mk (List.replicate 200000 (Char.ofNat 97))

/-- A verified proof result that carries `longText` as its proof. -/
def largeProof : JsVal :=
  .record [("proof", .str longText), ("verified", .bool true)]

/-- The `TypeError` with which `fetch` refuses a header value. -/
def invalidHeaderError : Thrown :=
  { message := some "Invalid header value", asString := "TypeError: Invalid header value" }

/-! ## The agent when anything may be thrown (`src/utils/AgentService.js`)

The definitions above take a thrown value to be like an `Error`: its `message` is a
string. JavaScript lets a function throw any value. The namespace `General` translates
the agent and the shielded transfer once more, for collaborators that may throw any
value; there the `catch` block of the agent can itself throw, and the call can
reject. -/

/-- The search `items.includes(pat)` of an array for a string: an element that is the
string itself. -/
def JsItems.hasText : JsItems → String → Bool
  | .nil, _ => false
  | .cons v rest, pat =>
    (match v with
      | .str s => s == pat
      | _ => false) || JsItems.hasText rest pat

/-- The call `msg.includes(pat)` on a value: a string searches its text, an array its
elements. No other value of `JsVal` has a method `includes`, so the call throws a
`TypeError`, given as `none`. -/
def JsVal.includesText (msg : JsVal) (pat : String) : Option Bool :=
  match msg with
  | .str s => some (includes s pat)
  | .arr items => some (items.hasText pat)
  | _ => none

namespace General

/-- A thrown JavaScript value as the two `catch` blocks observe it: `err?.message`,
which may be any value (`undefined` when the thrown value is `null`, `undefined` or
has no `message`), and `String(err)`, which is `none` when the conversion itself
throws (an object without `toString`). -/
structure Thrown where
  message : JsVal
  asString : Option String
deriving DecidableEq

/-- The value of `err?.message || String(err)`; `none` when `String(err)` is reached
and throws. -/
def Thrown.reason (err : Thrown) : Option JsVal :=
  if err.message.truthy then some err.message else err.asString.map JsVal.str

/-- A thrown value that is like an `Error`: `err?.message || String(err)` is a
string. Its `message` is a non-empty string, or it has no truthy `message` and
`String(err)` is defined. -/
def Thrown.ErrorLike (err : Thrown) : Prop :=
  ∃ text : String, err.reason = some (.str text)

/-- The bundle `{ send, activeAccount, signX402Header }`, read without throwing; a
call of `send` or of the signer returns or throws any value. -/
structure Unlink where
  send : Slot (List SendInput → Except Thrown Unit)
  activeAccount : JsVal
  signX402Header : Slot (String → Except Thrown JsVal)

/-- The `Response` that `fetch` resolves to, as far as the agent reads it. -/
structure FetchResponse where
  status : Nat
  headers : String → Option String
  text : Except Thrown String

/-- The flag `res.ok`: a status in 200..299. -/
def FetchResponse.ok (res : FetchResponse) : Bool :=
  decide (200 ≤ res.status ∧ res.status ≤ 299)

/-- Everything outside the agent. `conversionText` is the message of the `TypeError`
that the engine throws when `String(err)` fails. -/
structure World where
  viteClaimRewardUrl : Option String
  vitePrpTokenAddress : Option String
  fetch : Nat → FetchInit → Except Thrown FetchResponse
  parseAmount : String → Nat → Except Thrown Int
  conversionText : String

/-- The observable effects of a run, in the order in which they happen; the value
handed to `console.error` may be any value. -/
inductive Event where
  | log (line : String)
  | fetch (init : FetchInit)
  | sign (paymentRequest : String)
  | send (inputs : List SendInput)
  | consoleError (label : String) (message : JsVal)
deriving DecidableEq

/-- The record `{ success, error? }`; the `error` is whatever value the `catch` block
took for the message. -/
structure Outcome where
  success : Bool
  error : Option JsVal
deriving DecidableEq

/-- Why a call rejects: the `TypeError` of `msg.includes` for a value without that
method (line 86), or the `TypeError` of `String(err)` (line 85). -/
inductive Failure where
  | includesNotCallable
  | notConvertible
deriving DecidableEq

/-- How the promise of `runClaimRewardAgent` settles: fulfilled with an outcome
record, or rejected. -/
inductive Settled where
  | fulfilled (outcome : Outcome)
  | rejected (failure : Failure)
deriving DecidableEq

/-- The `TypeError` that `String(err)` throws: an `Error` with the text of the
engine. -/
def conversionError (w : World) : Thrown :=
  { message := .str w.conversionText,
    asString := some (if w.conversionText = "" then "TypeError"
      else "TypeError: " ++ w.conversionText) }

/-- `PRP_TOKEN_ADDRESS` of `unlinkReward.js`. -/
def PRP_TOKEN_ADDRESS (w : World) : String :=
  match w.vitePrpTokenAddress with
  | some a => if a ≠ "" then a else "0x0000000000000000000000000000000000000000"
  | none => "0x0000000000000000000000000000000000000000"

/-- The `catch` block of `runShieldedTransfer` (lines 47-51) after the effects
`before`: `String(err)`, when it is reached and throws, throws out of the block. -/
def transferCatch (w : World) (err : Thrown) (before : List Event) :
    Except Thrown Outcome × List Event :=
  match err.reason with
  | none => (.error (conversionError w), before)
  | some message =>
    (.ok { success := false, error := some message },
     before ++ [.consoleError "[Unlink] Shielded send failed:" message])

/-- `runShieldedTransfer` of `unlinkReward.js` (lines 31-52): its result, returned or
thrown, and the effects of the call. -/
def runShieldedTransfer (w : World) (send : Slot (List SendInput → Except Thrown Unit))
    (activeAccount : JsVal) (tokenAddress : String) : Except Thrown Outcome × List Event :=
  match send with
  | .value _ => (.ok { success := false, error := some (.str "Unlink send not available.") }, [])
  | .func sendFn =>
    if !(activeAccount.optProp "address").truthy then
      (.ok { success := false, error := some (.str "No wallet connected.") }, [])
    else
      match w.parseAmount REWARD_AMOUNT PRP_DECIMALS with
      | .error err => transferCatch w err []
      | .ok amount =>
        let inputs : List SendInput :=
          [{ token := tokenAddress, recipient := activeAccount.getProp "address", amount := amount }]
        match sendFn inputs with
        | .ok _ => (.ok { success := true, error := none }, [.send inputs])
        | .error err => transferCatch w err [.send inputs]

/-- `CLAIM_URL` of `AgentService.js` (line 9). -/
def CLAIM_URL (w : World) : String :=
  match w.viteClaimRewardUrl with
  | some u => if u ≠ "" then u else "http://127.0.0.1:5000/api/claim"
  | none => "http://127.0.0.1:5000/api/claim"

/-- The local function `log` (lines 19-22); `onLog` returns normally. -/
def agentLog (msg : String) : Event :=
  .log ("[Agent]: " ++ msg)

/-- The first `fetch` call (lines 35-39). -/
def initialRequest (w : World) (proof : JsVal) : FetchInit :=
  { url := CLAIM_URL w, method := "POST",
    headers := [("Content-Type", .str "application/json")],
    body := .record [("proof", proof)] }

/-- The retry of the signer branch (lines 48-55). -/
def signedRetry (w : World) (proof xPaymentHeader : JsVal) : FetchInit :=
  { url := CLAIM_URL w, method := "POST",
    headers := [("Content-Type", .str "application/json"), ("X-PAYMENT", xPaymentHeader)],
    body := .record [("proof", proof)] }

/-- The retry of the other branch (lines 65-72). -/
def shieldedRetry (w : World) (proof : JsVal) : FetchInit :=
  { url := CLAIM_URL w, method := "POST",
    headers := [("Content-Type", .str "application/json"), ("X-Payment-Resolved", .str "shielded")],
    body := .record [("proof", proof), ("paymentResolved", .bool true)] }

/-- Lines 76-83: the outcome read off the last response `res`. -/
def conclude (res : FetchResponse) : Except Thrown Outcome × List Event :=
  if !res.ok then
    match res.text with
    | .error err => (.error err, [])
    | .ok errText =>
      (.ok { success := false,
             error := some (.str (if errText ≠ "" then errText
               else "HTTP " ++ toString res.status)) },
       [agentLog ("Claim failed: " ++ toString res.status ++ " " ++ errText)])
  else
    (.ok { success := true, error := none },
     [agentLog "200 Success. Shielded payout confirmed on Monad."])

/-- The condition of line 45: the signer and the token when it holds. -/
def signerAndToken (signX402Header : Slot (String → Except Thrown JsVal))
    (paymentRequest : Option String) : Option ((String → Except Thrown JsVal) × String) :=
  match signX402Header, paymentRequest with
  | .func sign, some token => if token ≠ "" then some (sign, token) else none
  | _, _ => none

/-- Lines 46-55 followed by lines 76-83: sign the challenge and retry. -/
def signerBranch (w : World) (proof : JsVal) (sign : String → Except Thrown JsVal)
    (paymentRequest : String) : Except Thrown Outcome × List Event :=
  match sign paymentRequest with
  | .error err => (.error err, [.sign paymentRequest])
  | .ok xPaymentHeader =>
    let before : List Event :=
      [.sign paymentRequest, agentLog "402 Challenge resolved. Retrying with payment header...",
       .fetch (signedRetry w proof xPaymentHeader)]
    match w.fetch 1 (signedRetry w proof xPaymentHeader) with
    | .error err => (.error err, before)
    | .ok res => ((conclude res).1, before ++ (conclude res).2)

/-- Lines 64-72 followed by lines 76-83: retry with the fixed marker. -/
def markerRetry (w : World) (proof : JsVal) : Except Thrown Outcome × List Event :=
  let before : List Event :=
    [agentLog "402 Challenge resolved. Retrying with payment header...",
     .fetch (shieldedRetry w proof)]
  match w.fetch 1 (shieldedRetry w proof) with
  | .error err => (.error err, before)
  | .ok res => ((conclude res).1, before ++ (conclude res).2)

/-- Lines 57-73 followed by lines 76-83: the `else` branch of line 56. What the
transfer throws leaves the `try` block. -/
def transferBranch (w : World) (proof : JsVal) (u : Unlink) :
    Except Thrown Outcome × List Event :=
  if u.send.truthy && (u.activeAccount.optProp "address").truthy then
    match runShieldedTransfer w u.send u.activeAccount (PRP_TOKEN_ADDRESS w) with
    | (.error err, events) => (.error err, events)
    | (.ok transferResult, events) =>
      if !transferResult.success then
        (.ok { success := false, error := transferResult.error },
         events ++ [agentLog ("Shielded transfer failed: " ++
           (transferResult.error.getD .undefined).toText)])
      else
        ((markerRetry w proof).1, events ++ (markerRetry w proof).2)
  else
    markerRetry w proof

/-- The body of the `try` block (lines 35-83). -/
def tryBlock (w : World) (proof : JsVal) (u : Unlink) : Except Thrown Outcome × List Event :=
  match w.fetch 0 (initialRequest w proof) with
  | .error err => (.error err, [.fetch (initialRequest w proof)])
  | .ok res =>
    if res.status = 402 then
      let before : List Event :=
        [.fetch (initialRequest w proof), agentLog "402 Challenge Received. Agent signing payment..."]
      match signerAndToken u.signX402Header (res.headers "x402-payment-request") with
      | some (sign, paymentRequest) =>
        ((signerBranch w proof sign paymentRequest).1,
         before ++ (signerBranch w proof sign paymentRequest).2)
      | none => ((transferBranch w proof u).1, before ++ (transferBranch w proof u).2)
    else
      ((conclude res).1, .fetch (initialRequest w proof) :: (conclude res).2)

/-- The `catch` block (lines 84-91): `String(err)` may throw, and so may
`msg.includes`, when `msg` is a value without that method; then the block logs
nothing and the call rejects. -/
def catchBlock (err : Thrown) : Settled × List Event :=
  match err.reason with
  | none => (.rejected .notConvertible, [])
  | some msg =>
    match msg.includesText "Failed to fetch", msg.includesText "NetworkError",
      msg.includesText "Load failed" with
    | some a, some b, some c =>
      (.fulfilled { success := false, error := some msg },
       [agentLog (if a || b || c then
          "Connection failed. Is the claim server running? Run in a separate terminal: npm run server"
        else "Error: " ++ msg.toText)])
    | _, _, _ => (.rejected .includesNotCallable, [])

/-- The bundle `{}` that `unlink || {}` falls back to. -/
def emptyUnlink : Unlink :=
  { send := .value .undefined, activeAccount := .undefined, signX402Header := .value .undefined }

/-- `runClaimRewardAgent` of `AgentService.js` (lines 18-92): how the call settles,
and the effects of the run. -/
def runClaimRewardAgent (w : World) (proofResult : JsVal) (unlink : Option Unlink) :
    Settled × List Event :=
  if !(proofResult.optProp "verified").truthy then
    (.fulfilled { success := false, error := some (.str "Invalid proof result") }, [])
  else
    let u := unlink.getD emptyUnlink
    let start := agentLog "EZKL Proof detected. Initializing X402 handshake..."
    match tryBlock w proofResult u with
    | (.ok outcome, events) => (.fulfilled outcome, start :: events)
    | (.error err, events) => ((catchBlock err).1, start :: events ++ (catchBlock err).2)

/-- The requests of a run, in the order sent. -/
def requestsOf : List Event → List FetchInit
  | [] => []
  | .fetch init :: rest => init :: requestsOf rest
  | _ :: rest => requestsOf rest

/-- The tokens the signer was called with. -/
def signCallsOf : List Event → List String
  | [] => []
  | .sign token :: rest => token :: signCallsOf rest
  | _ :: rest => signCallsOf rest

/-- A 402 response carrying the challenge token that `server.js` issues. -/
def challengeResponse : FetchResponse :=
  { status := 402,
    headers := fun name => if name = "x402-payment-request" then some "monad-testnet-0x123" else none,
    text := .ok "Payment Required" }

/-- A server that answers 402 to every request. -/
def alwaysChallenge : World :=
  { viteClaimRewardUrl := none, vitePrpTokenAddress := none,
    fetch := fun _ _ => .ok challengeResponse,
    parseAmount := fun _ _ => .ok 1000000000000000000,
    conversionText := "Cannot convert object to primitive value" }

/-- A bundle whose signer throws the object `{ message: 42 }`. -/
def numberThrower : Unlink :=
  { send := .value .undefined, activeAccount := .null,
    signX402Header := .func (fun _ =>
      .error { message := .num 42, asString := some "[object Object]" }) }

/-- A bundle whose signer throws `Object.create(null)`, an object without `message`
and without `toString`. -/
def bareThrower : Unlink :=
  { send := .value .undefined, activeAccount := .null,
    signX402Header := .func (fun _ => .error { message := .undefined, asString := none }) }

/-- A bundle whose signer throws `new Error('User rejected the request')`. -/
def rejectingUnlink : Unlink :=
  { send := .value .undefined, activeAccount := .null,
    signX402Header := .func (fun _ =>
      .error { message := .str "User rejected the request",
               asString := some "Error: User rejected the request" }) }

/-- A value that can reach the `catch` block of the agent: thrown by `fetch`, by
reading the body of a response, or by the signer; or the `TypeError` of a failed
`String(err)` in the `catch` block of the shielded transfer. -/
def ReachesCatch (w : World) (u : Unlink) (err : Thrown) : Prop :=
  (∃ n init, w.fetch n init = .error err) ∨
  (∃ n init res, w.fetch n init = .ok res ∧ res.text = .error err) ∨
  (∃ sign token, u.signX402Header = .func sign ∧ sign token = .error err) ∨
  err = conversionError w

/-- The two forms of an outcome record. -/
def Outcome.WellFormed (outcome : Outcome) : Prop :=
  outcome = { success := true, error := none } ∨
    ∃ reason, outcome = { success := false, error := some reason }

/-- A thrown value with a string `message`, as a thrown value. -/
def ofThrown (err : PrivaPulse.Thrown) : Thrown :=
  { message := match err.message with
      | some m => .str m
      | none => .undefined,
    asString := some err.asString }

/-- A result, returned or thrown. -/
def ofExcept {α : Type} (r : Except PrivaPulse.Thrown α) : Except Thrown α :=
  match r with
  | .ok a => .ok a
  | .error err => .error (ofThrown err)

/-- A member of the bundle. -/
def ofSlot {α β : Type} (slot : Slot (α → Except PrivaPulse.Thrown β)) :
    Slot (α → Except Thrown β) :=
  match slot with
  | .value v => .value v
  | .func f => .func (fun a => ofExcept (f a))

/-- A bundle whose functions throw values with a string `message` only. -/
def ofUnlink (u : PrivaPulse.Unlink) : Unlink :=
  { send := ofSlot u.send, activeAccount := u.activeAccount,
    signX402Header := ofSlot u.signX402Header }

/-- A response whose body read throws a value with a string `message` only. -/
def ofResponse (res : PrivaPulse.FetchResponse) : FetchResponse :=
  { status := res.status, headers := res.headers, text := ofExcept res.text }

/-- A world in which every thrown value has a string `message`. -/
def ofWorld (w : PrivaPulse.World) (conversionText : String) : World :=
  { viteClaimRewardUrl := w.viteClaimRewardUrl,
    vitePrpTokenAddress := w.vitePrpTokenAddress,
    fetch := fun n init =>
      match w.fetch n init with
      | .ok res => .ok (ofResponse res)
      | .error err => .error (ofThrown err),
    parseAmount := fun amount decimals => ofExcept (w.parseAmount amount decimals),
    conversionText := conversionText }

/-- An effect. -/
def ofEvent : PrivaPulse.Event → Event
  | .log line => .log line
  | .fetch init => .fetch init
  | .sign token => .sign token
  | .send inputs => .send inputs
  | .consoleError label message => .consoleError label (.str message)

/-- An outcome record with a string `error`. -/
def ofOutcome (outcome : PrivaPulse.Outcome) : Outcome :=
  { success := outcome.success, error := outcome.error.map JsVal.str }

/-- The result of a `try` block. -/
def ofResult (r : Except PrivaPulse.Thrown PrivaPulse.Outcome × List PrivaPulse.Event) :
    Except Thrown Outcome × List Event :=
  (match r.1 with
    | .ok outcome => .ok (ofOutcome outcome)
    | .error err => .error (ofThrown err),
   r.2.map ofEvent)

end General

/-! ## Server properties -/

theorem truthy_or (a b : JsVal) : (a.or b).truthy = (a.truthy || b.truthy) := by
  unfold JsVal.or
  cases h : a.truthy <;> simp [h]

theorem truthy_lookup (fields : JsFields) (k : String) :
    ((fields.lookup k).getD .undefined).truthy =
      (match fields.lookup k with
        | some v => v.truthy
        | none => false) := by
  cases fields.lookup k <;> rfl

theorem isTrue_lookup (fields : JsFields) (k : String) :
    ((fields.lookup k).getD .undefined).isTrue = decide (fields.lookup k = some (.bool true)) := by
  cases h : fields.lookup k <;> simp [JsVal.isTrue]

/-- The value `hasValidProof` returns is truthy exactly on the payloads that the
specification's contract accepts. -/
theorem hasValidProof_truthy_eq (body : JsVal) :
    (hasValidProof body).truthy = isValidAttestation body := by
  cases body with
  | obj fields =>
    cases hp : fields.lookup "proof" with
    | none => simp [hasValidProof, isValidAttestation, JsVal.getProp, hp, JsVal.truthy]
    | some proof =>
      cases proof with
      | obj pf =>
        have h1 : hasValidProof (.obj fields) =
            ((JsVal.bool ((pf.lookup "verified").getD .undefined).isTrue).or
              ((pf.lookup "proofId").getD .undefined)).or
              ((pf.lookup "classification").getD .undefined) := by
          simp [hasValidProof, JsVal.getProp, hp, JsVal.truthy, JsVal.typeofObject]
        rw [h1, truthy_or, truthy_or, truthy_lookup, truthy_lookup, isTrue_lookup]
        simp [isValidAttestation, hp, JsVal.truthy]
      | arr items =>
        have h1 : hasValidProof (.obj fields) = .undefined := by
          simp [hasValidProof, JsVal.getProp, hp, JsVal.truthy, JsVal.typeofObject, JsVal.or,
            JsVal.isTrue]
        simp [h1, isValidAttestation, hp, JsVal.truthy]
      | _ =>
        simp [hasValidProof, isValidAttestation, JsVal.getProp, hp, JsVal.truthy,
          JsVal.typeofObject]
  | _ => simp [hasValidProof, isValidAttestation, JsVal.truthy, JsVal.typeofObject, JsVal.getProp]

/-- Replacing a falsy body by `{}` (line 58) does not change the verdict. -/
theorem hasValidProof_body_default (body : JsVal) :
    (hasValidProof (body.or (.obj .nil))).truthy = (hasValidProof body).truthy := by
  cases body with
  | bool b =>
    cases b <;>
      simp [JsVal.or, hasValidProof, JsVal.truthy, JsVal.typeofObject, JsVal.getProp,
        JsFields.lookup]
  | num n =>
    by_cases hn : n = 0 <;>
      simp [JsVal.or, hasValidProof, JsVal.truthy, JsVal.typeofObject, JsVal.getProp,
        JsFields.lookup, hn]
  | str s =>
    by_cases hs : s = "" <;>
      simp [JsVal.or, hasValidProof, JsVal.truthy, JsVal.typeofObject, JsVal.getProp,
        JsFields.lookup, hs]
  | _ =>
    simp [JsVal.or, hasValidProof, JsVal.truthy, JsVal.typeofObject, JsVal.getProp,
      JsFields.lookup]

/-- A header counts as payment evidence when it is present and non-empty. -/
theorem header_truthy (req : Request) (name : String) :
    (req.header name).truthy = true ↔ ∃ v, req.headers.lookup name = some v ∧ v ≠ "" := by
  unfold Request.header
  cases req.headers.lookup name <;> simp [JsVal.truthy]

theorem claimHandler_of_invalid (req : Request) (h : (hasValidProof req.body).truthy = false) :
    claimHandler req = invalidProofResponse := by
  simp [claimHandler, hasValidProof_body_default, h, invalidProofResponse]

theorem claimHandler_of_valid_unpaid (req : Request)
    (h : (hasValidProof req.body).truthy = true)
    (hx : (req.header "x-payment").truthy = false)
    (hr : (req.header "x-payment-resolved").truthy = false) :
    claimHandler req = paymentRequiredResponse := by
  simp [claimHandler, hasValidProof_body_default, h, truthy_or, hx, hr, paymentRequiredResponse]

theorem claimHandler_of_valid_paid (req : Request)
    (h : (hasValidProof req.body).truthy = true)
    (hp : (req.header "x-payment").truthy = true ∨ (req.header "x-payment-resolved").truthy = true) :
    claimHandler req = grantedResponse := by
  have : ((req.header "x-payment").truthy || (req.header "x-payment-resolved").truthy) = true := by
    simpa using hp
  simp [claimHandler, hasValidProof_body_default, h, truthy_or, this, grantedResponse]

theorem header_falsy (req : Request) (name : String)
    (h : req.headers.lookup name = none ∨ req.headers.lookup name = some "") :
    (req.header name).truthy = false := by
  unfold Request.header
  rcases h with h | h <;> simp [h, JsVal.truthy]

/-- C1. Every POST /api/claim request whose parsed body is not an object, or whose
`proof` is missing, null, not an object, or is an object that has none of
`verified`, `proofId` and `classification`, is answered with status 400 and the
body `{error: 'Missing or invalid EZKL proof in body'}`, whatever its headers. -/
theorem claimHandler_rejects_absent_proof (req : Request)
    (h : (∀ fields, req.body ≠ .obj fields) ∨
         req.body.getProp "proof" = .undefined ∨
         req.body.getProp "proof" = .null ∨
         (∀ pf, req.body.getProp "proof" ≠ .obj pf) ∨
         (∃ pf, req.body.getProp "proof" = .obj pf ∧ pf.lookup "verified" = none ∧
            pf.lookup "proofId" = none ∧ pf.lookup "classification" = none)) :
    claimHandler req = invalidProofResponse ∧
      (claimHandler req).status = 400 ∧
      (claimHandler req).body = .record [("error", .str "Missing or invalid EZKL proof in body")] := by
  have key : (hasValidProof req.body).truthy = false := by
    rw [hasValidProof_truthy_eq]
    cases hb : req.body with
    | obj fields =>
      rw [hb] at h
      simp only [JsVal.getProp] at h
      cases hp : fields.lookup "proof" with
      | none => simp [isValidAttestation, hp]
      | some proof =>
        rw [hp] at h
        cases proof with
        | obj pf =>
          rcases h with h | h | h | h | ⟨pf2, h, hv, hi, hc⟩
          · exact absurd rfl (h fields)
          · simp at h
          · simp at h
          · exact absurd rfl (h pf)
          · simp only [Option.getD, JsVal.obj.injEq] at h
            subst h
            simp [isValidAttestation, hp, hv, hi, hc]
        | _ => simp [isValidAttestation, hp]
    | _ => simp [isValidAttestation]
  have e := claimHandler_of_invalid req key
  exact ⟨e, by rw [e]; rfl, by rw [e]; rfl⟩

/-- Witness of C1 (scenario B): the body `{}`. -/
theorem claimHandler_rejects_absent_proof_witness :
    (JsVal.record []).getProp "proof" = .undefined ∧
      claimHandler ⟨.record [], []⟩ = invalidProofResponse ∧
      (claimHandler ⟨.record [], []⟩).status = 400 ∧
      (claimHandler ⟨.record [], []⟩).body =
        .record [("error", .str "Missing or invalid EZKL proof in body")] :=
  ⟨by decide, claimHandler_rejects_absent_proof ⟨.record [], []⟩ (Or.inr (Or.inl (by decide)))⟩

/-- C2. Every POST /api/claim request with a valid proof in which each of the
headers X-PAYMENT and X-Payment-Resolved is absent or empty is answered with
status 402, the body `{error: 'Payment Required', message: 'X-PAYMENT header
required to complete claim'}` and the response header `x402-payment-request`,
whose value is the fixed token `monad-testnet-0x123` whatever the proof holds. -/
theorem claimHandler_challenges_unpaid (req : Request)
    (hvalid : (hasValidProof req.body).truthy = true)
    (hx : req.headers.lookup "x-payment" = none ∨ req.headers.lookup "x-payment" = some "")
    (hr : req.headers.lookup "x-payment-resolved" = none ∨
          req.headers.lookup "x-payment-resolved" = some "") :
    claimHandler req = paymentRequiredResponse ∧
      (claimHandler req).status = 402 ∧
      (claimHandler req).headers.lookup "x402-payment-request" = some "monad-testnet-0x123" ∧
      (claimHandler req).body =
        .record [("error", .str "Payment Required"),
                 ("message", .str "X-PAYMENT header required to complete claim")] := by
  have e := claimHandler_of_valid_unpaid req hvalid (header_falsy req _ hx) (header_falsy req _ hr)
  rw [e]
  exact ⟨rfl, rfl, by decide, rfl⟩

/-- Witness of C2 (scenario A): the body `{proof: {verified: true}}`, no headers. -/
theorem claimHandler_challenges_unpaid_witness :
    (hasValidProof (.record [("proof", .record [("verified", .bool true)])])).truthy = true ∧
      claimHandler ⟨.record [("proof", .record [("verified", .bool true)])], []⟩ =
        paymentRequiredResponse :=
  ⟨by decide,
   (claimHandler_challenges_unpaid ⟨.record [("proof", .record [("verified", .bool true)])], []⟩
      (by decide) (Or.inl (by decide)) (Or.inl (by decide))).1⟩

/-- C3. Every POST /api/claim request with a valid proof and a non-empty value in
at least one of the headers X-PAYMENT and X-Payment-Resolved is answered with
status 200 and the body `{success: true, reward: '1.0 PRP'}`, whatever the header
value is. -/
theorem claimHandler_grants_paid (req : Request)
    (hvalid : (hasValidProof req.body).truthy = true)
    (hpay : (∃ v, req.headers.lookup "x-payment" = some v ∧ v ≠ "") ∨
            (∃ v, req.headers.lookup "x-payment-resolved" = some v ∧ v ≠ "")) :
    claimHandler req = grantedResponse ∧
      (claimHandler req).status = 200 ∧
      (claimHandler req).body = .record [("success", .bool true), ("reward", .str "1.0 PRP")] := by
  have e := claimHandler_of_valid_paid req hvalid
    (hpay.imp (header_truthy req _).2 (header_truthy req _).2)
  rw [e]
  exact ⟨rfl, rfl, rfl⟩

/-- Witness of C3 (scenario C): the body `{proof: {proofId: 'abc'}}` with the header
`X-PAYMENT: sig123`. -/
theorem claimHandler_grants_paid_witness :
    (hasValidProof (.record [("proof", .record [("proofId", .str "abc")])])).truthy = true ∧
      claimHandler ⟨.record [("proof", .record [("proofId", .str "abc")])],
        [("x-payment", "sig123")]⟩ = grantedResponse :=
  ⟨by decide,
   (claimHandler_grants_paid
      ⟨.record [("proof", .record [("proofId", .str "abc")])], [("x-payment", "sig123")]⟩
      (by decide) (Or.inl ⟨"sig123", by decide, by decide⟩)).1⟩

/-- C4. The proof check comes first: every request whose body fails
`hasValidProof` is answered with the 400 response, whatever its X-PAYMENT and
X-Payment-Resolved headers hold; the status is never 200 and no
`x402-payment-request` header is set. -/
theorem claimHandler_proof_check_first (req : Request)
    (hinvalid : (hasValidProof req.body).truthy = false) :
    claimHandler req = invalidProofResponse ∧
      (claimHandler req).status = 400 ∧
      (claimHandler req).status ≠ 200 ∧
      (claimHandler req).headers.lookup "x402-payment-request" = none := by
  rw [claimHandler_of_invalid req hinvalid]
  exact ⟨rfl, rfl, by decide, by decide⟩

/-- Witness of C4: a proof with `verified: false` sent with both payment headers. -/
theorem claimHandler_proof_check_first_witness :
    (hasValidProof (.record [("proof", .record [("verified", .bool false)])])).truthy = false ∧
      claimHandler ⟨.record [("proof", .record [("verified", .bool false)])],
        [("x-payment", "sig123"), ("x-payment-resolved", "shielded")]⟩ = invalidProofResponse :=
  ⟨by decide,
   (claimHandler_proof_check_first
      ⟨.record [("proof", .record [("verified", .bool false)])],
        [("x-payment", "sig123"), ("x-payment-resolved", "shielded")]⟩ (by decide)).1⟩

/-- C5, as stated, fails: on the accepted payload `{proof: {proofId: 'abc'}}`
`hasValidProof` returns the string `'abc'`, not `true`, and on the rejected payload
`{proof: {}}` it returns `undefined`, not `false`. -/
theorem hasValidProof_returns_operand :
    isValidAttestation (.record [("proof", .record [("proofId", .str "abc")])]) = true ∧
      hasValidProof (.record [("proof", .record [("proofId", .str "abc")])]) = .str "abc" ∧
      hasValidProof (.record [("proof", .record [("proofId", .str "abc")])]) ≠ .bool true ∧
      isValidAttestation (.record [("proof", .record [])]) = false ∧
      hasValidProof (.record [("proof", .record [])]) = .undefined ∧
      hasValidProof (.record [("proof", .record [])]) ≠ .bool false := by
  decide

/-- C5, amended. `hasValidProof(body)` returns a truthy value if and only if `body`
is a record containing a nested `proof` record that has `verified === true`, or a
truthy (for a string: non-empty) `proofId`, or a truthy `classification`; for every
other payload it returns a falsy value. -/
theorem hasValidProof_accepts_iff (body : JsVal) :
    ((hasValidProof body).truthy = true ↔
      ∃ fields pf, body = .obj fields ∧ fields.lookup "proof" = some (.obj pf) ∧
        (pf.lookup "verified" = some (.bool true) ∨
         (∃ v, pf.lookup "proofId" = some v ∧ v.truthy = true) ∨
         (∃ v, pf.lookup "classification" = some v ∧ v.truthy = true))) ∧
    (hasValidProof body).truthy = isValidAttestation body := by
  refine ⟨?_, hasValidProof_truthy_eq body⟩
  rw [hasValidProof_truthy_eq]
  constructor
  · intro h
    cases body with
    | obj fields =>
      cases hp : fields.lookup "proof" with
      | none => simp [isValidAttestation, hp] at h
      | some proof =>
        cases proof with
        | obj pf =>
          refine ⟨fields, pf, rfl, hp, ?_⟩
          simp only [isValidAttestation, hp, Bool.or_eq_true, decide_eq_true_eq] at h
          rcases h with (h | h) | h
          · exact Or.inl h
          · cases hi : pf.lookup "proofId" with
            | none => simp [hi] at h
            | some v => exact Or.inr (Or.inl ⟨v, rfl, by simpa [hi] using h⟩)
          · cases hc : pf.lookup "classification" with
            | none => simp [hc] at h
            | some v => exact Or.inr (Or.inr ⟨v, rfl, by simpa [hc] using h⟩)
        | _ => simp [isValidAttestation, hp] at h
    | _ => simp [isValidAttestation] at h
  · rintro ⟨fields, pf, rfl, hp, h⟩
    simp only [isValidAttestation, hp, Bool.or_eq_true, decide_eq_true_eq]
    rcases h with h | ⟨v, hv, ht⟩ | ⟨v, hv, ht⟩
    · exact Or.inl (Or.inl h)
    · exact Or.inl (Or.inr (by simp [hv, ht]))
    · exact Or.inr (by simp [hv, ht])

/-! ## Agent properties -/

theorem requestsOf_append (a b : List Event) :
    requestsOf (a ++ b) = requestsOf a ++ requestsOf b := by
  induction a with
  | nil => rfl
  | cons e rest ih => cases e <;> simp [requestsOf, ih]

theorem signCallsOf_append (a b : List Event) :
    signCallsOf (a ++ b) = signCallsOf a ++ signCallsOf b := by
  induction a with
  | nil => rfl
  | cons e rest ih => cases e <;> simp [signCallsOf, ih]

theorem sendCallsOf_append (a b : List Event) :
    sendCallsOf (a ++ b) = sendCallsOf a ++ sendCallsOf b := by
  induction a with
  | nil => rfl
  | cons e rest ih => cases e <;> simp [sendCallsOf, ih]

/-- The agent as the guard of line 24 followed by the settled `try` block. -/
theorem runClaimRewardAgent_eq (w : World) (proofResult : JsVal) (unlink : Option Unlink) :
    runClaimRewardAgent w proofResult unlink =
      if !(proofResult.optProp "verified").truthy then
        ({ success := false, error := some "Invalid proof result" }, [])
      else
        ((settle (tryBlock w proofResult (unlink.getD emptyUnlink))).1,
         agentLog "EZKL Proof detected. Initializing X402 handshake..." ::
           (settle (tryBlock w proofResult (unlink.getD emptyUnlink))).2) := by
  unfold runClaimRewardAgent settle
  split
  · rfl
  · dsimp only
    generalize tryBlock w proofResult (unlink.getD emptyUnlink) = r
    rcases r with ⟨r, events⟩
    cases r <;> rfl

theorem catchBlock_success (err : Thrown) : (catchBlock err).1.success = false := rfl

theorem catchBlock_error (err : Thrown) : (catchBlock err).1.error = some err.reason := rfl

theorem catchBlock_events (err : Thrown) :
    requestsOf (catchBlock err).2 = [] ∧ signCallsOf (catchBlock err).2 = [] ∧
      sendCallsOf (catchBlock err).2 = [] :=
  ⟨rfl, rfl, rfl⟩

theorem settle_requests (r : Except Thrown Outcome × List Event) :
    requestsOf (settle r).2 = requestsOf r.2 := by
  rcases r with ⟨r, events⟩
  cases r <;> simp [settle, requestsOf_append, (catchBlock_events _).1]

theorem settle_signCalls (r : Except Thrown Outcome × List Event) :
    signCallsOf (settle r).2 = signCallsOf r.2 := by
  rcases r with ⟨r, events⟩
  cases r <;> simp [settle, signCallsOf_append, (catchBlock_events _).2.1]

theorem settle_sendCalls (r : Except Thrown Outcome × List Event) :
    sendCallsOf (settle r).2 = sendCallsOf r.2 := by
  rcases r with ⟨r, events⟩
  cases r <;> simp [settle, sendCallsOf_append, (catchBlock_events _).2.2]

theorem conclude_events (res : FetchResponse) :
    requestsOf (conclude res).2 = [] ∧ signCallsOf (conclude res).2 = [] ∧
      sendCallsOf (conclude res).2 = [] := by
  unfold conclude
  split
  · split <;> exact ⟨rfl, rfl, rfl⟩
  · exact ⟨rfl, rfl, rfl⟩

/-- The settled outcome of the last response is a success exactly when `res.ok`. -/
theorem settle_conclude_success (res : FetchResponse) (before : List Event) :
    (settle ((conclude res).1, before)).1.success = res.ok := by
  unfold conclude
  cases h : res.ok
  · cases ht : res.text <;> simp [settle, ht, catchBlock_success]
  · simp [settle]

theorem runShieldedTransfer_events (w : World) (send : Slot (List SendInput → Except Thrown Unit))
    (activeAccount : JsVal) (tokenAddress : String) :
    requestsOf (runShieldedTransfer w send activeAccount tokenAddress).2 = [] ∧
      signCallsOf (runShieldedTransfer w send activeAccount tokenAddress).2 = [] := by
  unfold runShieldedTransfer
  cases send with
  | value v => exact ⟨rfl, rfl⟩
  | func f =>
    dsimp only
    split
    · exact ⟨rfl, rfl⟩
    · split
      · exact ⟨rfl, rfl⟩
      · split <;> exact ⟨rfl, rfl⟩

theorem settle_fst (r : Except Thrown Outcome) (a b : List Event) :
    (settle (r, a)).1 = (settle (r, b)).1 := by
  cases r <;> rfl

theorem markerRetry_events (w : World) (proof : JsVal) :
    requestsOf (markerRetry w proof).2 = [shieldedRetry w proof] ∧
      signCallsOf (markerRetry w proof).2 = [] ∧ sendCallsOf (markerRetry w proof).2 = [] := by
  unfold markerRetry
  dsimp only
  split
  · exact ⟨rfl, rfl, rfl⟩
  · rename_i res _
    have h := conclude_events res
    simp [requestsOf_append, signCallsOf_append, sendCallsOf_append, h, requestsOf, signCallsOf,
      sendCallsOf, agentLog]

/-- The settled marker retry succeeds exactly when its request is answered with an
ok status. -/
theorem markerRetry_success (w : World) (proof : JsVal) (before : List Event) :
    (settle ((markerRetry w proof).1, before)).1.success = true ↔
      ∃ res, w.fetch 1 (shieldedRetry w proof) = .ok res ∧ res.ok = true := by
  unfold markerRetry
  dsimp only
  cases h : w.fetch 1 (shieldedRetry w proof) with
  | error err => simp [settle, catchBlock_success]
  | ok res => simp [settle_conclude_success]

theorem signerBranch_events (w : World) (proof : JsVal) (sign : String → Except Thrown JsVal)
    (token : String) :
    signCallsOf (signerBranch w proof sign token).2 = [token] ∧
      sendCallsOf (signerBranch w proof sign token).2 = [] ∧
      requestsOf (signerBranch w proof sign token).2 =
        (match sign token with
          | .error _ => []
          | .ok credential => [signedRetry w proof credential]) := by
  unfold signerBranch
  cases hs : sign token with
  | error err => exact ⟨rfl, rfl, rfl⟩
  | ok credential =>
    dsimp only
    split
    · exact ⟨rfl, rfl, rfl⟩
    · rename_i res _
      have h := conclude_events res
      simp [requestsOf_append, signCallsOf_append, sendCallsOf_append, h, requestsOf,
        signCallsOf, sendCallsOf, agentLog]

theorem transferBranch_requests (w : World) (proof : JsVal) (u : Unlink) :
    requestsOf (transferBranch w proof u).2 =
      if (u.send.truthy && (u.activeAccount.optProp "address").truthy) = true ∧
          (runShieldedTransfer w u.send u.activeAccount (PRP_TOKEN_ADDRESS w)).1.success = false
      then [] else [shieldedRetry w proof] := by
  unfold transferBranch
  by_cases hc : (u.send.truthy && (u.activeAccount.optProp "address").truthy) = true
  · rw [if_pos hc]
    dsimp only
    cases ht : (runShieldedTransfer w u.send u.activeAccount (PRP_TOKEN_ADDRESS w)).1.success
    · simp [hc, requestsOf_append, (runShieldedTransfer_events w _ _ _).1, requestsOf, agentLog]
    · simp [hc, requestsOf_append, (runShieldedTransfer_events w _ _ _).1,
        (markerRetry_events w proof).1]
  · rw [if_neg hc]
    simp [hc, (markerRetry_events w proof).1]

theorem transferBranch_signCalls (w : World) (proof : JsVal) (u : Unlink) :
    signCallsOf (transferBranch w proof u).2 = [] := by
  unfold transferBranch
  dsimp only
  split
  · split
    · simp [signCallsOf_append, (runShieldedTransfer_events w _ _ _).2, signCallsOf, agentLog]
    · simp [signCallsOf_append, (runShieldedTransfer_events w _ _ _).2,
        (markerRetry_events w proof).2.1]
  · exact (markerRetry_events w proof).2.1

/-- What `signerAndToken` returns is the function in the slot and the non-empty
token of the response. -/
theorem signerAndToken_some (slot : Slot (String → Except Thrown JsVal))
    (paymentRequest : Option String) (sign : String → Except Thrown JsVal) (token : String) :
    signerAndToken slot paymentRequest = some (sign, token) ↔
      slot = .func sign ∧ paymentRequest = some token ∧ token ≠ "" := by
  unfold signerAndToken
  cases slot with
  | value v => simp
  | func f =>
    cases paymentRequest with
    | none => simp
    | some t =>
      by_cases ht : t = ""
      · simp [ht]
        intro _ h1
        exact h1.symm
      · simp [ht]
        intro _ h1
        exact h1 ▸ ht

theorem signerAndToken_none (slot : Slot (String → Except Thrown JsVal))
    (paymentRequest : Option String)
    (h : (∀ sign, slot ≠ .func sign) ∨ paymentRequest = none ∨ paymentRequest = some "") :
    signerAndToken slot paymentRequest = none := by
  unfold signerAndToken
  cases slot with
  | value v => rfl
  | func f =>
    rcases h with h | h | h
    · exact absurd rfl (h f)
    · subst h; rfl
    · subst h; simp

theorem optProp_eq_getProp (v : JsVal) (k : String) : v.optProp k = v.getProp k := by
  cases v <;> rfl

/-- The requests of the `try` block: the initial one, then at most one retry. -/
theorem tryBlock_requests (w : World) (proof : JsVal) (u : Unlink) :
    ∃ rest, requestsOf (tryBlock w proof u).2 = initialRequest w proof :: rest ∧
      rest.length ≤ 1 := by
  unfold tryBlock
  cases h0 : w.fetch 0 (initialRequest w proof) with
  | error err => exact ⟨[], rfl, by simp⟩
  | ok res =>
    dsimp only
    split
    · cases hs : signerAndToken u.signX402Header (res.headers "x402-payment-request") with
      | none =>
        refine ⟨requestsOf (transferBranch w proof u).2, ?_, ?_⟩
        · simp [requestsOf_append, requestsOf, agentLog]
        · rw [transferBranch_requests]
          split <;> simp
      | some st =>
        rcases st with ⟨sign, token⟩
        refine ⟨requestsOf (signerBranch w proof sign token).2, ?_, ?_⟩
        · simp [requestsOf_append, requestsOf, agentLog]
        · rw [(signerBranch_events w proof sign token).2.2]
          split <;> simp
    · exact ⟨[], by simp [requestsOf, (conclude_events res).1], by simp⟩

/-- The `try` block starts with the initial request. -/
theorem tryBlock_starts (w : World) (proof : JsVal) (u : Unlink) :
    ∃ rest, (settle (tryBlock w proof u)).2 = .fetch (initialRequest w proof) :: rest := by
  have key : ∃ rest, (tryBlock w proof u).2 = .fetch (initialRequest w proof) :: rest := by
    unfold tryBlock
    cases h0 : w.fetch 0 (initialRequest w proof) with
    | error err => exact ⟨[], rfl⟩
    | ok res =>
      dsimp only
      split
      · split <;> exact ⟨_, rfl⟩
      · exact ⟨_, rfl⟩
  rcases key with ⟨rest, hrest⟩
  rcases ht : tryBlock w proof u with ⟨r, events⟩
  rw [ht] at hrest
  dsimp only at hrest
  subst hrest
  cases r
  · exact ⟨_, rfl⟩
  · exact ⟨_, rfl⟩

/-- C7. Given a proof result with `verified = false`, or no proof result at all,
the agent returns exactly `{success: false, error: 'Invalid proof result'}` at once:
the run has no effect at all, so no request is sent and neither the signer nor the
transfer is invoked. -/
theorem agent_rejects_unverified (w : World) (proofResult : JsVal) (unlink : Option Unlink)
    (h : proofResult = .undefined ∨ proofResult = .null ∨
         proofResult.getProp "verified" = .bool false) :
    runClaimRewardAgent w proofResult unlink =
        ({ success := false, error := some "Invalid proof result" }, []) ∧
      requestsOf (runClaimRewardAgent w proofResult unlink).2 = [] ∧
      signCallsOf (runClaimRewardAgent w proofResult unlink).2 = [] ∧
      sendCallsOf (runClaimRewardAgent w proofResult unlink).2 = [] := by
  have hv : (proofResult.optProp "verified").truthy = false := by
    rcases h with h | h | h
    · subst h; rfl
    · subst h; rfl
    · rw [optProp_eq_getProp, h]; rfl
  have e : runClaimRewardAgent w proofResult unlink =
      ({ success := false, error := some "Invalid proof result" }, []) := by
    rw [runClaimRewardAgent_eq]
    simp [hv]
  rw [e]
  exact ⟨rfl, rfl, rfl, rfl⟩

/-- Witness of C7 (scenario D): `proof.verified = false`, against a server that
would grant the claim. -/
theorem agent_rejects_unverified_witness :
    (JsVal.record [("verified", .bool false)]).getProp "verified" = .bool false ∧
      runClaimRewardAgent alwaysGrant (.record [("verified", .bool false)]) (some signingUnlink) =
        ({ success := false, error := some "Invalid proof result" }, []) :=
  ⟨by decide,
   (agent_rejects_unverified alwaysGrant (.record [("verified", .bool false)]) (some signingUnlink)
      (Or.inr (Or.inr (by decide)))).1⟩

/-- C8, as stated, fails: with `verified: 1`, which is not the boolean `true`, the
agent does not stop at the guard; it sends the initial request and, the server
granting it, reports success. -/
theorem agent_accepts_truthy_verified :
    (JsVal.record [("verified", .num 1)]).getProp "verified" ≠ .bool true ∧
      runClaimRewardAgent alwaysGrant (.record [("verified", .num 1)]) none =
        ({ success := true, error := none },
         [agentLog "EZKL Proof detected. Initializing X402 handshake...",
          .fetch (initialRequest alwaysGrant (.record [("verified", .num 1)])),
          agentLog "200 Success. Shielded payout confirmed on Monad."]) := by
  decide

/-- C8, amended. The start guard is the truthiness of `proofResult?.verified`: for
every proof result whose `verified` is falsy (`false`, `0`, `''`, `null`,
`undefined` or missing) the agent returns the invalid-proof outcome at once, with no
effect at all; for every proof result whose `verified` is truthy, the boolean `true`
or not, the agent goes on and sends the initial request. -/
theorem agent_guard_is_truthiness (w : World) (proofResult : JsVal) (unlink : Option Unlink) :
    ((proofResult.optProp "verified").truthy = false →
      runClaimRewardAgent w proofResult unlink =
        ({ success := false, error := some "Invalid proof result" }, [])) ∧
    ((proofResult.optProp "verified").truthy = true →
      ∃ rest, (runClaimRewardAgent w proofResult unlink).2 =
        agentLog "EZKL Proof detected. Initializing X402 handshake..." ::
          .fetch (initialRequest w proofResult) :: rest) := by
  constructor
  · intro hv
    rw [runClaimRewardAgent_eq]
    simp [hv]
  · intro hv
    rw [runClaimRewardAgent_eq]
    rcases tryBlock_starts w proofResult (unlink.getD emptyUnlink) with ⟨rest, hrest⟩
    exact ⟨rest, by simp [hv, hrest]⟩

/-- Witness of C8, amended: `verified: 0` stops at the guard, `verified: 'yes'` does
not. -/
theorem agent_guard_is_truthiness_witness :
    ((JsVal.record [("verified", .num 0)]).optProp "verified").truthy = false ∧
      runClaimRewardAgent alwaysGrant (.record [("verified", .num 0)]) none =
        ({ success := false, error := some "Invalid proof result" }, []) ∧
      ((JsVal.record [("verified", .str "yes")]).optProp "verified").truthy = true ∧
      (∃ rest, (runClaimRewardAgent alwaysGrant (.record [("verified", .str "yes")]) none).2 =
        agentLog "EZKL Proof detected. Initializing X402 handshake..." ::
          .fetch (initialRequest alwaysGrant (.record [("verified", .str "yes")])) :: rest) :=
  ⟨by decide,
   (agent_guard_is_truthiness alwaysGrant (.record [("verified", .num 0)]) none).1 (by decide),
   by decide,
   (agent_guard_is_truthiness alwaysGrant (.record [("verified", .str "yes")]) none).2 (by decide)⟩

/-- C10, as stated, fails: with no resolver at all (no signer, no `send`, no
account) and a 402 answer to the initial request, the agent still sends a second
request, which carries `X-Payment-Resolved: shielded` and `paymentResolved: true`,
and reports success when the server grants it. -/
theorem unresolved_challenge_is_retried :
    emptyUnlink.signX402Header.truthy = false ∧ emptyUnlink.send.truthy = false ∧
      (emptyUnlink.activeAccount.optProp "address").truthy = false ∧
      requestsOf (runClaimRewardAgent challengeThenGrant verifiedProof none).2 =
        [initialRequest challengeThenGrant verifiedProof,
         shieldedRetry challengeThenGrant verifiedProof] ∧
      (shieldedRetry challengeThenGrant verifiedProof).headers.lookup "X-Payment-Resolved" =
        some (.str "shielded") ∧
      (runClaimRewardAgent challengeThenGrant verifiedProof none).1 =
        { success := true, error := none } := by
  decide

/-- C10, amended. When the initial response is 402 and neither capability is usable
(no signer function or no challenge token, and no `send` or no
`activeAccount.address`), the agent invokes neither the signer nor the transfer and
still sends exactly one retry, the request with header
`X-Payment-Resolved: shielded` and body `{proof, paymentResolved: true}`; the attempt
succeeds exactly when that retry is answered with an ok status. -/
theorem unresolved_challenge_retries_with_marker (w : World) (proofResult : JsVal)
    (unlink : Option Unlink) (res : FetchResponse)
    (hv : (proofResult.optProp "verified").truthy = true)
    (h0 : w.fetch 0 (initialRequest w proofResult) = .ok res)
    (h402 : res.status = 402)
    (hsigner : (∀ sign, (unlink.getD emptyUnlink).signX402Header ≠ .func sign) ∨
               res.headers "x402-payment-request" = none ∨
               res.headers "x402-payment-request" = some "")
    (htransfer : (unlink.getD emptyUnlink).send.truthy = false ∨
                 ((unlink.getD emptyUnlink).activeAccount.optProp "address").truthy = false) :
    signCallsOf (runClaimRewardAgent w proofResult unlink).2 = [] ∧
      sendCallsOf (runClaimRewardAgent w proofResult unlink).2 = [] ∧
      requestsOf (runClaimRewardAgent w proofResult unlink).2 =
        [initialRequest w proofResult, shieldedRetry w proofResult] ∧
      ((runClaimRewardAgent w proofResult unlink).1.success = true ↔
        ∃ retryRes, w.fetch 1 (shieldedRetry w proofResult) = .ok retryRes ∧
          retryRes.ok = true) := by
  have hst := signerAndToken_none _ _ hsigner
  have hc : ((unlink.getD emptyUnlink).send.truthy &&
      ((unlink.getD emptyUnlink).activeAccount.optProp "address").truthy) = false := by
    rcases htransfer with h | h <;> simp [h]
  have hb : transferBranch w proofResult (unlink.getD emptyUnlink) = markerRetry w proofResult := by
    simp [transferBranch, hc]
  have ht : tryBlock w proofResult (unlink.getD emptyUnlink) =
      ((markerRetry w proofResult).1,
       [.fetch (initialRequest w proofResult),
        agentLog "402 Challenge Received. Agent signing payment..."] ++
         (markerRetry w proofResult).2) := by
    simp [tryBlock, h0, h402, hst, hb]
  have hm := markerRetry_events w proofResult
  rw [runClaimRewardAgent_eq]
  simp only [hv, Bool.not_true, Bool.false_eq_true, if_false, ht]
  refine ⟨?_, ?_, ?_, ?_⟩
  · simp [signCallsOf, agentLog, settle_signCalls, signCallsOf_append, hm.2.1]
  · simp [sendCallsOf, agentLog, settle_sendCalls, sendCallsOf_append, hm.2.2]
  · simp [requestsOf, agentLog, settle_requests, requestsOf_append, hm.1]
  · exact markerRetry_success w proofResult _

/-- Witness of C10, amended: no resolver at all, against a server that answers 402
to every request. -/
theorem unresolved_challenge_retries_with_marker_witness :
    requestsOf (runClaimRewardAgent alwaysChallenge verifiedProof none).2 =
      [initialRequest alwaysChallenge verifiedProof, shieldedRetry alwaysChallenge verifiedProof] :=
  (unresolved_challenge_retries_with_marker alwaysChallenge verifiedProof none challengeResponse
    (by decide) rfl rfl (Or.inl (by intro sign h; cases h)) (Or.inl (by decide))).2.2.1

theorem ok_of_status_402 (res : FetchResponse) (h : res.status = 402) : res.ok = false := by
  simp [FetchResponse.ok, h]

/-- Against a server that always answers 402 the settled marker retry fails. -/
theorem markerRetry_fails_of_challenge (w : World) (proof : JsVal) (before : List Event)
    (hw : AlwaysChallenges w) :
    (settle ((markerRetry w proof).1, before)).1.success = false := by
  cases hs : (settle ((markerRetry w proof).1, before)).1.success with
  | false => rfl
  | true =>
    rcases (markerRetry_success w proof before).1 hs with ⟨res, hres, hok⟩
    rcases hw 1 (shieldedRetry w proof) with ⟨res2, hres2, h402⟩
    rw [hres] at hres2
    cases hres2
    rw [ok_of_status_402 res h402] at hok
    cases hok

/-- C6. Against a server that answers 402 to every request, the agent, called with
a verified proof and a resolver that does not fail, sends the initial request and
exactly one retry, and ends with `success = false`; and for every server, proof
result and resolver, a run sends at most two requests. -/
theorem agent_sends_at_most_two_requests :
    (∀ (w : World) (proofResult : JsVal) (unlink : Option Unlink),
      proofResult.getProp "verified" = .bool true →
      AlwaysChallenges w →
      ResolverNeverFails w (unlink.getD emptyUnlink) →
      (∃ retry, requestsOf (runClaimRewardAgent w proofResult unlink).2 =
        [initialRequest w proofResult, retry]) ∧
      (runClaimRewardAgent w proofResult unlink).1.success = false) ∧
    (∀ (w : World) (proofResult : JsVal) (unlink : Option Unlink),
      (requestsOf (runClaimRewardAgent w proofResult unlink).2).length ≤ 2) := by
  constructor
  · intro w proofResult unlink hverified hw hr
    have hv : (proofResult.optProp "verified").truthy = true := by
      rw [optProp_eq_getProp, hverified]; rfl
    rcases hw 0 (initialRequest w proofResult) with ⟨res, h0, h402⟩
    rw [runClaimRewardAgent_eq]
    simp only [hv, Bool.not_true, Bool.false_eq_true, if_false]
    generalize hu : unlink.getD emptyUnlink = u at hr
    cases hst : signerAndToken u.signX402Header (res.headers "x402-payment-request") with
    | some st =>
      rcases st with ⟨sign, token⟩
      rcases hr.1 sign ((signerAndToken_some _ _ _ _).1 hst).1 token with ⟨credential, hc⟩
      rcases hw 1 (signedRetry w proofResult credential) with ⟨res1, h1, h1402⟩
      have ht : tryBlock w proofResult u =
          ((conclude res1).1,
           [.fetch (initialRequest w proofResult),
            agentLog "402 Challenge Received. Agent signing payment...",
            .sign token, agentLog "402 Challenge resolved. Retrying with payment header...",
            .fetch (signedRetry w proofResult credential)] ++ (conclude res1).2) := by
        simp [tryBlock, h0, h402, hst, signerBranch, hc, h1]
      rw [ht]
      constructor
      · exact ⟨signedRetry w proofResult credential, by
          simp [requestsOf, agentLog, settle_requests, requestsOf_append, (conclude_events res1).1]⟩
      · rw [settle_conclude_success, ok_of_status_402 res1 h1402]
    | none =>
      have hb : (transferBranch w proofResult u).1 = (markerRetry w proofResult).1 := by
        unfold transferBranch
        by_cases hcnd : (u.send.truthy && (u.activeAccount.optProp "address").truthy) = true
        · have hs := hr.2 (by simpa using (Bool.and_eq_true _ _ ▸ hcnd).1)
            (by simpa using (Bool.and_eq_true _ _ ▸ hcnd).2)
          simp [hcnd, hs]
        · simp [hcnd]
      have hq : requestsOf (transferBranch w proofResult u).2 = [shieldedRetry w proofResult] := by
        rw [transferBranch_requests]
        split
        · rename_i hboth
          have hcnd := hboth.1
          have hs := hr.2 (by simpa using (Bool.and_eq_true _ _ ▸ hcnd).1)
            (by simpa using (Bool.and_eq_true _ _ ▸ hcnd).2)
          rw [hs] at hboth
          exact absurd hboth.2 (by decide)
        · rfl
      have ht : tryBlock w proofResult u =
          ((transferBranch w proofResult u).1,
           [.fetch (initialRequest w proofResult),
            agentLog "402 Challenge Received. Agent signing payment..."] ++
             (transferBranch w proofResult u).2) := by
        simp [tryBlock, h0, h402, hst]
      rw [ht, hb]
      constructor
      · exact ⟨shieldedRetry w proofResult, by
          simp [requestsOf, agentLog, settle_requests, requestsOf_append, hq]⟩
      · exact markerRetry_fails_of_challenge w proofResult _ hw
  · intro w proofResult unlink
    rw [runClaimRewardAgent_eq]
    split
    · simp [requestsOf]
    · rcases tryBlock_requests w proofResult (unlink.getD emptyUnlink) with ⟨rest, hrest, hlen⟩
      simp only [requestsOf, agentLog, settle_requests, hrest, List.length_cons]
      omega

/-- Witness of C6: a verified proof and a working signer against a server that
answers 402 to every request. -/
theorem agent_sends_at_most_two_requests_witness :
    (∃ retry, requestsOf (runClaimRewardAgent alwaysChallenge verifiedProof
        (some signingUnlink)).2 = [initialRequest alwaysChallenge verifiedProof, retry]) ∧
      (runClaimRewardAgent alwaysChallenge verifiedProof (some signingUnlink)).1.success = false :=
  agent_sends_at_most_two_requests.1 alwaysChallenge verifiedProof (some signingUnlink)
    (by decide) (fun _ _ => ⟨challengeResponse, rfl, rfl⟩)
    ⟨fun sign h token => by cases h; exact ⟨_, rfl⟩, fun h => by cases h⟩

/-- The `try` block after a 402 answer to the initial request. -/
theorem tryBlock_of_challenge (w : World) (proof : JsVal) (u : Unlink) (res : FetchResponse)
    (h0 : w.fetch 0 (initialRequest w proof) = .ok res) (h402 : res.status = 402) :
    tryBlock w proof u =
      match signerAndToken u.signX402Header (res.headers "x402-payment-request") with
      | some (sign, paymentRequest) =>
        ((signerBranch w proof sign paymentRequest).1,
         [.fetch (initialRequest w proof),
          agentLog "402 Challenge Received. Agent signing payment..."] ++
           (signerBranch w proof sign paymentRequest).2)
      | none =>
        ((transferBranch w proof u).1,
         [.fetch (initialRequest w proof),
          agentLog "402 Challenge Received. Agent signing payment..."] ++
           (transferBranch w proof u).2) := by
  simp [tryBlock, h0, h402]

/-- A failed shielded transfer always names its reason. -/
theorem runShieldedTransfer_failure_reason (w : World)
    (send : Slot (List SendInput → Except Thrown Unit)) (activeAccount : JsVal)
    (tokenAddress : String)
    (h : (runShieldedTransfer w send activeAccount tokenAddress).1.success = false) :
    ∃ reason, (runShieldedTransfer w send activeAccount tokenAddress).1.error = some reason := by
  unfold runShieldedTransfer at h ⊢
  cases send with
  | value v => exact ⟨_, rfl⟩
  | func f =>
    dsimp only at h ⊢
    split
    · exact ⟨_, rfl⟩
    · rename_i haddr
      rw [if_neg haddr] at h
      cases hp : w.parseAmount REWARD_AMOUNT PRP_DECIMALS with
      | error err => exact ⟨_, rfl⟩
      | ok amount =>
        rw [hp] at h
        dsimp only at h ⊢
        cases hs : f [{ token := tokenAddress, recipient := activeAccount.getProp "address",
                        amount := amount }] with
        | error err => exact ⟨_, rfl⟩
        | ok _ => rw [hs] at h; cases h

/-- A successful shielded transfer called `send` once, with the single reward
input. -/
theorem runShieldedTransfer_success_events (w : World)
    (send : Slot (List SendInput → Except Thrown Unit)) (activeAccount : JsVal)
    (tokenAddress : String)
    (h : (runShieldedTransfer w send activeAccount tokenAddress).1.success = true) :
    ∃ amount, w.parseAmount REWARD_AMOUNT PRP_DECIMALS = .ok amount ∧
      (runShieldedTransfer w send activeAccount tokenAddress).2 =
        [.send [{ token := tokenAddress, recipient := activeAccount.getProp "address",
                  amount := amount }]] := by
  unfold runShieldedTransfer at h ⊢
  cases send with
  | value v => cases h
  | func f =>
    dsimp only at h ⊢
    split
    · rename_i haddr
      rw [if_pos haddr] at h
      cases h
    · rename_i haddr
      rw [if_neg haddr] at h
      cases hp : w.parseAmount REWARD_AMOUNT PRP_DECIMALS with
      | error err => rw [hp] at h; cases h
      | ok amount =>
        rw [hp] at h
        dsimp only at h ⊢
        cases hs : f [{ token := tokenAddress, recipient := activeAccount.getProp "address",
                        amount := amount }] with
        | error err => rw [hs] at h; cases h
        | ok _ => exact ⟨amount, rfl, rfl⟩

/-- C11. When the initial response is 402, the signer path is not taken, `send` and
`activeAccount.address` are both there, and the shielded transfer fails, the agent
returns `{success: false, error: reason}` with the reason the transfer reported,
and the initial request is the only request sent. -/
theorem transfer_failure_is_terminal (w : World) (proofResult : JsVal)
    (unlink : Option Unlink) (res : FetchResponse)
    (hv : (proofResult.optProp "verified").truthy = true)
    (h0 : w.fetch 0 (initialRequest w proofResult) = .ok res)
    (h402 : res.status = 402)
    (hsigner : (∀ sign, (unlink.getD emptyUnlink).signX402Header ≠ .func sign) ∨
               res.headers "x402-payment-request" = none ∨
               res.headers "x402-payment-request" = some "")
    (hsend : (unlink.getD emptyUnlink).send.truthy = true)
    (haddr : ((unlink.getD emptyUnlink).activeAccount.optProp "address").truthy = true)
    (hfail : (runShieldedTransfer w (unlink.getD emptyUnlink).send
                (unlink.getD emptyUnlink).activeAccount (PRP_TOKEN_ADDRESS w)).1.success = false) :
    (∃ reason,
      (runShieldedTransfer w (unlink.getD emptyUnlink).send
        (unlink.getD emptyUnlink).activeAccount (PRP_TOKEN_ADDRESS w)).1.error = some reason ∧
      (runClaimRewardAgent w proofResult unlink).1 = { success := false, error := some reason }) ∧
      requestsOf (runClaimRewardAgent w proofResult unlink).2 = [initialRequest w proofResult] ∧
      signCallsOf (runClaimRewardAgent w proofResult unlink).2 = [] := by
  generalize hu : unlink.getD emptyUnlink = u at hsigner hsend haddr hfail
  have hst := signerAndToken_none _ _ hsigner
  rcases runShieldedTransfer_failure_reason w _ _ _ hfail with ⟨reason, hreason⟩
  have hb : transferBranch w proofResult u =
      (.ok { success := false, error := some reason },
       (runShieldedTransfer w u.send u.activeAccount (PRP_TOKEN_ADDRESS w)).2 ++
         [agentLog ("Shielded transfer failed: " ++ reason)]) := by
    simp [transferBranch, hsend, haddr, hfail, hreason]
  have ht := tryBlock_of_challenge w proofResult u res h0 h402
  rw [hst] at ht
  dsimp only at ht
  rw [hb] at ht
  have he := runShieldedTransfer_events w u.send u.activeAccount (PRP_TOKEN_ADDRESS w)
  rw [runClaimRewardAgent_eq]
  simp only [hv, Bool.not_true, Bool.false_eq_true, if_false, hu, ht]
  refine ⟨⟨reason, hreason, rfl⟩, ?_, ?_⟩
  · simp [settle, requestsOf, agentLog, requestsOf_append, he.1]
  · simp [settle, signCallsOf, agentLog, signCallsOf_append, he.2]

/-- Witness of C11: `send` throws `new Error('insufficient funds')` after a 402. -/
theorem transfer_failure_is_terminal_witness :
    (runClaimRewardAgent alwaysChallenge verifiedProof (some failingTransferUnlink)).1 =
        { success := false, error := some "insufficient funds" } ∧
      requestsOf (runClaimRewardAgent alwaysChallenge verifiedProof
        (some failingTransferUnlink)).2 = [initialRequest alwaysChallenge verifiedProof] :=
  have h := transfer_failure_is_terminal alwaysChallenge verifiedProof (some failingTransferUnlink)
    challengeResponse (by decide) rfl rfl (Or.inl (by intro sign h; cases h)) (by decide)
    (by decide) (by decide)
  ⟨by
    rcases h.1 with ⟨reason, hr, ho⟩
    have : reason = "insufficient funds" := by
      have h2 : (runShieldedTransfer alwaysChallenge (Option.getD (some failingTransferUnlink)
          emptyUnlink).send (Option.getD (some failingTransferUnlink) emptyUnlink).activeAccount
          (PRP_TOKEN_ADDRESS alwaysChallenge)).1.error = some "insufficient funds" := by decide
      rw [h2] at hr
      exact (Option.some.inj hr).symm
    rw [ho, this], h.2.1⟩

/-- C12. When the initial response is 402, `signX402Header` is a function and the
response carries a non-empty `x402-payment-request` token, the agent calls the
signer exactly once, with exactly that token, and never calls `send`, whatever
`send` and `activeAccount` are; when the signer returns, exactly one retry is sent,
whose `X-PAYMENT` header is the value the signer returned, whose body is `{proof}`
with no `paymentResolved`, and which has no `X-Payment-Resolved` header. -/
theorem signer_path_signs_and_retries (w : World) (proofResult : JsVal) (u : Unlink)
    (res : FetchResponse) (sign : String → Except Thrown JsVal) (token : String)
    (hv : (proofResult.optProp "verified").truthy = true)
    (h0 : w.fetch 0 (initialRequest w proofResult) = .ok res)
    (h402 : res.status = 402)
    (hsign : u.signX402Header = .func sign)
    (htoken : res.headers "x402-payment-request" = some token)
    (hne : token ≠ "") :
    signCallsOf (runClaimRewardAgent w proofResult (some u)).2 = [token] ∧
      sendCallsOf (runClaimRewardAgent w proofResult (some u)).2 = [] ∧
      (∀ credential, sign token = .ok credential →
        requestsOf (runClaimRewardAgent w proofResult (some u)).2 =
          [initialRequest w proofResult, signedRetry w proofResult credential] ∧
        (signedRetry w proofResult credential).headers.lookup "X-PAYMENT" = some credential ∧
        (signedRetry w proofResult credential).headers.lookup "X-Payment-Resolved" = none ∧
        (signedRetry w proofResult credential).body = .record [("proof", proofResult)] ∧
        (signedRetry w proofResult credential).body.getProp "paymentResolved" = .undefined) := by
  have hst : signerAndToken u.signX402Header (res.headers "x402-payment-request") =
      some (sign, token) :=
    (signerAndToken_some _ _ _ _).2 ⟨hsign, htoken, hne⟩
  have ht := tryBlock_of_challenge w proofResult u res h0 h402
  rw [hst] at ht
  dsimp only at ht
  have hb := signerBranch_events w proofResult sign token
  rw [runClaimRewardAgent_eq]
  simp only [hv, Bool.not_true, Bool.false_eq_true, if_false, Option.getD, ht]
  refine ⟨?_, ?_, ?_⟩
  · simp [signCallsOf, agentLog, settle_signCalls, signCallsOf_append, hb.1]
  · simp [sendCallsOf, agentLog, settle_sendCalls, sendCallsOf_append, hb.2.1]
  · intro credential hc
    refine ⟨?_, ?_, ?_, rfl, ?_⟩
    · simp [requestsOf, agentLog, settle_requests, requestsOf_append, hb.2.2, hc]
    · simp [signedRetry, List.lookup]
    · simp [signedRetry, List.lookup]
    · simp [signedRetry, JsVal.record, JsFields.ofList, JsVal.getProp, JsFields.lookup]

/-- Witness of C12: a signer and a usable transfer side by side; only the signer is
used. -/
theorem signer_path_signs_and_retries_witness :
    signCallsOf (runClaimRewardAgent challengeThenGrant verifiedProof (some fullUnlink)).2 =
        ["monad-testnet-0x123"] ∧
      sendCallsOf (runClaimRewardAgent challengeThenGrant verifiedProof (some fullUnlink)).2 = [] ∧
      requestsOf (runClaimRewardAgent challengeThenGrant verifiedProof (some fullUnlink)).2 =
        [initialRequest challengeThenGrant verifiedProof,
         signedRetry challengeThenGrant verifiedProof (.str "signed:monad-testnet-0x123")] :=
  have h := signer_path_signs_and_retries challengeThenGrant verifiedProof fullUnlink
    challengeResponse (fun token => .ok (.str ("signed:" ++ token))) "monad-testnet-0x123"
    (by decide) rfl rfl rfl rfl (by decide)
  ⟨h.1, h.2.1, (h.2.2 (.str "signed:monad-testnet-0x123") rfl).1⟩

/-- C13. When the initial response is 402, the signer path is not taken, `send` and
`activeAccount.address` are both there and the shielded transfer succeeds, the agent
ran the transfer once (one call of `send`, with the single reward input) and then
sent exactly one retry, with header `X-Payment-Resolved: shielded`, no `X-PAYMENT`
header and body `{proof, paymentResolved: true}`. -/
theorem transfer_path_retries_with_marker (w : World) (proofResult : JsVal)
    (unlink : Option Unlink) (res : FetchResponse)
    (hv : (proofResult.optProp "verified").truthy = true)
    (h0 : w.fetch 0 (initialRequest w proofResult) = .ok res)
    (h402 : res.status = 402)
    (hsigner : (∀ sign, (unlink.getD emptyUnlink).signX402Header ≠ .func sign) ∨
               res.headers "x402-payment-request" = none ∨
               res.headers "x402-payment-request" = some "")
    (hsend : (unlink.getD emptyUnlink).send.truthy = true)
    (haddr : ((unlink.getD emptyUnlink).activeAccount.optProp "address").truthy = true)
    (hok : (runShieldedTransfer w (unlink.getD emptyUnlink).send
              (unlink.getD emptyUnlink).activeAccount (PRP_TOKEN_ADDRESS w)).1.success = true) :
    (∃ amount, w.parseAmount REWARD_AMOUNT PRP_DECIMALS = .ok amount ∧
      sendCallsOf (runClaimRewardAgent w proofResult unlink).2 =
        [[{ token := PRP_TOKEN_ADDRESS w,
            recipient := (unlink.getD emptyUnlink).activeAccount.getProp "address",
            amount := amount }]]) ∧
      signCallsOf (runClaimRewardAgent w proofResult unlink).2 = [] ∧
      requestsOf (runClaimRewardAgent w proofResult unlink).2 =
        [initialRequest w proofResult, shieldedRetry w proofResult] ∧
      (shieldedRetry w proofResult).headers.lookup "X-Payment-Resolved" = some (.str "shielded") ∧
      (shieldedRetry w proofResult).headers.lookup "X-PAYMENT" = none ∧
      (shieldedRetry w proofResult).body =
        .record [("proof", proofResult), ("paymentResolved", .bool true)] := by
  generalize hu : unlink.getD emptyUnlink = u at hsigner hsend haddr hok
  have hst := signerAndToken_none _ _ hsigner
  rcases runShieldedTransfer_success_events w _ _ _ hok with ⟨amount, hamount, hevents⟩
  have hb : transferBranch w proofResult u =
      ((markerRetry w proofResult).1,
       (runShieldedTransfer w u.send u.activeAccount (PRP_TOKEN_ADDRESS w)).2 ++
         (markerRetry w proofResult).2) := by
    simp [transferBranch, hsend, haddr, hok]
  have ht := tryBlock_of_challenge w proofResult u res h0 h402
  rw [hst] at ht
  dsimp only at ht
  rw [hb, hevents] at ht
  have hm := markerRetry_events w proofResult
  rw [runClaimRewardAgent_eq]
  simp only [hv, Bool.not_true, Bool.false_eq_true, if_false, hu, ht]
  refine ⟨⟨amount, hamount, ?_⟩, ?_, ?_, ?_, ?_, rfl⟩
  · simp [sendCallsOf, agentLog, settle_sendCalls, sendCallsOf_append, hm.2.2]
  · simp [signCallsOf, agentLog, settle_signCalls, signCallsOf_append, hm.2.1]
  · simp [requestsOf, agentLog, settle_requests, requestsOf_append, hm.1]
  · simp [shieldedRetry, List.lookup]
  · simp [shieldedRetry, List.lookup]

/-- Witness of C13: no signer, a working transfer, a server that grants the
retry. -/
theorem transfer_path_retries_with_marker_witness :
    sendCallsOf (runClaimRewardAgent challengeThenGrant verifiedProof
        (some transferringUnlink)).2 =
        [[{ token := "0x0000000000000000000000000000000000000000",
            recipient := .str "unlink1qxyz", amount := 1000000000000000000 }]] ∧
      requestsOf (runClaimRewardAgent challengeThenGrant verifiedProof
        (some transferringUnlink)).2 =
        [initialRequest challengeThenGrant verifiedProof,
         shieldedRetry challengeThenGrant verifiedProof] :=
  have h := transfer_path_retries_with_marker challengeThenGrant verifiedProof
    (some transferringUnlink) challengeResponse (by decide) rfl rfl
    (Or.inl (by intro sign h; cases h)) (by decide) (by decide) (by decide)
  ⟨by decide, h.2.2.1⟩

/-- Every run of the `try` block is one of the listed paths. -/
theorem tryBlock_shape (w : World) (proof : JsVal) (u : Unlink) :
    TryShape w proof u (tryBlock w proof u) := by
  cases h0 : w.fetch 0 (initialRequest w proof) with
  | error err =>
    have ht : tryBlock w proof u = (.error err, [.fetch (initialRequest w proof)]) := by
      simp [tryBlock, h0]
    rw [ht]
    exact .initialThrows err h0
  | ok res =>
    by_cases h402 : res.status = 402
    · rw [tryBlock_of_challenge w proof u res h0 h402]
      cases hst : signerAndToken u.signX402Header (res.headers "x402-payment-request") with
      | some st =>
        rcases st with ⟨sign, token⟩
        rcases (signerAndToken_some _ _ _ _).1 hst with ⟨hsign, htoken, hne⟩
        dsimp only
        cases hs : sign token with
        | error err =>
          have hb : signerBranch w proof sign token = (.error err, [.sign token]) := by
            simp [signerBranch, hs]
          rw [hb]
          exact .signerThrows res sign token err h0 h402 hsign htoken hne hs
        | ok credential =>
          cases h1 : w.fetch 1 (signedRetry w proof credential) with
          | error err =>
            have hb : signerBranch w proof sign token =
                (.error err, [.sign token, resolvedLog,
                  .fetch (signedRetry w proof credential)]) := by
              simp [signerBranch, hs, h1, resolvedLog]
            rw [hb]
            exact .signedRetryThrows res sign token credential err h0 h402 hsign htoken hne hs h1
          | ok retryRes =>
            have hb : signerBranch w proof sign token =
                ((conclude retryRes).1, [.sign token, resolvedLog,
                  .fetch (signedRetry w proof credential)] ++ (conclude retryRes).2) := by
              simp [signerBranch, hs, h1, resolvedLog]
            rw [hb]
            exact .signedRetryAnswered res sign token credential retryRes h0 h402 hsign htoken
              hne hs h1
      | none =>
        dsimp only
        have hm : ∀ transferEvents,
            ((u.send.truthy && (u.activeAccount.optProp "address").truthy) = false ∧
                transferEvents = [] ∨
              (u.send.truthy && (u.activeAccount.optProp "address").truthy) = true ∧
                (agentTransfer w u).1.success = true ∧
                transferEvents = (agentTransfer w u).2) →
            TryShape w proof u
              ((markerRetry w proof).1,
               [.fetch (initialRequest w proof), challengeLog] ++ transferEvents ++
                 (markerRetry w proof).2) := by
          intro transferEvents hpre
          cases h1 : w.fetch 1 (shieldedRetry w proof) with
          | error err =>
            have hb : markerRetry w proof =
                (.error err, [resolvedLog, .fetch (shieldedRetry w proof)]) := by
              simp [markerRetry, h1, resolvedLog]
            rw [hb]
            exact .markerRetryThrows res transferEvents err h0 h402 hst hpre h1
          | ok retryRes =>
            have hb : markerRetry w proof =
                ((conclude retryRes).1,
                 [resolvedLog, .fetch (shieldedRetry w proof)] ++ (conclude retryRes).2) := by
              simp [markerRetry, h1, resolvedLog]
            rw [hb]
            have := TryShape.markerRetryAnswered res transferEvents retryRes h0 h402 hst hpre h1
            simpa [List.append_assoc] using this
        by_cases hc : (u.send.truthy && (u.activeAccount.optProp "address").truthy) = true
        · cases hsucc : (agentTransfer w u).1.success with
          | false =>
            have hreason0 := runShieldedTransfer_failure_reason w _ _ _ hsucc
            rcases hreason0 with ⟨reason, hreason⟩
            have hsucc2 : (runShieldedTransfer w u.send u.activeAccount
                (PRP_TOKEN_ADDRESS w)).1.success = false := hsucc
            have hb : transferBranch w proof u =
                (.ok { success := false, error := some reason },
                 (agentTransfer w u).2 ++
                   [agentLog ("Shielded transfer failed: " ++ reason)]) := by
              unfold agentTransfer
              simp [transferBranch, hc, hsucc2, hreason]
            rw [hb]
            have hc2 : u.send.truthy = true ∧
                (u.activeAccount.optProp "address").truthy = true := by simpa using hc
            have : TryShape w proof u _ :=
              TryShape.transferFails res reason h0 h402 hst hc2.1 hc2.2 hsucc hreason
            simpa [List.append_assoc] using this
          | true =>
            have hsucc2 : (runShieldedTransfer w u.send u.activeAccount
                (PRP_TOKEN_ADDRESS w)).1.success = true := hsucc
            have hb : transferBranch w proof u =
                ((markerRetry w proof).1, (agentTransfer w u).2 ++ (markerRetry w proof).2) := by
              unfold agentTransfer
              simp [transferBranch, hc, hsucc2]
            rw [hb]
            have := hm (agentTransfer w u).2 (Or.inr ⟨hc, hsucc, rfl⟩)
            simpa [List.append_assoc] using this
        · have hc2 : (u.send.truthy && (u.activeAccount.optProp "address").truthy) = false := by
            simpa using hc
          have hb : transferBranch w proof u = markerRetry w proof := by
            simp [transferBranch, hc2]
          rw [hb]
          have := hm [] (Or.inl ⟨hc2, rfl⟩)
          simpa using this
    · have ht : tryBlock w proof u =
          ((conclude res).1, .fetch (initialRequest w proof) :: (conclude res).2) := by
        simp [tryBlock, h0, h402]
      rw [ht]
      exact .answered res h0 h402

theorem agentTransfer_events (w : World) (u : Unlink) :
    requestsOf (agentTransfer w u).2 = [] ∧ signCallsOf (agentTransfer w u).2 = [] :=
  runShieldedTransfer_events w u.send u.activeAccount (PRP_TOKEN_ADDRESS w)

/-- Past the guard, the requests of a run are those of its `try` block. -/
theorem run_requests (w : World) (proofResult : JsVal) (unlink : Option Unlink)
    (hv : (proofResult.optProp "verified").truthy = true) :
    requestsOf (runClaimRewardAgent w proofResult unlink).2 =
      requestsOf (tryBlock w proofResult (unlink.getD emptyUnlink)).2 := by
  rw [runClaimRewardAgent_eq]
  simp [hv, requestsOf, agentLog, settle_requests]

/-- Past the guard, the signer calls of a run are those of its `try` block. -/
theorem run_signCalls (w : World) (proofResult : JsVal) (unlink : Option Unlink)
    (hv : (proofResult.optProp "verified").truthy = true) :
    signCallsOf (runClaimRewardAgent w proofResult unlink).2 =
      signCallsOf (tryBlock w proofResult (unlink.getD emptyUnlink)).2 := by
  rw [runClaimRewardAgent_eq]
  simp [hv, signCallsOf, agentLog, settle_signCalls]

/-- Past the guard, a run is its settled `try` block after the opening line. -/
theorem run_of_verified (w : World) (proofResult : JsVal) (unlink : Option Unlink)
    (hv : (proofResult.optProp "verified").truthy = true) :
    runClaimRewardAgent w proofResult unlink =
      ((settle (tryBlock w proofResult (unlink.getD emptyUnlink))).1,
       agentLog "EZKL Proof detected. Initializing X402 handshake..." ::
         (settle (tryBlock w proofResult (unlink.getD emptyUnlink))).2) := by
  rw [runClaimRewardAgent_eq]
  simp [hv]

/-- The requests of each path of the `try` block. -/
theorem shape_requests (w : World) (proof : JsVal) (u : Unlink)
    (r : Except Thrown Outcome × List Event) (hs : TryShape w proof u r) :
    requestsOf r.2 = [initialRequest w proof] ∨
      (∃ first retry, w.fetch 0 (initialRequest w proof) = .ok first ∧ first.status = 402 ∧
        requestsOf r.2 = [initialRequest w proof, retry]) := by
  cases hs with
  | initialThrows err h0 => exact Or.inl rfl
  | answered res h0 h402 =>
    exact Or.inl (by simp [requestsOf, (conclude_events res).1])
  | signerThrows res sign token err h0 h402 hsign htoken hne hs =>
    exact Or.inl rfl
  | signedRetryThrows res sign token credential err h0 h402 hsign htoken hne hs h1 =>
    exact Or.inr ⟨res, _, h0, h402, rfl⟩
  | signedRetryAnswered res sign token credential retryRes h0 h402 hsign htoken hne hs h1 =>
    exact Or.inr ⟨res, signedRetry w proof credential, h0, h402, by
      simp [requestsOf, requestsOf_append, challengeLog, resolvedLog, agentLog,
        (conclude_events retryRes).1]⟩
  | transferFails res reason h0 h402 hst hsend haddr hfail hreason =>
    exact Or.inl (by
      simp [requestsOf, requestsOf_append, challengeLog, agentLog, (agentTransfer_events w u).1])
  | markerRetryThrows res transferEvents err h0 h402 hst hpre h1 =>
    have hq : requestsOf transferEvents = [] := by
      rcases hpre with ⟨_, rfl⟩ | ⟨_, _, rfl⟩
      · rfl
      · exact (agentTransfer_events w u).1
    exact Or.inr ⟨res, shieldedRetry w proof, h0, h402, by
      simp [requestsOf, requestsOf_append, challengeLog, resolvedLog, agentLog, hq]⟩
  | markerRetryAnswered res transferEvents retryRes h0 h402 hst hpre h1 =>
    have hq : requestsOf transferEvents = [] := by
      rcases hpre with ⟨_, rfl⟩ | ⟨_, _, rfl⟩
      · rfl
      · exact (agentTransfer_events w u).1
    exact Or.inr ⟨res, shieldedRetry w proof, h0, h402, by
      simp [requestsOf, requestsOf_append, challengeLog, resolvedLog, agentLog, hq,
        (conclude_events retryRes).1]⟩

/-- C15. In every run the first request is the POST with only the `Content-Type`
header and the body `{proof: proofResult}`: it has no `X-PAYMENT` header, no
`X-Payment-Resolved` header and no `paymentResolved` field. A run sends nothing, or
this request alone, or this request followed by one retry; the retry, the only
request that can carry payment evidence, is sent only after the initial request was
answered with status 402. -/
theorem payment_evidence_only_after_challenge (w : World) (proofResult : JsVal)
    (unlink : Option Unlink) :
    ((initialRequest w proofResult).method = "POST" ∧
      (initialRequest w proofResult).headers = [("Content-Type", .str "application/json")] ∧
      (initialRequest w proofResult).body = .record [("proof", proofResult)] ∧
      (initialRequest w proofResult).headers.lookup "X-PAYMENT" = none ∧
      (initialRequest w proofResult).headers.lookup "X-Payment-Resolved" = none ∧
      (initialRequest w proofResult).body.getProp "paymentResolved" = .undefined) ∧
    (requestsOf (runClaimRewardAgent w proofResult unlink).2 = [] ∨
      requestsOf (runClaimRewardAgent w proofResult unlink).2 = [initialRequest w proofResult] ∨
      ∃ first retry, w.fetch 0 (initialRequest w proofResult) = .ok first ∧
        first.status = 402 ∧
        requestsOf (runClaimRewardAgent w proofResult unlink).2 =
          [initialRequest w proofResult, retry]) := by
  constructor
  · refine ⟨rfl, rfl, rfl, ?_, ?_, ?_⟩
    · simp [initialRequest, List.lookup]
    · simp [initialRequest, List.lookup]
    · simp [initialRequest, JsVal.record, JsFields.ofList, JsVal.getProp, JsFields.lookup]
  · cases hv : (proofResult.optProp "verified").truthy with
    | false =>
      left
      rw [runClaimRewardAgent_eq]
      simp [hv, requestsOf]
    | true =>
      right
      rw [run_requests w proofResult unlink hv]
      exact shape_requests w proofResult _ _ (tryBlock_shape w proofResult _)

/-- The settled outcome of a last response that is not ok and whose body was
read. -/
theorem settle_conclude_failure (res : FetchResponse) (before : List Event) (text : String)
    (hok : res.ok = false) (ht : res.text = .ok text) :
    (settle ((conclude res).1, before)).1 =
      { success := false,
        error := some (if text ≠ "" then text else "HTTP " ++ toString res.status) } := by
  simp [conclude, hok, ht, settle]

/-- A path on which `fetch` answered the last request sent ends with `conclude` of
that answer. -/
theorem shape_of_final (w : World) (proof : JsVal) (u : Unlink)
    (r : Except Thrown Outcome × List Event) (hs : TryShape w proof u r)
    (res first : FetchResponse)
    (h0 : w.fetch 0 (initialRequest w proof) = .ok first)
    (hf : (first.status ≠ 402 ∧ res = first) ∨
      (first.status = 402 ∧ ∃ retry,
        requestsOf r.2 = [initialRequest w proof, retry] ∧ w.fetch 1 retry = .ok res)) :
    ∃ before, r = ((conclude res).1, before ++ (conclude res).2) := by
  cases hs with
  | initialThrows err h0e => rw [h0] at h0e; cases h0e
  | answered res2 h02 h402 =>
    rw [h0] at h02
    cases h02
    rcases hf with ⟨_, rfl⟩ | ⟨h, _⟩
    · exact ⟨[.fetch (initialRequest w proof)], rfl⟩
    · exact absurd h h402
  | signerThrows res2 sign token err h02 h402 hsign htoken hne hs =>
    rw [h0] at h02
    cases h02
    rcases hf with ⟨h, _⟩ | ⟨_, retry, hq, _⟩
    · exact absurd h402 h
    · simp [requestsOf, challengeLog, agentLog] at hq
  | signedRetryThrows res2 sign token credential err h02 h402 hsign htoken hne hs h1 =>
    rw [h0] at h02
    cases h02
    rcases hf with ⟨h, _⟩ | ⟨_, retry, hq, hr⟩
    · exact absurd h402 h
    · simp [requestsOf, challengeLog, resolvedLog, agentLog] at hq
      rw [← hq, h1] at hr
      cases hr
  | signedRetryAnswered res2 sign token credential retryRes h02 h402 hsign htoken hne hs h1 =>
    rw [h0] at h02
    cases h02
    rcases hf with ⟨h, _⟩ | ⟨_, retry, hq, hr⟩
    · exact absurd h402 h
    · simp [requestsOf, requestsOf_append, challengeLog, resolvedLog, agentLog,
        (conclude_events retryRes).1] at hq
      rw [← hq, h1] at hr
      cases hr
      exact ⟨_, rfl⟩
  | transferFails res2 reason h02 h402 hst hsend haddr hfail hreason =>
    rw [h0] at h02
    cases h02
    rcases hf with ⟨h, _⟩ | ⟨_, retry, hq, _⟩
    · exact absurd h402 h
    · simp [requestsOf, requestsOf_append, challengeLog, agentLog,
        (agentTransfer_events w u).1] at hq
  | markerRetryThrows res2 transferEvents err h02 h402 hst hpre h1 =>
    have hqt : requestsOf transferEvents = [] := by
      rcases hpre with ⟨_, rfl⟩ | ⟨_, _, rfl⟩
      · rfl
      · exact (agentTransfer_events w u).1
    rw [h0] at h02
    cases h02
    rcases hf with ⟨h, _⟩ | ⟨_, retry, hq, hr⟩
    · exact absurd h402 h
    · simp [requestsOf, requestsOf_append, challengeLog, resolvedLog, agentLog, hqt] at hq
      rw [← hq, h1] at hr
      cases hr
  | markerRetryAnswered res2 transferEvents retryRes h02 h402 hst hpre h1 =>
    have hqt : requestsOf transferEvents = [] := by
      rcases hpre with ⟨_, rfl⟩ | ⟨_, _, rfl⟩
      · rfl
      · exact (agentTransfer_events w u).1
    rw [h0] at h02
    cases h02
    rcases hf with ⟨h, _⟩ | ⟨_, retry, hq, hr⟩
    · exact absurd h402 h
    · simp [requestsOf, requestsOf_append, challengeLog, resolvedLog, agentLog, hqt,
        (conclude_events retryRes).1] at hq
      rw [← hq, h1] at hr
      cases hr
      exact ⟨_, rfl⟩

/-- Past the guard, a run with a final response ends with `conclude` of it. -/
theorem tryBlock_of_final (w : World) (proofResult : JsVal) (unlink : Option Unlink)
    (res : FetchResponse)
    (hv : (proofResult.optProp "verified").truthy = true)
    (hf : FinalResponse w proofResult unlink res) :
    ∃ before, tryBlock w proofResult (unlink.getD emptyUnlink) =
      ((conclude res).1, before ++ (conclude res).2) := by
  rcases hf with ⟨first, h0, hf⟩
  rw [run_requests w proofResult unlink hv] at hf
  exact shape_of_final w proofResult _ _ (tryBlock_shape w proofResult _) res first h0 hf

/-- A path that ends in success has a final response, and that response is ok. -/
theorem shape_success (w : World) (proof : JsVal) (u : Unlink)
    (r : Except Thrown Outcome × List Event) (hs : TryShape w proof u r)
    (hsucc : (settle r).1.success = true) :
    ∃ res first, w.fetch 0 (initialRequest w proof) = .ok first ∧ res.ok = true ∧
      ((first.status ≠ 402 ∧ res = first) ∨
        (first.status = 402 ∧ ∃ retry,
          requestsOf r.2 = [initialRequest w proof, retry] ∧ w.fetch 1 retry = .ok res)) := by
  cases hs with
  | initialThrows err h0e => simp [settle, catchBlock_success] at hsucc
  | answered res2 h02 h402 =>
    rw [settle_conclude_success] at hsucc
    exact ⟨res2, res2, h02, hsucc, Or.inl ⟨h402, rfl⟩⟩
  | signerThrows res2 sign token err h02 h402 hsign htoken hne hs =>
    simp [settle, catchBlock_success] at hsucc
  | signedRetryThrows res2 sign token credential err h02 h402 hsign htoken hne hs h1 =>
    simp [settle, catchBlock_success] at hsucc
  | signedRetryAnswered res2 sign token credential retryRes h02 h402 hsign htoken hne hs h1 =>
    rw [settle_conclude_success] at hsucc
    exact ⟨retryRes, res2, h02, hsucc, Or.inr ⟨h402, signedRetry w proof credential, by
      simp [requestsOf, requestsOf_append, challengeLog, resolvedLog, agentLog,
        (conclude_events retryRes).1], h1⟩⟩
  | transferFails res2 reason h02 h402 hst hsend haddr hfail hreason =>
    simp [settle] at hsucc
  | markerRetryThrows res2 transferEvents err h02 h402 hst hpre h1 =>
    simp [settle, catchBlock_success] at hsucc
  | markerRetryAnswered res2 transferEvents retryRes h02 h402 hst hpre h1 =>
    have hqt : requestsOf transferEvents = [] := by
      rcases hpre with ⟨_, rfl⟩ | ⟨_, _, rfl⟩
      · rfl
      · exact (agentTransfer_events w u).1
    rw [settle_conclude_success] at hsucc
    exact ⟨retryRes, res2, h02, hsucc, Or.inr ⟨h402, shieldedRetry w proof, by
      simp [requestsOf, requestsOf_append, challengeLog, resolvedLog, agentLog, hqt,
        (conclude_events retryRes).1], h1⟩⟩

/-- C14, as stated, fails: a final response with status 201 is not "exactly 200",
yet the agent reports success. -/
theorem agent_accepts_any_ok_status :
    FinalResponse alwaysCreated verifiedProof none createdResponse ∧
      createdResponse.status = 201 ∧
      runClaimRewardAgent alwaysCreated verifiedProof none =
        ({ success := true, error := none },
         [agentLog "EZKL Proof detected. Initializing X402 handshake...",
          .fetch (initialRequest alwaysCreated verifiedProof),
          agentLog "200 Success. Shielded payout confirmed on Monad."]) :=
  ⟨⟨createdResponse, rfl, Or.inl ⟨by decide, rfl⟩⟩, rfl, by decide⟩

/-- C14, amended. Past the start guard, the agent succeeds if and only if its final
response (the initial response when it is not 402, otherwise the retry response)
has an ok status, that is a status in 200..299; for every final response with
another status (a second 402 included) whose body can be read, the outcome is
`success = false` with `error` equal to the body text, or `HTTP <status>` when the
body is empty. -/
theorem agent_succeeds_iff_final_ok (w : World) (proofResult : JsVal) (unlink : Option Unlink)
    (hv : (proofResult.optProp "verified").truthy = true) :
    ((runClaimRewardAgent w proofResult unlink).1.success = true ↔
      ∃ res, FinalResponse w proofResult unlink res ∧ 200 ≤ res.status ∧ res.status ≤ 299) ∧
    (∀ res text, FinalResponse w proofResult unlink res →
      ¬ (200 ≤ res.status ∧ res.status ≤ 299) → res.text = .ok text →
      (runClaimRewardAgent w proofResult unlink).1 =
        { success := false,
          error := some (if text ≠ "" then text else "HTTP " ++ toString res.status) }) := by
  constructor
  · constructor
    · intro hsucc
      rw [run_of_verified w proofResult unlink hv] at hsucc
      rcases shape_success w proofResult _ _ (tryBlock_shape w proofResult _) hsucc with
        ⟨res, first, h0, hok, hf⟩
      refine ⟨res, ⟨first, h0, ?_⟩, by simpa [FetchResponse.ok] using hok⟩
      rw [run_requests w proofResult unlink hv]
      exact hf
    · rintro ⟨res, hf, hrange⟩
      rcases tryBlock_of_final w proofResult unlink res hv hf with ⟨before, ht⟩
      rw [run_of_verified w proofResult unlink hv, ht]
      dsimp only
      rw [settle_conclude_success]
      simpa [FetchResponse.ok] using hrange
  · intro res text hf hrange htext
    rcases tryBlock_of_final w proofResult unlink res hv hf with ⟨before, ht⟩
    rw [run_of_verified w proofResult unlink hv, ht]
    dsimp only
    exact settle_conclude_failure res _ text (by simpa [FetchResponse.ok] using hrange) htext

/-- Witness of C14, amended: the second 402 of a server that always answers 402 is
final, and its body text is the error. -/
theorem agent_succeeds_iff_final_ok_witness :
    (runClaimRewardAgent alwaysChallenge verifiedProof none).1 =
      { success := false, error := some "Payment Required" } :=
  (agent_succeeds_iff_final_ok alwaysChallenge verifiedProof none (by decide)).2
    challengeResponse "Payment Required"
    ⟨challengeResponse, rfl, Or.inr ⟨rfl, shieldedRetry alwaysChallenge verifiedProof,
      by decide, rfl⟩⟩
    (by decide) rfl

theorem catchBlock_eq (err : Thrown) :
    catchBlock err = ({ success := false, error := some err.reason }, [catchLine err]) := rfl

theorem settle_error (err : Thrown) (before : List Event) :
    settle (.error err, before) =
      ({ success := false, error := some err.reason }, before ++ [catchLine err]) := rfl

theorem getLast_snoc (start : Event) (before : List Event) (last : Event) :
    (start :: (before ++ [last])).getLast? = some last := by
  induction before generalizing start with
  | nil => rfl
  | cons b rest ih =>
    rw [List.cons_append, List.getLast?_cons_cons]
    exact ih b

/-- The settled `conclude` of a response that is not ok, body read. -/
theorem settle_conclude_rejected (res : FetchResponse) (before : List Event) (text : String)
    (hok : res.ok = false) (ht : res.text = .ok text) :
    settle ((conclude res).1, before ++ (conclude res).2) =
      ({ success := false,
         error := some (if text ≠ "" then text else "HTTP " ++ toString res.status) },
       before ++ [agentLog ("Claim failed: " ++ toString res.status ++ " " ++ text)]) := by
  simp [conclude, hok, ht, settle]

/-- The settled `conclude` of a response that is not ok, body unreadable. -/
theorem settle_conclude_unreadable (res : FetchResponse) (before : List Event) (err : Thrown)
    (hok : res.ok = false) (ht : res.text = .error err) :
    settle ((conclude res).1, before ++ (conclude res).2) =
      ({ success := false, error := some err.reason }, before ++ [catchLine err]) := by
  simp [conclude, hok, ht, settle, catchBlock_eq]

theorem describes_catch (err : Thrown) :
    ∃ msg, catchLine err = agentLog msg ∧ DescribesFailure err.reason msg := by
  unfold catchLine DescribesFailure
  cases h : isNetworkError err.reason
  · exact ⟨_, rfl, Or.inr (Or.inr (Or.inl ⟨rfl, by simp⟩))⟩
  · exact ⟨_, rfl, Or.inr (Or.inl ⟨rfl, by simp⟩)⟩

/-- The settled `conclude` of a failed last response ends with a line that
describes the failure. -/
theorem settle_conclude_describes (res : FetchResponse) (before : List Event)
    (hfail : (settle ((conclude res).1, before ++ (conclude res).2)).1.success = false) :
    ∃ reason msg events,
      settle ((conclude res).1, before ++ (conclude res).2) =
        ({ success := false, error := some reason }, events ++ [agentLog msg]) ∧
      DescribesFailure reason msg := by
  have hok : res.ok = false := by
    rw [settle_conclude_success] at hfail
    exact hfail
  cases ht : res.text with
  | ok text =>
    exact ⟨_, _, before, settle_conclude_rejected res before text hok ht,
      Or.inr (Or.inr (Or.inr ⟨res.status, text, rfl, rfl⟩))⟩
  | error err =>
    rcases describes_catch err with ⟨msg, hmsg, hd⟩
    exact ⟨err.reason, msg, before, by
      rw [settle_conclude_unreadable res before err hok ht, hmsg], hd⟩

/-- Every path that fails names a reason and ends with a line that describes it. -/
theorem shape_failure (w : World) (proof : JsVal) (u : Unlink)
    (r : Except Thrown Outcome × List Event) (hs : TryShape w proof u r)
    (hfail : (settle r).1.success = false) :
    ∃ reason msg events,
      settle r = ({ success := false, error := some reason }, events ++ [agentLog msg]) ∧
      DescribesFailure reason msg := by
  cases hs with
  | initialThrows err h0 =>
    rcases describes_catch err with ⟨msg, hmsg, hd⟩
    exact ⟨err.reason, msg, _, by rw [settle_error, hmsg], hd⟩
  | answered res h0 h402 =>
    exact settle_conclude_describes res [.fetch (initialRequest w proof)] hfail
  | signerThrows res sign token err h0 h402 hsign htoken hne hs =>
    rcases describes_catch err with ⟨msg, hmsg, hd⟩
    exact ⟨err.reason, msg, _, by rw [settle_error, hmsg], hd⟩
  | signedRetryThrows res sign token credential err h0 h402 hsign htoken hne hs h1 =>
    rcases describes_catch err with ⟨msg, hmsg, hd⟩
    exact ⟨err.reason, msg, _, by rw [settle_error, hmsg], hd⟩
  | signedRetryAnswered res sign token credential retryRes h0 h402 hsign htoken hne hs h1 =>
    exact settle_conclude_describes retryRes _ hfail
  | transferFails res reason h0 h402 hst hsend haddr hfail2 hreason =>
    exact ⟨reason, _, _, rfl, Or.inl rfl⟩
  | markerRetryThrows res transferEvents err h0 h402 hst hpre h1 =>
    rcases describes_catch err with ⟨msg, hmsg, hd⟩
    exact ⟨err.reason, msg, _, by rw [settle_error, hmsg], hd⟩
  | markerRetryAnswered res transferEvents retryRes h0 h402 hst hpre h1 =>
    exact settle_conclude_describes retryRes _ hfail

/-- C16, as stated, fails: the run stopped by the start guard returns
`success = false` and hands no line at all to `onLog`. -/
theorem guard_failure_is_not_logged :
    (runClaimRewardAgent alwaysGrant (.record [("verified", .bool false)]) none).1.success =
        false ∧
      (runClaimRewardAgent alwaysGrant (.record [("verified", .bool false)]) none).2 = [] := by
  decide

/-- C16, amended. Every run that returns `success = false` carries the error in
the `error` field of the outcome. When the run was stopped by the start guard, the
error is `Invalid proof result` and no line is logged; in every other failed run the
last line handed to `onLog`, which is the last effect of the run, describes that
failure. -/
theorem failures_are_reported (w : World) (proofResult : JsVal) (unlink : Option Unlink)
    (hfail : (runClaimRewardAgent w proofResult unlink).1.success = false) :
    ∃ reason, (runClaimRewardAgent w proofResult unlink).1.error = some reason ∧
      (((proofResult.optProp "verified").truthy = false ∧ reason = "Invalid proof result" ∧
          (runClaimRewardAgent w proofResult unlink).2 = []) ∨
       ((proofResult.optProp "verified").truthy = true ∧
          ∃ msg, (runClaimRewardAgent w proofResult unlink).2.getLast? = some (agentLog msg) ∧
            DescribesFailure reason msg)) := by
  cases hv : (proofResult.optProp "verified").truthy with
  | false =>
    have e : runClaimRewardAgent w proofResult unlink =
        ({ success := false, error := some "Invalid proof result" }, []) := by
      rw [runClaimRewardAgent_eq]
      simp [hv]
    rw [e]
    exact ⟨_, rfl, Or.inl ⟨rfl, rfl, rfl⟩⟩
  | true =>
    rw [run_of_verified w proofResult unlink hv] at hfail ⊢
    rcases shape_failure w proofResult _ _ (tryBlock_shape w proofResult _) hfail with
      ⟨reason, msg, events, hsettle, hd⟩
    rw [hsettle]
    exact ⟨reason, rfl, Or.inr ⟨rfl, msg, getLast_snoc _ _ _, hd⟩⟩

/-- Witness of C16, amended: the signer rejects the challenge; the last line is
`Error: User rejected the request`. -/
theorem failures_are_reported_witness :
    ∃ reason,
      (runClaimRewardAgent alwaysChallenge verifiedProof (some rejectingUnlink)).1.error =
        some reason ∧
      (((verifiedProof.optProp "verified").truthy = false ∧ reason = "Invalid proof result" ∧
          (runClaimRewardAgent alwaysChallenge verifiedProof (some rejectingUnlink)).2 = []) ∨
       ((verifiedProof.optProp "verified").truthy = true ∧
          ∃ msg, (runClaimRewardAgent alwaysChallenge verifiedProof
              (some rejectingUnlink)).2.getLast? = some (agentLog msg) ∧
            DescribesFailure reason msg)) :=
  failures_are_reported alwaysChallenge verifiedProof (some rejectingUnlink) (by decide)

/-- A path on which `fetch` threw, at the initial call or at the retry sent, is a
path that throws that value. -/
theorem shape_of_transport (w : World) (proof : JsVal) (u : Unlink)
    (r : Except Thrown Outcome × List Event) (hs : TryShape w proof u r) (err : Thrown)
    (ht : w.fetch 0 (initialRequest w proof) = .error err ∨
      ∃ retry, requestsOf r.2 = [initialRequest w proof, retry] ∧ w.fetch 1 retry = .error err) :
    ∃ before, r = (.error err, before) := by
  cases hs with
  | initialThrows err2 h0 =>
    rcases ht with h | ⟨retry, hq, _⟩
    · rw [h0] at h
      cases h
      exact ⟨_, rfl⟩
    · simp [requestsOf] at hq
  | answered res h0 h402 =>
    rcases ht with h | ⟨retry, hq, _⟩
    · rw [h0] at h
      cases h
    · simp [requestsOf, (conclude_events res).1] at hq
  | signerThrows res sign token err2 h0 h402 hsign htoken hne hs =>
    rcases ht with h | ⟨retry, hq, _⟩
    · rw [h0] at h
      cases h
    · simp [requestsOf, challengeLog, agentLog] at hq
  | signedRetryThrows res sign token credential err2 h0 h402 hsign htoken hne hs h1 =>
    rcases ht with h | ⟨retry, hq, hr⟩
    · rw [h0] at h
      cases h
    · simp [requestsOf, challengeLog, resolvedLog, agentLog] at hq
      rw [← hq, h1] at hr
      cases hr
      exact ⟨_, rfl⟩
  | signedRetryAnswered res sign token credential retryRes h0 h402 hsign htoken hne hs h1 =>
    rcases ht with h | ⟨retry, hq, hr⟩
    · rw [h0] at h
      cases h
    · simp [requestsOf, requestsOf_append, challengeLog, resolvedLog, agentLog,
        (conclude_events retryRes).1] at hq
      rw [← hq, h1] at hr
      cases hr
  | transferFails res reason h0 h402 hst hsend haddr hfail hreason =>
    rcases ht with h | ⟨retry, hq, _⟩
    · rw [h0] at h
      cases h
    · simp [requestsOf, requestsOf_append, challengeLog, agentLog,
        (agentTransfer_events w u).1] at hq
  | markerRetryThrows res transferEvents err2 h0 h402 hst hpre h1 =>
    have hqt : requestsOf transferEvents = [] := by
      rcases hpre with ⟨_, rfl⟩ | ⟨_, _, rfl⟩
      · rfl
      · exact (agentTransfer_events w u).1
    rcases ht with h | ⟨retry, hq, hr⟩
    · rw [h0] at h
      cases h
    · simp [requestsOf, requestsOf_append, challengeLog, resolvedLog, agentLog, hqt] at hq
      rw [← hq, h1] at hr
      cases hr
      exact ⟨_, rfl⟩
  | markerRetryAnswered res transferEvents retryRes h0 h402 hst hpre h1 =>
    have hqt : requestsOf transferEvents = [] := by
      rcases hpre with ⟨_, rfl⟩ | ⟨_, _, rfl⟩
      · rfl
      · exact (agentTransfer_events w u).1
    rcases ht with h | ⟨retry, hq, hr⟩
    · rw [h0] at h
      cases h
    · simp [requestsOf, requestsOf_append, challengeLog, resolvedLog, agentLog, hqt,
        (conclude_events retryRes).1] at hq
      rw [← hq, h1] at hr
      cases hr

/-- A path on which the signer was called and threw is a path that throws that
value. -/
theorem shape_of_signer_throw (w : World) (proof : JsVal) (u : Unlink)
    (r : Except Thrown Outcome × List Event) (hs : TryShape w proof u r)
    (sign : String → Except Thrown JsVal) (token : String) (err : Thrown)
    (hslot : u.signX402Header = .func sign) (hcalls : signCallsOf r.2 = [token])
    (hthrow : sign token = .error err) :
    ∃ before, r = (.error err, before) := by
  cases hs with
  | initialThrows err2 h0 => simp [signCallsOf] at hcalls
  | answered res h0 h402 => simp [signCallsOf, (conclude_events res).2.1] at hcalls
  | signerThrows res sign2 token2 err2 h0 h402 hsign htoken hne hs =>
    rw [hslot] at hsign
    cases hsign
    simp [signCallsOf, challengeLog, agentLog] at hcalls
    subst hcalls
    rw [hs] at hthrow
    cases hthrow
    exact ⟨_, rfl⟩
  | signedRetryThrows res sign2 token2 credential err2 h0 h402 hsign htoken hne hs h1 =>
    rw [hslot] at hsign
    cases hsign
    simp [signCallsOf, challengeLog, resolvedLog, agentLog] at hcalls
    subst hcalls
    rw [hs] at hthrow
    cases hthrow
  | signedRetryAnswered res sign2 token2 credential retryRes h0 h402 hsign htoken hne hs h1 =>
    rw [hslot] at hsign
    cases hsign
    simp [signCallsOf, signCallsOf_append, challengeLog, resolvedLog, agentLog,
      (conclude_events retryRes).2.1] at hcalls
    subst hcalls
    rw [hs] at hthrow
    cases hthrow
  | transferFails res reason h0 h402 hst hsend haddr hfail hreason =>
    simp [signCallsOf, signCallsOf_append, challengeLog, agentLog,
      (agentTransfer_events w u).2] at hcalls
  | markerRetryThrows res transferEvents err2 h0 h402 hst hpre h1 =>
    have hqt : signCallsOf transferEvents = [] := by
      rcases hpre with ⟨_, rfl⟩ | ⟨_, _, rfl⟩
      · rfl
      · exact (agentTransfer_events w u).2
    simp [signCallsOf, signCallsOf_append, challengeLog, resolvedLog, agentLog, hqt] at hcalls
  | markerRetryAnswered res transferEvents retryRes h0 h402 hst hpre h1 =>
    have hqt : signCallsOf transferEvents = [] := by
      rcases hpre with ⟨_, rfl⟩ | ⟨_, _, rfl⟩
      · rfl
      · exact (agentTransfer_events w u).2
    simp [signCallsOf, signCallsOf_append, challengeLog, resolvedLog, agentLog, hqt,
      (conclude_events retryRes).2.1] at hcalls

/-- Whatever is thrown inside the `try` block is reported by the `catch` block. -/
theorem thrown_is_caught (w : World) (proofResult : JsVal) (unlink : Option Unlink)
    (err : Thrown)
    (hv : (proofResult.optProp "verified").truthy = true)
    (ht : ThrownInAttempt w proofResult unlink err) :
    (runClaimRewardAgent w proofResult unlink).1 = { success := false, error := some err.reason } ∧
      (runClaimRewardAgent w proofResult unlink).2.getLast? = some (catchLine err) := by
  have hshape := tryBlock_shape w proofResult (unlink.getD emptyUnlink)
  rcases ht with ht | ⟨sign, token, hslot, hcalls, hthrow⟩ | ⟨res, hf, hok, htext⟩
  · have ht2 : w.fetch 0 (initialRequest w proofResult) = .error err ∨
        ∃ retry, requestsOf (tryBlock w proofResult (unlink.getD emptyUnlink)).2 =
          [initialRequest w proofResult, retry] ∧ w.fetch 1 retry = .error err := by
      unfold TransportFailure at ht
      rw [run_requests w proofResult unlink hv] at ht
      exact ht
    rcases shape_of_transport w proofResult _ _ hshape err ht2 with ⟨before, hb⟩
    rw [run_of_verified w proofResult unlink hv, hb, settle_error]
    exact ⟨rfl, getLast_snoc _ _ _⟩
  · rw [run_signCalls w proofResult unlink hv] at hcalls
    rcases shape_of_signer_throw w proofResult _ _ hshape sign token err hslot hcalls hthrow with
      ⟨before, hb⟩
    rw [run_of_verified w proofResult unlink hv, hb, settle_error]
    exact ⟨rfl, getLast_snoc _ _ _⟩
  · rcases tryBlock_of_final w proofResult unlink res hv hf with ⟨before, hb⟩
    rw [run_of_verified w proofResult unlink hv, hb,
      settle_conclude_unreadable res before err hok htext]
    exact ⟨rfl, getLast_snoc _ _ _⟩

theorem reason_of_network_message (err : Thrown) (m : String)
    (hm : err.message = some m)
    (hnet : includes m "Failed to fetch" = true ∨ includes m "NetworkError" = true ∨
            includes m "Load failed" = true) :
    err.reason = m ∧ isNetworkError err.reason = true := by
  have hne : m ≠ "" := by
    intro h
    subst h
    revert hnet
    decide
  have hr : err.reason = m := by
    simp [Thrown.reason, hm, hne]
  refine ⟨hr, ?_⟩
  rw [hr]
  unfold isNetworkError
  rcases hnet with h | h | h <;> simp [h]

theorem connectionHint_ne_claim_failed (rest : String) :
    connectionHint ≠ "Claim failed: " ++ rest := by
  intro h
  have hd := congrArg String.data h
  simp [connectionHint, String.data_append] at hd

theorem connectionHint_ne_error (rest : String) : connectionHint ≠ "Error: " ++ rest := by
  intro h
  have hd := congrArg String.data h
  simp [connectionHint, String.data_append] at hd

/-- C17. A transport failure, at the initial call or at the retry, with a message
that contains `Failed to fetch`, `NetworkError` or `Load failed` gives the outcome
`{success: false, error: message}` and, as last trace line, the fixed
connection-failed hint; a server rejection (a final response that is not ok, body
read) gives the last trace line `Claim failed: <status> <body>`; any other value
thrown in the attempt gives `Error: <message>`. The hint is neither a
`Claim failed:` line nor an `Error:` line. -/
theorem transport_failure_is_distinguished (w : World) (proofResult : JsVal)
    (unlink : Option Unlink)
    (hv : (proofResult.optProp "verified").truthy = true) :
    (∀ err m, TransportFailure w proofResult unlink err → err.message = some m →
      (includes m "Failed to fetch" = true ∨ includes m "NetworkError" = true ∨
        includes m "Load failed" = true) →
      (runClaimRewardAgent w proofResult unlink).1 = { success := false, error := some m } ∧
      (runClaimRewardAgent w proofResult unlink).2.getLast? = some (agentLog connectionHint)) ∧
    (∀ res text, FinalResponse w proofResult unlink res →
      ¬ (200 ≤ res.status ∧ res.status ≤ 299) → res.text = .ok text →
      (runClaimRewardAgent w proofResult unlink).2.getLast? =
        some (agentLog ("Claim failed: " ++ toString res.status ++ " " ++ text))) ∧
    (∀ err, ThrownInAttempt w proofResult unlink err → isNetworkError err.reason = false →
      (runClaimRewardAgent w proofResult unlink).1 =
        { success := false, error := some err.reason } ∧
      (runClaimRewardAgent w proofResult unlink).2.getLast? =
        some (agentLog ("Error: " ++ err.reason))) ∧
    (∀ rest, connectionHint ≠ "Claim failed: " ++ rest ∧ connectionHint ≠ "Error: " ++ rest) := by
  refine ⟨?_, ?_, ?_, fun rest => ⟨connectionHint_ne_claim_failed rest,
    connectionHint_ne_error rest⟩⟩
  · intro err m ht hm hnet
    rcases reason_of_network_message err m hm hnet with ⟨hr, hn⟩
    have h := thrown_is_caught w proofResult unlink err hv (Or.inl ht)
    rw [hr] at h
    refine ⟨h.1, ?_⟩
    rw [h.2]
    simp [catchLine, hn]
  · intro res text hf hrange htext
    rcases tryBlock_of_final w proofResult unlink res hv hf with ⟨before, hb⟩
    rw [run_of_verified w proofResult unlink hv, hb,
      settle_conclude_rejected res before text (by simpa [FetchResponse.ok] using hrange) htext]
    exact getLast_snoc _ _ _
  · intro err ht hn
    have h := thrown_is_caught w proofResult unlink err hv ht
    refine ⟨h.1, ?_⟩
    rw [h.2]
    simp [catchLine, hn]

/-- Witness of C17: the server is unreachable at the initial call. -/
theorem transport_failure_is_distinguished_witness :
    (runClaimRewardAgent unreachable verifiedProof none).1 =
        { success := false, error := some "Failed to fetch" } ∧
      (runClaimRewardAgent unreachable verifiedProof none).2.getLast? =
        some (agentLog connectionHint) :=
  (transport_failure_is_distinguished unreachable verifiedProof none (by decide)).1
    { message := some "Failed to fetch", asString := "TypeError: Failed to fetch" }
    "Failed to fetch" (Or.inl rfl) rfl (Or.inl (by decide))

/-- C20. `runShieldedTransfer(send, activeAccount, token)` always returns a result:
`{success: false, error: 'Unlink send not available.'}` when `send` is not a
function; else `{success: false, error: 'No wallet connected.'}` when
`activeAccount` has no address; in both cases `send` is not called. Otherwise, with
`amount` the value of `parseAmount('1.0', 18)`, it calls `send` exactly once, with
the one-element list `{token, recipient: activeAccount.address, amount}`, and
returns `{success: true}` if and only if `send` does not throw, and
`{success: false, error: reason}`, the reason being `err.message` or `String(err)`,
when it throws `err`. -/
theorem runShieldedTransfer_contract (w : World)
    (send : Slot (List SendInput → Except Thrown Unit)) (activeAccount : JsVal)
    (token : String) :
    (∀ v, send = .value v →
      runShieldedTransfer w send activeAccount token =
        ({ success := false, error := some "Unlink send not available." }, [])) ∧
    (∀ f, send = .func f → (activeAccount.optProp "address").truthy = false →
      runShieldedTransfer w send activeAccount token =
        ({ success := false, error := some "No wallet connected." }, [])) ∧
    REWARD_AMOUNT = "1.0" ∧ PRP_DECIMALS = 18 ∧
    (∀ f amount, send = .func f → (activeAccount.optProp "address").truthy = true →
      w.parseAmount "1.0" 18 = .ok amount →
      sendCallsOf (runShieldedTransfer w send activeAccount token).2 =
        [[{ token := token, recipient := activeAccount.getProp "address", amount := amount }]] ∧
      ((runShieldedTransfer w send activeAccount token).1 = { success := true, error := none } ↔
        f [{ token := token, recipient := activeAccount.getProp "address", amount := amount }] =
          .ok ()) ∧
      (∀ err,
        f [{ token := token, recipient := activeAccount.getProp "address", amount := amount }] =
          .error err →
        (runShieldedTransfer w send activeAccount token).1 =
          { success := false, error := some err.reason })) := by
  refine ⟨?_, ?_, rfl, rfl, ?_⟩
  · rintro v rfl
    rfl
  · rintro f rfl haddr
    simp [runShieldedTransfer, haddr]
  · rintro f amount rfl haddr hamount
    have hp : w.parseAmount REWARD_AMOUNT PRP_DECIMALS = .ok amount := hamount
    cases hs : f [{ token := token, recipient := activeAccount.getProp "address",
                    amount := amount }] with
    | error err =>
      have e : runShieldedTransfer w (.func f) activeAccount token =
          ({ success := false, error := some err.reason },
           [.send [{ token := token, recipient := activeAccount.getProp "address",
                     amount := amount }],
            .consoleError "[Unlink] Shielded send failed:" err.reason]) := by
        simp [runShieldedTransfer, haddr, hp, hs]
      rw [e]
      refine ⟨rfl, ?_, ?_⟩
      · constructor
        · intro h
          cases h
        · intro h
          cases h
      · intro err2 h
        cases h
        rfl
    | ok done =>
      have e : runShieldedTransfer w (.func f) activeAccount token =
          ({ success := true, error := none },
           [.send [{ token := token, recipient := activeAccount.getProp "address",
                     amount := amount }]]) := by
        simp [runShieldedTransfer, haddr, hp, hs]
      rw [e]
      refine ⟨rfl, ?_, ?_⟩
      · constructor
        · intro _
          rfl
        · intro _
          rfl
      · intro err2 h
        cases h

/-- Witness of C20: a `send` that throws `new Error('insufficient funds')`. -/
theorem runShieldedTransfer_contract_witness :
    (runShieldedTransfer alwaysGrant failingTransferUnlink.send
        failingTransferUnlink.activeAccount "0xPRP").1 =
      { success := false, error := some "insufficient funds" } :=
  (((runShieldedTransfer_contract alwaysGrant failingTransferUnlink.send
      failingTransferUnlink.activeAccount "0xPRP").2.2.2.2
      (fun _ => .error { message := some "insufficient funds",
                         asString := "Error: insufficient funds" })
      1000000000000000000 rfl (by decide) rfl).2.2
    { message := some "insufficient funds", asString := "Error: insufficient funds" } rfl)

/-- C19, as stated, fails: with the server unreachable the agent returns
`success = false`, and with no `activeAccount` the handler then sets the shielding
status to `'success'`. -/
theorem ui_shows_success_after_agent_failure :
    (runClaimRewardAgent unreachable verifiedProof (some emptyUnlink)).1.success = false ∧
      emptyUnlink.activeAccount.truthy = false ∧
      (handleZenComplete unreachable emptyUnlink verifiedProof idleUi).shieldingStatus =
        some "success" := by
  decide

/-- C19, amended. In `handleZenComplete`, for a classification result with
`verified === true`, the shielding status ends as `'success'` exactly when the agent
returned `success = true`, or, the agent having returned `success = false`, when
there is no `activeAccount` or the fallback `runShieldedTransfer` succeeds; it ends
as `'error'` exactly when the agent failed, there is an `activeAccount` and the
fallback transfer failed. -/
theorem ui_status_after_claim (w : World) (hook : Unlink) (classificationResult : JsVal)
    (s : UiState)
    (hverified : classificationResult.optProp "verified" = .bool true) :
    ((handleZenComplete w hook classificationResult s).shieldingStatus = some "success" ↔
      (runClaimRewardAgent w classificationResult (some hook)).1.success = true ∨
      hook.activeAccount.truthy = false ∨
      (runShieldedTransfer w hook.send hook.activeAccount
        (PRP_TOKEN_ADDRESS w)).1.success = true) ∧
    ((handleZenComplete w hook classificationResult s).shieldingStatus = some "error" ↔
      (runClaimRewardAgent w classificationResult (some hook)).1.success = false ∧
      hook.activeAccount.truthy = true ∧
      (runShieldedTransfer w hook.send hook.activeAccount
        (PRP_TOKEN_ADDRESS w)).1.success = false) := by
  have hv : (classificationResult.optProp "verified").isTrue = true := by
    rw [hverified]
    rfl
  unfold handleZenComplete
  simp only [hv, if_true]
  cases hr : (runClaimRewardAgent w classificationResult (some hook)).1.success <;>
    cases ha : hook.activeAccount.truthy <;>
    cases ht : (runShieldedTransfer w hook.send hook.activeAccount
      (PRP_TOKEN_ADDRESS w)).1.success <;>
    simp

/-- Witness of C19, amended: the agent fails, an account is connected and the
fallback transfer fails too; the status ends as `'error'`. -/
theorem ui_status_after_claim_witness :
    (handleZenComplete unreachable failingTransferUnlink verifiedProof idleUi).shieldingStatus =
      some "error" :=
  (ui_status_after_claim unreachable failingTransferUnlink verifiedProof idleUi
    (by decide)).2.2 ⟨by decide, by decide, by decide⟩

/-! ## Route table properties -/

/-- The handlers of `server.js`, taken by themselves, are the route table of the
specification: `GET /` gives 200, `GET /api/claim` gives 405, `OPTIONS /api/claim`
gives 204 with the `POST, OPTIONS` headers, `POST /api/claim` is answered by
`claimHandler`, and a request that matches no route gets the 404 body with its
path. -/
theorem router_table (headers : List (String × String)) (body : JsVal) :
    router { method := "GET", path := "/", headers := headers, body := body } = rootHandler ∧
    router { method := "GET", path := "/api/claim", headers := headers, body := body } =
      methodNotAllowedHandler ∧
    (router { method := "OPTIONS", path := "/api/claim", headers := headers,
              body := body }).status = 204 ∧
    (router { method := "OPTIONS", path := "/api/claim", headers := headers,
              body := body }).headers.lookup "Access-Control-Allow-Methods" =
      some "POST, OPTIONS" ∧
    (router { method := "OPTIONS", path := "/api/claim", headers := headers,
              body := body }).headers.lookup "Access-Control-Allow-Headers" =
      some "Content-Type, X-PAYMENT, X-Payment-Resolved" ∧
    router { method := "POST", path := "/api/claim", headers := headers, body := body } =
      claimHandler { body := body, headers := headers } ∧
    (∀ req : HttpRequest,
      (req.method = "OPTIONS" && pathMatches "/api/claim" req.path) = false →
      (isGetLike req.method && (lowerCase req.path = "/" || lowerCase req.path = "")) = false →
      (isGetLike req.method && pathMatches "/api/claim" req.path) = false →
      (req.method = "POST" && pathMatches "/api/claim" req.path) = false →
      router req = notFoundHandler req) := by
  refine ⟨?_, ?_, ?_, ?_, ?_, ?_, ?_⟩
  · simp [router, isGetLike, pathMatches, lowerCase]
  · simp [router, isGetLike, pathMatches, lowerCase]
  · simp [router, pathMatches, lowerCase, optionsHandler]
  · simp [router, pathMatches, lowerCase, optionsHandler, List.lookup]
  · simp [router, pathMatches, lowerCase, optionsHandler, List.lookup]
  · simp [router, isGetLike, pathMatches, lowerCase]
  · intro req h1 h2 h3 h4
    unfold router
    rw [h1, h2, h3, h4]
    rfl

/-- C18 fails on the code at `OPTIONS /api/claim`: the `cors` middleware registered
before the routes answers the preflight itself, so the response carries the method
list of `cors`, `GET,HEAD,PUT,PATCH,POST,DELETE`, and the requested headers, not
the `POST, OPTIONS` and `Content-Type, X-PAYMENT, X-Payment-Resolved` of the handler
of lines 24-30, which is never reached; an `OPTIONS` request for a path with no
route is answered 204 in the same way, not 404. -/
theorem preflight_is_answered_by_cors :
    (app claimPreflight).status = 204 ∧
      (app claimPreflight).headers.lookup "Access-Control-Allow-Methods" =
        some "GET,HEAD,PUT,PATCH,POST,DELETE" ∧
      (app claimPreflight).headers.lookup "Access-Control-Allow-Headers" =
        some "content-type,x-payment" ∧
      (router claimPreflight).headers.lookup "Access-Control-Allow-Methods" =
        some "POST, OPTIONS" ∧
      app claimPreflight ≠ router claimPreflight ∧
      (app { method := "OPTIONS", path := "/nowhere", headers := [], body := .undefined }).status =
        204 := by
  decide

/-! ## Further server properties -/

theorem header_truthy_eq (req : Request) (name : String) :
    (req.header name).truthy =
      (match req.headers.lookup name with
        | some v => v != ""
        | none => false) := by
  unfold Request.header
  cases req.headers.lookup name <;> simp [JsVal.truthy]

/-- `claimHandler` as a function of the two verdicts. -/
theorem claimHandler_eq (req : Request) :
    claimHandler req =
      if (hasValidProof req.body).truthy then
        (if paymentEvidence req then grantedResponse else paymentRequiredResponse)
      else invalidProofResponse := by
  have hp : ((req.header "x-payment").or (req.header "x-payment-resolved")).truthy =
      paymentEvidence req := by
    rw [truthy_or, header_truthy_eq, header_truthy_eq]
    rfl
  cases hv : (hasValidProof req.body).truthy with
  | false => simp [claimHandler_of_invalid req hv]
  | true =>
    cases hpay : paymentEvidence req with
    | false =>
      simp [claimHandler, hasValidProof_body_default, hv, hp, hpay, paymentRequiredResponse]
    | true =>
      simp [claimHandler, hasValidProof_body_default, hv, hp, hpay, grantedResponse]

/-- C24. The response of `claimHandler` depends only on whether the proof of the
body is valid and on whether a payment header is non-empty: two requests that agree
on these two facts get the same response (status, body and challenge header). In
particular a body field `paymentResolved: true` changes nothing: a valid proof sent
with it and without a payment header is still answered 402. -/
theorem claimHandler_depends_on_two_facts (r1 r2 : Request)
    (hproof : (hasValidProof r1.body).truthy = (hasValidProof r2.body).truthy)
    (hpay : paymentEvidence r1 = paymentEvidence r2) :
    claimHandler r1 = claimHandler r2 ∧
      (∀ (proof : JsVal) (headers : List (String × String)),
        claimHandler ⟨.record [("proof", proof), ("paymentResolved", .bool true)], headers⟩ =
          claimHandler ⟨.record [("proof", proof)], headers⟩) ∧
      claimHandler ⟨.record [("proof", .record [("verified", .bool true)]),
                             ("paymentResolved", .bool true)], []⟩ = paymentRequiredResponse := by
  refine ⟨?_, ?_, by decide⟩
  · rw [claimHandler_eq r1, claimHandler_eq r2, hproof, hpay]
  · intro proof headers
    rw [claimHandler_eq, claimHandler_eq]
    have hb : hasValidProof (.record [("proof", proof), ("paymentResolved", .bool true)]) =
        hasValidProof (.record [("proof", proof)]) := by
      simp [hasValidProof, JsVal.record, JsFields.ofList, JsVal.getProp, JsFields.lookup,
        JsVal.truthy, JsVal.typeofObject]
    simp only [hb]
    rfl

/-- Witness of C24: two different valid proofs, one paid by `X-PAYMENT`, the other
by `X-Payment-Resolved`, get the same response. -/
theorem claimHandler_depends_on_two_facts_witness :
    claimHandler ⟨.record [("proof", .record [("proofId", .str "abc")])],
        [("x-payment", "sig123")]⟩ =
      claimHandler ⟨.record [("proof", .record [("verified", .bool true)])],
        [("x-payment-resolved", "shielded")]⟩ :=
  (claimHandler_depends_on_two_facts
    ⟨.record [("proof", .record [("proofId", .str "abc")])], [("x-payment", "sig123")]⟩
    ⟨.record [("proof", .record [("verified", .bool true)])],
      [("x-payment-resolved", "shielded")]⟩ (by decide) (by decide)).1

/-! ## Further agent properties -/

theorem logLinesOf_append (a b : List Event) :
    logLinesOf (a ++ b) = logLinesOf a ++ logLinesOf b := by
  induction a with
  | nil => rfl
  | cons e rest ih => cases e <;> simp [logLinesOf, ih]

theorem runShieldedTransfer_logs (w : World) (send : Slot (List SendInput → Except Thrown Unit))
    (activeAccount : JsVal) (tokenAddress : String) :
    logLinesOf (runShieldedTransfer w send activeAccount tokenAddress).2 = [] := by
  unfold runShieldedTransfer
  cases send with
  | value v => rfl
  | func f =>
    dsimp only
    split
    · rfl
    · split
      · rfl
      · split <;> rfl

theorem agentLines_nil : AgentLines [] := by
  intro line h
  simp [logLinesOf] at h

theorem agentLines_append (a b : List Event) (ha : AgentLines a) (hb : AgentLines b) :
    AgentLines (a ++ b) := by
  intro line h
  rw [logLinesOf_append, List.mem_append] at h
  rcases h with h | h
  · exact ha line h
  · exact hb line h

theorem agentLines_log (msg : String) (rest : List Event) (h : AgentLines rest) :
    AgentLines (agentLog msg :: rest) := by
  intro line hl
  simp only [agentLog, logLinesOf, List.mem_cons] at hl
  rcases hl with hl | hl
  · exact ⟨msg, hl⟩
  · exact h line hl

theorem agentLines_fetch (init : FetchInit) (rest : List Event) (h : AgentLines rest) :
    AgentLines (.fetch init :: rest) := by
  intro line hl
  exact h line (by simpa [logLinesOf] using hl)

theorem agentLines_sign (token : String) (rest : List Event) (h : AgentLines rest) :
    AgentLines (.sign token :: rest) := by
  intro line hl
  exact h line (by simpa [logLinesOf] using hl)

theorem agentLines_conclude (res : FetchResponse) : AgentLines (conclude res).2 := by
  unfold conclude
  split
  · split
    · exact agentLines_nil
    · exact agentLines_log _ _ agentLines_nil
  · exact agentLines_log _ _ agentLines_nil

theorem agentLines_transfer (w : World) (u : Unlink) : AgentLines (agentTransfer w u).2 := by
  intro line h
  unfold agentTransfer at h
  rw [runShieldedTransfer_logs] at h
  cases h

theorem agentLines_settle (r : Except Thrown Outcome × List Event) (h : AgentLines r.2) :
    AgentLines (settle r).2 := by
  rcases r with ⟨r, events⟩
  cases r with
  | ok outcome => exact h
  | error err =>
    exact agentLines_append _ _ h (agentLines_log _ _ agentLines_nil)

/-- On every path of the `try` block all logged lines carry the prefix. -/
theorem shape_agentLines (w : World) (proof : JsVal) (u : Unlink)
    (r : Except Thrown Outcome × List Event) (hs : TryShape w proof u r) : AgentLines r.2 := by
  cases hs with
  | initialThrows err h0 => exact agentLines_fetch _ _ agentLines_nil
  | answered res h0 h402 => exact agentLines_fetch _ _ (agentLines_conclude res)
  | signerThrows res sign token err h0 h402 hsign htoken hne hs =>
    exact agentLines_fetch _ _ (agentLines_log _ _ (agentLines_sign _ _ agentLines_nil))
  | signedRetryThrows res sign token credential err h0 h402 hsign htoken hne hs h1 =>
    exact agentLines_fetch _ _ (agentLines_log _ _ (agentLines_sign _ _
      (agentLines_log _ _ (agentLines_fetch _ _ agentLines_nil))))
  | signedRetryAnswered res sign token credential retryRes h0 h402 hsign htoken hne hs h1 =>
    exact agentLines_append _ _
      (agentLines_fetch _ _ (agentLines_log _ _ (agentLines_sign _ _
        (agentLines_log _ _ (agentLines_fetch _ _ agentLines_nil)))))
      (agentLines_conclude retryRes)
  | transferFails res reason h0 h402 hst hsend haddr hfail hreason =>
    exact agentLines_append _ _
      (agentLines_append _ _ (agentLines_fetch _ _ (agentLines_log _ _ agentLines_nil))
        (agentLines_transfer w u))
      (agentLines_log _ _ agentLines_nil)
  | markerRetryThrows res transferEvents err h0 h402 hst hpre h1 =>
    have ht : AgentLines transferEvents := by
      rcases hpre with ⟨_, rfl⟩ | ⟨_, _, rfl⟩
      · exact agentLines_nil
      · exact agentLines_transfer w u
    exact agentLines_append _ _
      (agentLines_append _ _ (agentLines_fetch _ _ (agentLines_log _ _ agentLines_nil)) ht)
      (agentLines_log _ _ (agentLines_fetch _ _ agentLines_nil))
  | markerRetryAnswered res transferEvents retryRes h0 h402 hst hpre h1 =>
    have ht : AgentLines transferEvents := by
      rcases hpre with ⟨_, rfl⟩ | ⟨_, _, rfl⟩
      · exact agentLines_nil
      · exact agentLines_transfer w u
    exact agentLines_append _ _
      (agentLines_append _ _
        (agentLines_append _ _ (agentLines_fetch _ _ (agentLines_log _ _ agentLines_nil)) ht)
        (agentLines_log _ _ (agentLines_fetch _ _ agentLines_nil)))
      (agentLines_conclude retryRes)

theorem ok_not_402 (res : FetchResponse) (h : res.ok = true) : res.status ≠ 402 := by
  intro h402
  rw [ok_of_status_402 res h402] at h
  cases h

theorem settle_conclude_last (res : FetchResponse) (before : List Event) :
    ∃ pre msg, (settle ((conclude res).1, before ++ (conclude res).2)).2 =
      pre ++ [agentLog msg] := by
  unfold conclude
  cases hok : res.ok with
  | true =>
    exact ⟨before, "200 Success. Shielded payout confirmed on Monad.", by simp [settle]⟩
  | false =>
    cases ht : res.text with
    | error err =>
      exact ⟨before, if isNetworkError err.reason then connectionHint else "Error: " ++ err.reason,
        by simp [settle, catchBlock, isNetworkError, connectionHint]⟩
    | ok text =>
      exact ⟨before, "Claim failed: " ++ toString res.status ++ " " ++ text, by simp [settle]⟩

theorem settle_error_last (err : Thrown) (before : List Event) :
    ∃ pre msg, (settle (.error err, before)).2 = pre ++ [agentLog msg] :=
  ⟨before, if isNetworkError err.reason then connectionHint else "Error: " ++ err.reason, rfl⟩

theorem settle_snd_append (r : Except Thrown Outcome) (a : List Event) :
    ∃ tail, (settle (r, a)).2 = a ++ tail := by
  cases r with
  | ok o => exact ⟨[], by simp [settle]⟩
  | error e => exact ⟨_, rfl⟩

/-- The transitions of the `try` block appear in the trace: the run ends with a
logged line, a 402 answer is followed at once by its line, and a retry request is
preceded at once by its line. -/
theorem shape_transitions (w : World) (proof : JsVal) (u : Unlink)
    (r : Except Thrown Outcome × List Event) (hs : TryShape w proof u r) :
    (∃ pre msg, (settle r).2 = pre ++ [agentLog msg]) ∧
    (∀ res, w.fetch 0 (initialRequest w proof) = .ok res → res.status = 402 →
      ∃ rest, (settle r).2 = .fetch (initialRequest w proof) :: challengeLog :: rest) ∧
    (∀ retry, requestsOf (settle r).2 = [initialRequest w proof, retry] →
      ∃ pre post, (settle r).2 = pre ++ resolvedLog :: .fetch retry :: post) := by
  cases hs with
  | initialThrows err h0 =>
    refine ⟨settle_error_last _ _, ?_, ?_⟩
    · intro res h0r h402
      rw [h0] at h0r
      cases h0r
    · intro retry hreq
      rw [settle_requests] at hreq
      simp [requestsOf] at hreq
  | answered res h0 h402 =>
    refine ⟨settle_conclude_last res [.fetch (initialRequest w proof)], ?_, ?_⟩
    · intro res2 h0r h402r
      rw [h0] at h0r
      cases h0r
      exact absurd h402r h402
    · intro retry hreq
      rw [settle_requests] at hreq
      simp [requestsOf, (conclude_events res).1] at hreq
  | signerThrows res sign token err h0 h402 hsign htoken hne hs =>
    refine ⟨settle_error_last _ _, ?_, ?_⟩
    · intro res2 _ _
      exact ⟨_, rfl⟩
    · intro retry hreq
      rw [settle_requests] at hreq
      simp [requestsOf, challengeLog, agentLog] at hreq
  | signedRetryThrows res sign token credential err h0 h402 hsign htoken hne hs h1 =>
    refine ⟨settle_error_last _ _, ?_, ?_⟩
    · intro res2 _ _
      exact ⟨_, rfl⟩
    · intro retry hreq
      rw [settle_requests] at hreq
      simp [requestsOf, challengeLog, resolvedLog, agentLog] at hreq
      subst hreq
      exact ⟨[.fetch (initialRequest w proof), challengeLog, .sign token], _, rfl⟩
  | signedRetryAnswered res sign token credential retryRes h0 h402 hsign htoken hne hs h1 =>
    refine ⟨settle_conclude_last retryRes _, ?_, ?_⟩
    · intro res2 _ _
      rcases settle_snd_append (conclude retryRes).1
        ([.fetch (initialRequest w proof), challengeLog, .sign token, resolvedLog,
          .fetch (signedRetry w proof credential)] ++ (conclude retryRes).2) with ⟨tail, ht⟩
      exact ⟨_, by rw [ht]; rfl⟩
    · intro retry hreq
      rw [settle_requests] at hreq
      simp [requestsOf, requestsOf_append, (conclude_events retryRes).1, challengeLog,
        resolvedLog, agentLog] at hreq
      subst hreq
      rcases settle_snd_append (conclude retryRes).1
        ([.fetch (initialRequest w proof), challengeLog, .sign token, resolvedLog,
          .fetch (signedRetry w proof credential)] ++ (conclude retryRes).2) with ⟨tail, ht⟩
      exact ⟨[.fetch (initialRequest w proof), challengeLog, .sign token],
        (conclude retryRes).2 ++ tail, by rw [ht]; simp⟩
  | transferFails res reason h0 h402 hst hsend haddr hfail hreason =>
    refine ⟨⟨_, _, rfl⟩, ?_, ?_⟩
    · intro res2 _ _
      exact ⟨_, rfl⟩
    · intro retry hreq
      rw [settle_requests] at hreq
      simp [requestsOf, requestsOf_append, (agentTransfer_events w u).1, challengeLog,
        agentLog] at hreq
  | markerRetryThrows res transferEvents err h0 h402 hst hpre h1 =>
    have ht : requestsOf transferEvents = [] := by
      rcases hpre with ⟨_, rfl⟩ | ⟨_, _, rfl⟩
      · rfl
      · exact (agentTransfer_events w u).1
    refine ⟨settle_error_last _ _, ?_, ?_⟩
    · intro res2 _ _
      exact ⟨_, rfl⟩
    · intro retry hreq
      rw [settle_requests] at hreq
      simp [requestsOf, requestsOf_append, ht, challengeLog, resolvedLog, agentLog] at hreq
      subst hreq
      exact ⟨[.fetch (initialRequest w proof), challengeLog] ++ transferEvents,
        (catchBlock err).2, by simp [settle]⟩
  | markerRetryAnswered res transferEvents retryRes h0 h402 hst hpre h1 =>
    have ht : requestsOf transferEvents = [] := by
      rcases hpre with ⟨_, rfl⟩ | ⟨_, _, rfl⟩
      · rfl
      · exact (agentTransfer_events w u).1
    refine ⟨settle_conclude_last retryRes _, ?_, ?_⟩
    · intro res2 _ _
      rcases settle_snd_append (conclude retryRes).1
        ([.fetch (initialRequest w proof), challengeLog] ++ transferEvents ++
          [resolvedLog, .fetch (shieldedRetry w proof)] ++ (conclude retryRes).2) with ⟨tail, htl⟩
      exact ⟨transferEvents ++ resolvedLog :: .fetch (shieldedRetry w proof) ::
        ((conclude retryRes).2 ++ tail), by rw [htl]; simp⟩
    · intro retry hreq
      rw [settle_requests] at hreq
      simp [requestsOf, requestsOf_append, ht, (conclude_events retryRes).1, challengeLog,
        resolvedLog, agentLog] at hreq
      subst hreq
      rcases settle_snd_append (conclude retryRes).1
        ([.fetch (initialRequest w proof), challengeLog] ++ transferEvents ++
          [resolvedLog, .fetch (shieldedRetry w proof)] ++ (conclude retryRes).2) with ⟨tail, htl⟩
      exact ⟨[.fetch (initialRequest w proof), challengeLog] ++ transferEvents,
        (conclude retryRes).2 ++ tail, by rw [htl]; simp⟩

/-- Past the start guard, the transitions of a run appear in its trace. -/
theorem run_transitions (w : World) (proofResult : JsVal) (unlink : Option Unlink)
    (hv : (proofResult.optProp "verified").truthy = true) :
      (∃ rest, (runClaimRewardAgent w proofResult unlink).2 =
        .log "[Agent]: EZKL Proof detected. Initializing X402 handshake..." ::
          .fetch (initialRequest w proofResult) :: rest) ∧
      (∀ res, w.fetch 0 (initialRequest w proofResult) = .ok res → res.status = 402 →
        ∃ rest, (runClaimRewardAgent w proofResult unlink).2 =
          .log "[Agent]: EZKL Proof detected. Initializing X402 handshake..." ::
            .fetch (initialRequest w proofResult) ::
            .log "[Agent]: 402 Challenge Received. Agent signing payment..." :: rest) ∧
      (∀ retry, requestsOf (runClaimRewardAgent w proofResult unlink).2 =
          [initialRequest w proofResult, retry] →
        ∃ pre post, (runClaimRewardAgent w proofResult unlink).2 =
          pre ++ .log "[Agent]: 402 Challenge resolved. Retrying with payment header..." ::
            .fetch retry :: post) ∧
      (∃ pre line, (runClaimRewardAgent w proofResult unlink).2 = pre ++ [.log line]) := by
  have hshape := tryBlock_shape w proofResult (unlink.getD emptyUnlink)
  rcases shape_transitions w proofResult _ _ hshape with ⟨hlast, hchallenge, hretry⟩
  rw [run_of_verified w proofResult unlink hv]
  refine ⟨?_, ?_, ?_, ?_⟩
  · rcases tryBlock_starts w proofResult (unlink.getD emptyUnlink) with ⟨rest, hr⟩
    exact ⟨rest, by rw [hr]; rfl⟩
  · intro res h0 h402
    rcases hchallenge res h0 h402 with ⟨rest, hr⟩
    exact ⟨rest, by rw [hr]; rfl⟩
  · intro retry hreq
    have hreq2 : requestsOf (settle (tryBlock w proofResult (unlink.getD emptyUnlink))).2 =
        [initialRequest w proofResult, retry] := by
      simpa [requestsOf, agentLog] using hreq
    rcases hretry retry hreq2 with ⟨pre, post, hr⟩
    exact ⟨agentLog "EZKL Proof detected. Initializing X402 handshake..." :: pre, post,
      by rw [hr]; rfl⟩
  · rcases hlast with ⟨pre, msg, hr⟩
    exact ⟨agentLog "EZKL Proof detected. Initializing X402 handshake..." :: pre,
      "[Agent]: " ++ msg, by rw [hr]; rfl⟩

/-- C22, as stated, fails: the transition that ends an attempt at the start guard
(lines 24-26) appends no line to the trace; a proof result without `verified` is
turned away without a word, whatever the server and the bundle are. -/
theorem guard_transition_appends_no_line :
    ((JsVal.record [("proofId", .str "p-1")]).optProp "verified").truthy = false ∧
    runClaimRewardAgent challengeThenGrant (.record [("proofId", .str "p-1")])
        (some signingUnlink) =
      ({ success := false, error := some "Invalid proof result" }, []) ∧
    logLinesOf (runClaimRewardAgent challengeThenGrant (.record [("proofId", .str "p-1")])
        (some signingUnlink)).2 = [] := by
  decide

/-- C22, amended. Every line handed to `onLog` is prefixed `[Agent]: ` and the
effects of a run are in program order. A run stopped by the start guard logs
nothing. Past the guard every transition appends its line: the run starts with
`EZKL Proof detected. Initializing X402 handshake...`, logged before the initial
request; an answer 402 is followed at once by `402 Challenge Received. Agent signing
payment...`; a retry request is preceded at once by `402 Challenge resolved. Retrying
with payment header...`; and the last effect of the run is a logged line. A run that
is challenged, signed and granted logs exactly these three lines and
`200 Success. Shielded payout confirmed on Monad.`, in this order, around the
requests and the signer call; a run granted at the first request logs exactly the
first and the last of the four. -/
theorem trace_lines_in_order :
    (∀ (w : World) (proofResult : JsVal) (unlink : Option Unlink),
      ∀ line ∈ logLinesOf (runClaimRewardAgent w proofResult unlink).2,
        ∃ msg, line = "[Agent]: " ++ msg) ∧
    (∀ (w : World) (proofResult : JsVal) (unlink : Option Unlink),
      (proofResult.optProp "verified").truthy = false →
      (runClaimRewardAgent w proofResult unlink).2 = []) ∧
    (∀ (w : World) (proofResult : JsVal) (unlink : Option Unlink),
      (proofResult.optProp "verified").truthy = true →
      (∃ rest, (runClaimRewardAgent w proofResult unlink).2 =
        .log "[Agent]: EZKL Proof detected. Initializing X402 handshake..." ::
          .fetch (initialRequest w proofResult) :: rest) ∧
      (∀ res, w.fetch 0 (initialRequest w proofResult) = .ok res → res.status = 402 →
        ∃ rest, (runClaimRewardAgent w proofResult unlink).2 =
          .log "[Agent]: EZKL Proof detected. Initializing X402 handshake..." ::
            .fetch (initialRequest w proofResult) ::
            .log "[Agent]: 402 Challenge Received. Agent signing payment..." :: rest) ∧
      (∀ retry, requestsOf (runClaimRewardAgent w proofResult unlink).2 =
          [initialRequest w proofResult, retry] →
        ∃ pre post, (runClaimRewardAgent w proofResult unlink).2 =
          pre ++ .log "[Agent]: 402 Challenge resolved. Retrying with payment header..." ::
            .fetch retry :: post) ∧
      (∃ pre line, (runClaimRewardAgent w proofResult unlink).2 = pre ++ [.log line])) ∧
    (∀ (w : World) (proofResult : JsVal) (u : Unlink) (res retryRes : FetchResponse)
      (sign : String → Except Thrown JsVal) (token : String) (credential : JsVal),
      (proofResult.optProp "verified").truthy = true →
      w.fetch 0 (initialRequest w proofResult) = .ok res → res.status = 402 →
      u.signX402Header = .func sign → res.headers "x402-payment-request" = some token →
      token ≠ "" → sign token = .ok credential →
      w.fetch 1 (signedRetry w proofResult credential) = .ok retryRes → retryRes.ok = true →
      (runClaimRewardAgent w proofResult (some u)).2 =
        [.log "[Agent]: EZKL Proof detected. Initializing X402 handshake...",
         .fetch (initialRequest w proofResult),
         .log "[Agent]: 402 Challenge Received. Agent signing payment...",
         .sign token,
         .log "[Agent]: 402 Challenge resolved. Retrying with payment header...",
         .fetch (signedRetry w proofResult credential),
         .log "[Agent]: 200 Success. Shielded payout confirmed on Monad."] ∧
      logLinesOf (runClaimRewardAgent w proofResult (some u)).2 =
        ["[Agent]: EZKL Proof detected. Initializing X402 handshake...",
         "[Agent]: 402 Challenge Received. Agent signing payment...",
         "[Agent]: 402 Challenge resolved. Retrying with payment header...",
         "[Agent]: 200 Success. Shielded payout confirmed on Monad."]) ∧
    (∀ (w : World) (proofResult : JsVal) (unlink : Option Unlink) (res : FetchResponse),
      (proofResult.optProp "verified").truthy = true →
      w.fetch 0 (initialRequest w proofResult) = .ok res → res.ok = true →
      (runClaimRewardAgent w proofResult unlink).2 =
        [.log "[Agent]: EZKL Proof detected. Initializing X402 handshake...",
         .fetch (initialRequest w proofResult),
         .log "[Agent]: 200 Success. Shielded payout confirmed on Monad."] ∧
      logLinesOf (runClaimRewardAgent w proofResult unlink).2 =
        ["[Agent]: EZKL Proof detected. Initializing X402 handshake...",
         "[Agent]: 200 Success. Shielded payout confirmed on Monad."]) := by
  refine ⟨?_, ?_, run_transitions, ?_, ?_⟩
  · intro w proofResult unlink
    cases hv : (proofResult.optProp "verified").truthy with
    | false =>
      have e : runClaimRewardAgent w proofResult unlink =
          ({ success := false, error := some "Invalid proof result" }, []) := by
        rw [runClaimRewardAgent_eq]
        simp [hv]
      rw [e]
      exact agentLines_nil
    | true =>
      rw [run_of_verified w proofResult unlink hv]
      exact agentLines_log _ _ (agentLines_settle _
        (shape_agentLines w proofResult _ _ (tryBlock_shape w proofResult _)))
  · intro w proofResult unlink hv
    rw [runClaimRewardAgent_eq]
    simp [hv]
  · intro w proofResult u res retryRes sign token credential hv h0 h402 hsign htoken hne hs h1
      hok
    have hst : signerAndToken u.signX402Header (res.headers "x402-payment-request") =
        some (sign, token) :=
      (signerAndToken_some _ _ _ _).2 ⟨hsign, htoken, hne⟩
    have hc : conclude retryRes =
        (.ok { success := true, error := none },
         [agentLog "200 Success. Shielded payout confirmed on Monad."]) := by
      simp [conclude, hok]
    have hb : signerBranch w proofResult sign token =
        (.ok { success := true, error := none },
         [.sign token, agentLog "402 Challenge resolved. Retrying with payment header...",
          .fetch (signedRetry w proofResult credential),
          agentLog "200 Success. Shielded payout confirmed on Monad."]) := by
      simp [signerBranch, hs, h1, hc]
    have ht := tryBlock_of_challenge w proofResult u res h0 h402
    rw [hst] at ht
    dsimp only at ht
    rw [hb] at ht
    have hrun : (runClaimRewardAgent w proofResult (some u)).2 =
        [.log "[Agent]: EZKL Proof detected. Initializing X402 handshake...",
         .fetch (initialRequest w proofResult),
         .log "[Agent]: 402 Challenge Received. Agent signing payment...",
         .sign token,
         .log "[Agent]: 402 Challenge resolved. Retrying with payment header...",
         .fetch (signedRetry w proofResult credential),
         .log "[Agent]: 200 Success. Shielded payout confirmed on Monad."] := by
      rw [run_of_verified w proofResult (some u) hv]
      simp only [Option.getD, ht]
      rfl
    rw [hrun]
    exact ⟨rfl, rfl⟩
  · intro w proofResult unlink res hv h0 hok
    have hc : conclude res =
        (.ok { success := true, error := none },
         [agentLog "200 Success. Shielded payout confirmed on Monad."]) := by
      simp [conclude, hok]
    have ht : tryBlock w proofResult (unlink.getD emptyUnlink) =
        (.ok { success := true, error := none },
         [.fetch (initialRequest w proofResult),
          agentLog "200 Success. Shielded payout confirmed on Monad."]) := by
      simp [tryBlock, h0, ok_not_402 res hok, hc]
    have hrun : (runClaimRewardAgent w proofResult unlink).2 =
        [.log "[Agent]: EZKL Proof detected. Initializing X402 handshake...",
         .fetch (initialRequest w proofResult),
         .log "[Agent]: 200 Success. Shielded payout confirmed on Monad."] := by
      rw [run_of_verified w proofResult unlink hv, ht]
      rfl
    rw [hrun]
    exact ⟨rfl, rfl⟩

/-- Witness of C22: a working signer against a server that challenges the first
request and grants the second; and any bundle against a server that grants at
once. -/
theorem trace_lines_in_order_witness :
    logLinesOf (runClaimRewardAgent challengeThenGrant verifiedProof (some signingUnlink)).2 =
        ["[Agent]: EZKL Proof detected. Initializing X402 handshake...",
         "[Agent]: 402 Challenge Received. Agent signing payment...",
         "[Agent]: 402 Challenge resolved. Retrying with payment header...",
         "[Agent]: 200 Success. Shielded payout confirmed on Monad."] ∧
      logLinesOf (runClaimRewardAgent alwaysGrant verifiedProof none).2 =
        ["[Agent]: EZKL Proof detected. Initializing X402 handshake...",
         "[Agent]: 200 Success. Shielded payout confirmed on Monad."] :=
  ⟨(trace_lines_in_order.2.2.2.1 challengeThenGrant verifiedProof signingUnlink challengeResponse
      okResponse (fun token => .ok (.str ("signed:" ++ token))) "monad-testnet-0x123"
      (.str "signed:monad-testnet-0x123") (by decide) rfl rfl rfl rfl (by decide) rfl rfl
      (by decide)).2,
   (trace_lines_in_order.2.2.2.2 alwaysGrant verifiedProof none okResponse (by decide) rfl
      (by decide)).2⟩

/-- A path that ends in success returns exactly `{success: true}`. -/
theorem shape_success_outcome (w : World) (proof : JsVal) (u : Unlink)
    (r : Except Thrown Outcome × List Event) (hs : TryShape w proof u r)
    (hsucc : (settle r).1.success = true) :
    (settle r).1 = { success := true, error := none } := by
  have key : ∀ (res : FetchResponse) (before : List Event),
      (settle ((conclude res).1, before)).1.success = true →
      (settle ((conclude res).1, before)).1 = { success := true, error := none } := by
    intro res before h
    rw [settle_conclude_success] at h
    simp [conclude, h, settle]
  cases hs with
  | initialThrows err h0 => simp [settle, catchBlock_success] at hsucc
  | answered res h0 h402 => exact key res _ hsucc
  | signerThrows res sign token err h0 h402 hsign htoken hne hs =>
    simp [settle, catchBlock_success] at hsucc
  | signedRetryThrows res sign token credential err h0 h402 hsign htoken hne hs h1 =>
    simp [settle, catchBlock_success] at hsucc
  | signedRetryAnswered res sign token credential retryRes h0 h402 hsign htoken hne hs h1 =>
    exact key retryRes _ hsucc
  | transferFails res reason h0 h402 hst hsend haddr hfail hreason =>
    simp [settle] at hsucc
  | markerRetryThrows res transferEvents err h0 h402 hst hpre h1 =>
    simp [settle, catchBlock_success] at hsucc
  | markerRetryAnswered res transferEvents retryRes h0 h402 hst hpre h1 =>
    exact key retryRes _ hsucc

/-- The outcome of a run has one of two forms. -/
theorem run_outcome_forms (w : World) (proofResult : JsVal) (unlink : Option Unlink) :
    (runClaimRewardAgent w proofResult unlink).1 = { success := true, error := none } ∨
      ∃ reason, (runClaimRewardAgent w proofResult unlink).1 =
        { success := false, error := some reason } := by
  cases hv : (proofResult.optProp "verified").truthy with
  | false =>
    right
    rw [runClaimRewardAgent_eq]
    exact ⟨"Invalid proof result", by simp [hv]⟩
  | true =>
    rw [run_of_verified w proofResult unlink hv]
    have hshape := tryBlock_shape w proofResult (unlink.getD emptyUnlink)
    cases hs : (settle (tryBlock w proofResult (unlink.getD emptyUnlink))).1.success with
    | true => exact Or.inl (shape_success_outcome w proofResult _ _ hshape hs)
    | false =>
      rcases shape_failure w proofResult _ _ hshape hs with ⟨reason, msg, events, hsettle, _⟩
      exact Or.inr ⟨reason, by rw [hsettle]⟩

/-- C27. Every outcome that `runClaimRewardAgent` returns is well-formed. The
record has the two fields `success` and `error` only, so it never carries the reward
of the server; a successful outcome is exactly `{success: true}`, with no `error`;
and an outcome has `success = false` if and only if it carries an `error`. -/
theorem outcome_is_well_formed (w : World) (proofResult : JsVal) (unlink : Option Unlink) :
    ((runClaimRewardAgent w proofResult unlink).1.success = true ↔
      (runClaimRewardAgent w proofResult unlink).1 = { success := true, error := none }) ∧
    ((runClaimRewardAgent w proofResult unlink).1.success = false ↔
      ∃ reason, (runClaimRewardAgent w proofResult unlink).1.error = some reason) := by
  rcases run_outcome_forms w proofResult unlink with h | ⟨reason, h⟩
  · rw [h]
    simp
  · rw [h]
    simp

/-- Past the guard, a failed shielded transfer ends the run with the reason the
transfer gave. -/
theorem run_of_failed_transfer (w : World) (proofResult : JsVal) (unlink : Option Unlink)
    (res : FetchResponse)
    (hv : (proofResult.optProp "verified").truthy = true)
    (h0 : w.fetch 0 (initialRequest w proofResult) = .ok res)
    (h402 : res.status = 402)
    (hst : signerAndToken (unlink.getD emptyUnlink).signX402Header
      (res.headers "x402-payment-request") = none)
    (hsend : (unlink.getD emptyUnlink).send.truthy = true)
    (haddr : ((unlink.getD emptyUnlink).activeAccount.optProp "address").truthy = true)
    (hfail : (agentTransfer w (unlink.getD emptyUnlink)).1.success = false) :
    ∃ reason, (agentTransfer w (unlink.getD emptyUnlink)).1.error = some reason ∧
      (runClaimRewardAgent w proofResult unlink).1 =
        { success := false, error := some reason } := by
  generalize hu : unlink.getD emptyUnlink = u at hst hsend haddr hfail
  have hfail2 : (runShieldedTransfer w u.send u.activeAccount
      (PRP_TOKEN_ADDRESS w)).1.success = false := hfail
  rcases runShieldedTransfer_failure_reason w _ _ _ hfail2 with ⟨reason, hreason⟩
  have hb : (transferBranch w proofResult u).1 =
      .ok { success := false, error := some reason } := by
    simp [transferBranch, hsend, haddr, hfail2, hreason]
  have ht := tryBlock_of_challenge w proofResult u res h0 h402
  rw [hst] at ht
  dsimp only at ht
  refine ⟨reason, hreason, ?_⟩
  rw [run_of_verified w proofResult unlink hv, hu, ht]
  dsimp only
  rw [hb]
  rfl

/-! ## Composition properties -/

/-- A property that is not `undefined` survives the JSON round trip. -/
theorem lookup_jsonClone : ∀ (fields : JsFields) (k : String) (v : JsVal),
    fields.lookup k = some v → v ≠ .undefined →
    (JsFields.jsonClone fields).lookup k = some (JsVal.jsonClone v)
  | .nil, k, v, h, _ => by simp [JsFields.lookup] at h
  | .cons key value rest, k, v, h, hv => by
    by_cases hk : key = k
    · simp only [JsFields.lookup, hk, if_true, Option.some.injEq] at h
      subst h
      cases value <;> first
        | exact absurd rfl hv
        | simp [JsFields.jsonClone, JsFields.lookup, hk]
    · simp only [JsFields.lookup, hk, if_false] at h
      have ih := lookup_jsonClone rest k v h hv
      cases value <;> simp [JsFields.jsonClone, JsFields.lookup, hk, ih]

/-- A proof result with `verified === true` is a valid proof on arrival, alone in
the body or next to other fields. -/
theorem delivered_proof_valid (proofResult : JsVal) (others : List (String × JsVal))
    (hverified : proofResult.optProp "verified" = .bool true) :
    (hasValidProof (JsVal.jsonClone (.record (("proof", proofResult) :: others)))).truthy =
      true := by
  cases proofResult with
  | obj pf =>
    have hl : pf.lookup "verified" = some (.bool true) := by
      simp only [JsVal.optProp, JsVal.getProp] at hverified
      cases h : pf.lookup "verified" with
      | none => rw [h] at hverified; cases hverified
      | some v => rw [h] at hverified; simp only [Option.getD] at hverified; rw [hverified]
    have hc := lookup_jsonClone pf "verified" (.bool true) hl (by intro h; cases h)
    rw [hasValidProof_truthy_eq]
    simp [JsVal.record, JsFields.ofList, JsVal.jsonClone, JsFields.jsonClone,
      isValidAttestation, JsFields.lookup, hc]
  | undefined => cases hverified
  | null => cases hverified
  | bool b => cases hverified
  | num n => cases hverified
  | str s => cases hverified
  | arr items => cases hverified

theorem respond_challenge (stringify : JsVal → String) :
    (respond stringify paymentRequiredResponse).status = 402 ∧
      (respond stringify paymentRequiredResponse).headers "x402-payment-request" =
        some "monad-testnet-0x123" ∧
      (respond stringify paymentRequiredResponse).ok = false ∧
      (respond stringify grantedResponse).ok = true := by
  refine ⟨rfl, ?_, ?_, ?_⟩
  · simp [respond, paymentRequiredResponse, lowerCase, List.lookup]
  · simp [respond, paymentRequiredResponse, FetchResponse.ok]
  · simp [respond, grantedResponse, FetchResponse.ok]

/-- Past the guard, after a 402, with neither capability usable, the run is the
marker retry. -/
theorem run_with_marker (w : World) (proofResult : JsVal) (unlink : Option Unlink)
    (res : FetchResponse)
    (hv : (proofResult.optProp "verified").truthy = true)
    (h0 : w.fetch 0 (initialRequest w proofResult) = .ok res)
    (h402 : res.status = 402)
    (hst : signerAndToken (unlink.getD emptyUnlink).signX402Header
      (res.headers "x402-payment-request") = none)
    (hc : ((unlink.getD emptyUnlink).send.truthy &&
      ((unlink.getD emptyUnlink).activeAccount.optProp "address").truthy) = false) :
    signCallsOf (runClaimRewardAgent w proofResult unlink).2 = [] ∧
      sendCallsOf (runClaimRewardAgent w proofResult unlink).2 = [] ∧
      requestsOf (runClaimRewardAgent w proofResult unlink).2 =
        [initialRequest w proofResult, shieldedRetry w proofResult] ∧
      ((runClaimRewardAgent w proofResult unlink).1.success = true ↔
        ∃ retryRes, w.fetch 1 (shieldedRetry w proofResult) = .ok retryRes ∧
          retryRes.ok = true) := by
  have hb : transferBranch w proofResult (unlink.getD emptyUnlink) = markerRetry w proofResult := by
    simp [transferBranch, hc]
  have ht := tryBlock_of_challenge w proofResult (unlink.getD emptyUnlink) res h0 h402
  rw [hst] at ht
  dsimp only at ht
  rw [hb] at ht
  have hm := markerRetry_events w proofResult
  rw [run_of_verified w proofResult unlink hv, ht]
  refine ⟨?_, ?_, ?_, ?_⟩
  · simp [signCallsOf, agentLog, settle_signCalls, signCallsOf_append, hm.2.1]
  · simp [sendCallsOf, agentLog, settle_sendCalls, sendCallsOf_append, hm.2.2]
  · simp [requestsOf, agentLog, settle_requests, requestsOf_append, hm.1]
  · exact markerRetry_success w proofResult _

/-! ## History sum properties -/

theorem sumAmounts_eq (key : String) (sum : Int) (amounts : List HistoryAmount) :
    sumAmounts key sum amounts =
      sum + ((amounts.filter (fun amt => decide (tokenKey amt.token = key))).filterMap
        (fun amt => amt.delta)).sum := by
  induction amounts generalizing sum with
  | nil => simp [sumAmounts]
  | cons amt rest ih =>
    unfold sumAmounts
    by_cases hk : tokenKey amt.token = key
    · cases hd : amt.delta with
      | none => simp [hk, hd, ih, List.filterMap_cons]
      | some delta =>
        simp [hk, hd, ih, List.filterMap_cons]
        omega
    · simp [hk, ih]

theorem sumEntries_eq (key : String) (sum : Int) (history : List HistoryEntry) :
    sumEntries key sum history =
      sum + (((history.map (fun entry => entry.amounts.getD [])).flatten.filter
        (fun amt => decide (tokenKey amt.token = key))).filterMap (fun amt => amt.delta)).sum := by
  induction history generalizing sum with
  | nil => simp [sumEntries]
  | cons entry rest ih =>
    unfold sumEntries
    rw [ih, sumAmounts_eq]
    simp [List.filter_append, List.filterMap_append, List.sum_append]
    omega

/-- C23. `sumPrpFromHistory(history, prpToken)` is the signed sum of
`BigInt(amt.delta)` over every amount of every entry whose token equals `prpToken`
up to letter case; amounts of other tokens, entries without an amounts list and
amounts whose delta does not convert contribute nothing. It is 0 for the empty
history, and it can be negative. -/
theorem sumPrpFromHistory_is_signed_sum :
    (∀ (history : List HistoryEntry) (prpTokenAddress : Option String),
      sumPrpFromHistory history prpTokenAddress = signedPrpSum history prpTokenAddress) ∧
    (∀ prpTokenAddress, sumPrpFromHistory [] prpTokenAddress = 0) ∧
    (∀ (history : List HistoryEntry) (prpTokenAddress : Option String) (amt : HistoryAmount),
      tokenKey amt.token ≠ tokenKey prpTokenAddress ∨ amt.delta = none →
      sumPrpFromHistory ({ amounts := some [amt] } :: history) prpTokenAddress =
        sumPrpFromHistory history prpTokenAddress) ∧
    (∀ (history : List HistoryEntry) (prpTokenAddress : Option String),
      sumPrpFromHistory ({ amounts := none } :: history) prpTokenAddress =
        sumPrpFromHistory history prpTokenAddress) ∧
    sumPrpFromHistory
      [{ amounts := some [{ token := some "0xABCDEF", delta := some 3 },
                          { token := some "0xabcdef", delta := some (-10) },
                          { token := some "0x123456", delta := some 100 },
                          { token := some "0xabcdef", delta := none }] },
       { amounts := none }] (some "0xAbCdEf") = -7 := by
  have key : ∀ (history : List HistoryEntry) (prpTokenAddress : Option String),
      sumPrpFromHistory history prpTokenAddress = signedPrpSum history prpTokenAddress := by
    intro history prpTokenAddress
    unfold sumPrpFromHistory signedPrpSum
    rw [sumEntries_eq]
    simp
  refine ⟨key, fun _ => rfl, ?_, ?_, by decide⟩
  · intro history prpTokenAddress amt h
    rw [key, key]
    unfold signedPrpSum
    rcases h with h | h
    · simp [List.filter_cons, h]
    · by_cases hk : tokenKey amt.token = tokenKey prpTokenAddress
      · simp [List.filter_cons, hk, List.filterMap_cons, h]
      · simp [List.filter_cons, hk]
  · intro history prpTokenAddress
    rw [key, key]
    unfold signedPrpSum
    simp

/-! ## Insurance proof properties -/

theorem requiredBalance_text (decimal : ℚ → String) :
    JsNumber.toText decimal REQUIRED_BALANCE = "10" := by
  simp only [REQUIRED_BALANCE, JsNumber.toText]
  rw [if_pos (by decide)]
  rfl

/-- For a balance that is not `NaN`, `a >= 10` is the negation of `a < 10`. -/
theorem ge_eq_not_lt (a : JsNumber) (ha : a ≠ .nan) :
    JsNumber.ge a REQUIRED_BALANCE = !JsNumber.lt a REQUIRED_BALANCE := by
  cases a with
  | nan => exact absurd rfl ha
  | negInf => rfl
  | finite q => rfl
  | posInf => rfl

/-- The two results of `generateInsuranceProof`. -/
theorem generateInsuranceProof_eq (decimal : ℚ → String) (now : Nat)
    (shieldedBalance : JsNumber) (useDemoBalance : JsVal) :
    generateInsuranceProof decimal now shieldedBalance useDemoBalance =
      if useDemoBalance.truthy = false ∧ JsNumber.lt shieldedBalance REQUIRED_BALANCE = true then
        { success := false,
          proofPayload := none,
          error := some ("Need at least 10 $PRP in your shielded balance. You have " ++
            JsNumber.toText decimal shieldedBalance ++ " $PRP.") }
      else
        { success := true,
          proofPayload := some ("\x7b\"claim\":\"balance_gte\",\"value\":10,\"nonce\":\"" ++
            toBase36 now ++ "\",\"scope\":\"insurance_discount\"\x7d"),
          error := none } := by
  unfold generateInsuranceProof
  rw [requiredBalance_text]
  cases hd : useDemoBalance.truthy
  · cases hl : JsNumber.lt shieldedBalance REQUIRED_BALANCE
    · simp [hl, String.append_assoc]
    · simp [hl, String.append_assoc]
  · have h10 : JsNumber.lt REQUIRED_BALANCE REQUIRED_BALANCE = false := by decide
    simp [h10, String.append_assoc]

/-- C21, as stated, fails: `NaN` is a numeric balance for which
`generateInsuranceProof(NaN, {})` succeeds with a proof payload and no error, although
`opts.useDemoBalance` is not set and `NaN >= 10` is false. The guard
`effectiveBalance < REQUIRED_BALANCE` is false for `NaN`. -/
theorem nan_balance_is_accepted :
    generateInsuranceProof (fun _ => "") 1730851200000 .nan .undefined =
      { success := true,
        proofPayload := some
          "\x7b\"claim\":\"balance_gte\",\"value\":10,\"nonce\":\"m35445c0\",\"scope\":\"insurance_discount\"\x7d",
        error := none } ∧
    JsVal.truthy .undefined = false ∧
    JsNumber.ge .nan REQUIRED_BALANCE = false := by
  refine ⟨?_, rfl, rfl⟩
  rw [generateInsuranceProof_eq, if_neg (by decide)]
  decide

/-- C21, amended. For every balance other than `NaN`, finite or infinite,
`generateInsuranceProof(shieldedBalance, opts)` returns `success = true` if and only
if `opts.useDemoBalance` is truthy or `shieldedBalance >= 10`. A success carries the
proof payload and no error; a failure carries no payload and the message
`Need at least 10 $PRP in your shielded balance. You have <shieldedBalance> $PRP.`,
with the balance written as `String(shieldedBalance)`. -/
theorem generateInsuranceProof_checks_balance (decimal : ℚ → String) (now : Nat)
    (shieldedBalance : JsNumber) (useDemoBalance : JsVal) (hnum : shieldedBalance ≠ .nan) :
    ((generateInsuranceProof decimal now shieldedBalance useDemoBalance).success = true ↔
      useDemoBalance.truthy = true ∨ JsNumber.ge shieldedBalance REQUIRED_BALANCE = true) ∧
    ((generateInsuranceProof decimal now shieldedBalance useDemoBalance).success = true →
      generateInsuranceProof decimal now shieldedBalance useDemoBalance =
        { success := true,
          proofPayload := some ("\x7b\"claim\":\"balance_gte\",\"value\":10,\"nonce\":\"" ++
            toBase36 now ++ "\",\"scope\":\"insurance_discount\"\x7d"),
          error := none }) ∧
    ((generateInsuranceProof decimal now shieldedBalance useDemoBalance).success = false →
      generateInsuranceProof decimal now shieldedBalance useDemoBalance =
        { success := false,
          proofPayload := none,
          error := some ("Need at least 10 $PRP in your shielded balance. You have " ++
            JsNumber.toText decimal shieldedBalance ++ " $PRP.") }) := by
  rw [generateInsuranceProof_eq, ge_eq_not_lt shieldedBalance hnum]
  cases hd : useDemoBalance.truthy <;>
    cases hl : JsNumber.lt shieldedBalance REQUIRED_BALANCE <;> simp

/-- Witness of C21: a balance of 3 $PRP without the demo option is refused with the
message that names both amounts. -/
theorem generateInsuranceProof_checks_balance_witness :
    JsNumber.finite 3 ≠ .nan ∧
    generateInsuranceProof (fun _ => "") 1730851200000 (.finite 3) .undefined =
      { success := false,
        proofPayload := none,
        error := some "Need at least 10 $PRP in your shielded balance. You have 3 $PRP." } := by
  have hnum : JsNumber.finite 3 ≠ .nan := by intro h; cases h
  have h := generateInsuranceProof_checks_balance (fun _ => "") 1730851200000 (.finite 3)
    .undefined hnum
  have hge : JsNumber.ge (.finite 3) REQUIRED_BALANCE = false := by
    simp [JsNumber.ge, JsNumber.lt, REQUIRED_BALANCE]
    norm_num
  have hfail : (generateInsuranceProof (fun _ => "") 1730851200000 (.finite 3)
      .undefined).success = false := by
    cases hs : (generateInsuranceProof (fun _ => "") 1730851200000 (.finite 3)
      .undefined).success with
    | false => rfl
    | true =>
      rcases h.1.1 hs with h1 | h1
      · cases h1
      · rw [hge] at h1; cases h1
  have htext : JsNumber.toText (fun _ => "") (.finite 3) = "3" := by
    simp only [JsNumber.toText]
    rw [if_pos (by norm_num)]
    rfl
  refine ⟨hnum, ?_⟩
  rw [h.2.2 hfail, htext]
  rfl

/-- C29. Two calls of `generateInsuranceProof` that succeed at the same instant give
the same `proofPayload`, whatever the two balances and options are: the payload is
the text of `claim: 'balance_gte'`, `value: 10`, the nonce `now.toString(36)` and
`scope: 'insurance_discount'`, in which the balance does not occur. -/
theorem proofPayload_independent_of_balance (decimal decimal2 : ℚ → String) (now : Nat)
    (balance balance2 : JsNumber) (useDemoBalance useDemoBalance2 : JsVal)
    (h : (generateInsuranceProof decimal now balance useDemoBalance).success = true)
    (h2 : (generateInsuranceProof decimal2 now balance2 useDemoBalance2).success = true) :
    (generateInsuranceProof decimal now balance useDemoBalance).proofPayload =
      (generateInsuranceProof decimal2 now balance2 useDemoBalance2).proofPayload ∧
    (generateInsuranceProof decimal now balance useDemoBalance).proofPayload =
      some ("\x7b\"claim\":\"balance_gte\",\"value\":10,\"nonce\":\"" ++
        toBase36 now ++ "\",\"scope\":\"insurance_discount\"\x7d") := by
  rw [generateInsuranceProof_eq] at h h2 ⊢
  rw [generateInsuranceProof_eq]
  by_cases hc : useDemoBalance.truthy = false ∧ JsNumber.lt balance REQUIRED_BALANCE = true
  · rw [if_pos hc] at h
    cases h
  · by_cases hc2 : useDemoBalance2.truthy = false ∧
        JsNumber.lt balance2 REQUIRED_BALANCE = true
    · rw [if_pos hc2] at h2
      cases h2
    · rw [if_neg hc, if_neg hc2]
      exact ⟨rfl, rfl⟩

theorem proofPayload_independent_of_balance_witness :
    (generateInsuranceProof (fun _ => "12.5") 1730851200000 (.finite (25 / 2))
        .undefined).success = true ∧
    (generateInsuranceProof (fun _ => "0") 1730851200000 (.finite 0)
        (.bool true)).success = true ∧
    (generateInsuranceProof (fun _ => "12.5") 1730851200000 (.finite (25 / 2))
        .undefined).proofPayload =
      (generateInsuranceProof (fun _ => "0") 1730851200000 (.finite 0)
        (.bool true)).proofPayload ∧
    (generateInsuranceProof (fun _ => "12.5") 1730851200000 (.finite (25 / 2))
        .undefined).proofPayload =
      some "\x7b\"claim\":\"balance_gte\",\"value\":10,\"nonce\":\"m35445c0\",\"scope\":\"insurance_discount\"\x7d" := by
  have hs : (generateInsuranceProof (fun _ => "12.5") 1730851200000 (.finite (25 / 2))
      .undefined).success = true := by
    rw [generateInsuranceProof_eq]; simp [JsNumber.lt, REQUIRED_BALANCE, JsVal.truthy]; norm_num
  have hs2 : (generateInsuranceProof (fun _ => "0") 1730851200000 (.finite 0)
      (.bool true)).success = true := by
    rw [generateInsuranceProof_eq]; simp [JsVal.truthy]
  have hp := proofPayload_independent_of_balance (fun _ => "12.5") (fun _ => "0")
    1730851200000 (.finite (25 / 2)) (.finite 0) .undefined (.bool true) hs hs2
  refine ⟨hs, hs2, hp.1, ?_⟩
  rw [hp.2]
  decide

/-! ## Mock classification properties -/

/-- C30. On the mock path `classifyHRVWithEzkl` returns `verified = true` for every
input; `classIndex` is 2 when `score > 0.6`, else 1 when `score > 0.35`, else 0;
`classification` is `CLASSES[classIndex]`, that is 'stressed' for 0, 'recovering'
for 1 and 'recovered' for 2; and `witness.outputs` is `[[classIndex, 0, 0, 0]]`. -/
theorem mock_classification_is_always_verified (ops : DoubleOps)
    (hrvInput : List (List JsNumber)) (now : Nat) (suffix proofHex : String) :
    (classifyHRVWithEzkl ops hrvInput now suffix proofHex).verified = true ∧
    (classifyHRVWithEzkl ops hrvInput now suffix proofHex).classIndex =
      (if JsNumber.gt (mockScore ops hrvInput) pointSix then 2
        else if JsNumber.gt (mockScore ops hrvInput) pointThreeFive then 1 else 0) ∧
    (classifyHRVWithEzkl ops hrvInput now suffix proofHex).classification =
      CLASSES[(classifyHRVWithEzkl ops hrvInput now suffix proofHex).classIndex]? ∧
    (((classifyHRVWithEzkl ops hrvInput now suffix proofHex).classIndex = 0 ∧
        (classifyHRVWithEzkl ops hrvInput now suffix proofHex).classification =
          some "stressed") ∨
      ((classifyHRVWithEzkl ops hrvInput now suffix proofHex).classIndex = 1 ∧
        (classifyHRVWithEzkl ops hrvInput now suffix proofHex).classification =
          some "recovering") ∨
      ((classifyHRVWithEzkl ops hrvInput now suffix proofHex).classIndex = 2 ∧
        (classifyHRVWithEzkl ops hrvInput now suffix proofHex).classification =
          some "recovered")) ∧
    (classifyHRVWithEzkl ops hrvInput now suffix proofHex).witness.outputs =
      [[(classifyHRVWithEzkl ops hrvInput now suffix proofHex).classIndex, 0, 0, 0]] := by
  refine ⟨rfl, rfl, rfl, ?_, rfl⟩
  simp only [classifyHRVWithEzkl, classifyMock]
  by_cases h6 : JsNumber.gt (mockScore ops hrvInput) pointSix = true
  · rw [if_pos h6]
    exact Or.inr (Or.inr ⟨rfl, rfl⟩)
  · rw [if_neg h6]
    by_cases h35 : JsNumber.gt (mockScore ops hrvInput) pointThreeFive = true
    · rw [if_pos h35]
      exact Or.inr (Or.inl ⟨rfl, rfl⟩)
    · rw [if_neg h35]
      exact Or.inl ⟨rfl, rfl⟩

/-! ## Composition properties, continued -/

theorem jsonText_example :
    JsVal.jsonText (.record [("a", .undefined),
      ("b", .arr (.cons (.num (-3)) (.cons .undefined .nil))), ("c\n", .str "x\"y")]) =
      "\x7b\"b\":[-3,null],\"c\\n\":\"x\\\"y\"\x7d" := by
  decide

theorem deliver_initial (w : World) (proofResult : JsVal) :
    deliver (initialRequest w proofResult) =
      some { body := JsVal.jsonClone (.record [("proof", proofResult)]),
             headers := [("content-type", "application/json")] } := by
  rfl

theorem deliver_marker (w : World) (proofResult : JsVal) :
    deliver (shieldedRetry w proofResult) =
      some { body := JsVal.jsonClone
               (.record [("proof", proofResult), ("paymentResolved", .bool true)]),
             headers := [("content-type", "application/json"),
                         ("x-payment-resolved", "shielded")] } := by
  rfl

theorem deliver_signed (w : World) (proofResult : JsVal) (credential : String) :
    deliver (signedRetry w proofResult (.str credential)) =
      if isHeaderValue (normalizeHeaderValue credential) then
        some { body := JsVal.jsonClone (.record [("proof", proofResult)]),
               headers := [("content-type", "application/json"),
                           ("x-payment", normalizeHeaderValue credential)] }
      else none := by
  cases h : isHeaderValue (normalizeHeaderValue credential) with
  | true =>
    simp [deliver, signedRetry, wireHeaders, JsVal.toText, h]
    decide
  | false =>
    simp [deliver, signedRetry, wireHeaders, JsVal.toText, h]

/-- The claim server challenges the initial request of a verified proof whose body
is within the limit, and answers 413 above it. -/
theorem server_answers_initial (w : World) (stringify : JsVal → String) (refusal : Thrown)
    (errorPage : String) (proofResult : JsVal) (n : Nat)
    (hverified : proofResult.optProp "verified" = .bool true) :
    (claimServer w stringify refusal errorPage).fetch n
        (initialRequest (claimServer w stringify refusal errorPage) proofResult) =
      if (stringify (.record [("proof", proofResult)])).utf8ByteSize ≤ JSON_LIMIT then
        .ok (respond stringify paymentRequiredResponse)
      else .ok (payloadTooLarge errorPage) := by
  have hc : claimHandler
      { body := JsVal.jsonClone (.record [("proof", proofResult)]),
        headers := [("content-type", "application/json")] } = paymentRequiredResponse := by
    rw [claimHandler_eq]
    have hvalid := delivered_proof_valid proofResult [] hverified
    simp only [hvalid, if_true]
    simp [paymentEvidence, List.lookup]
  show (match deliver (initialRequest (claimServer w stringify refusal errorPage) proofResult) with
    | none => Except.error refusal
    | some req =>
      if (stringify (initialRequest (claimServer w stringify refusal errorPage)
          proofResult).body).utf8ByteSize ≤ JSON_LIMIT then
        Except.ok (respond stringify (claimHandler req))
      else Except.ok (payloadTooLarge errorPage)) = _
  rw [deliver_initial]
  simp only [hc]
  rfl

/-- The claim server grants the retry that carries the fixed marker, when its body
is within the limit. -/
theorem server_answers_marker (w : World) (stringify : JsVal → String) (refusal : Thrown)
    (errorPage : String) (proofResult : JsVal) (n : Nat)
    (hverified : proofResult.optProp "verified" = .bool true) :
    (claimServer w stringify refusal errorPage).fetch n
        (shieldedRetry (claimServer w stringify refusal errorPage) proofResult) =
      if (stringify (.record [("proof", proofResult),
          ("paymentResolved", .bool true)])).utf8ByteSize ≤ JSON_LIMIT then
        .ok (respond stringify grantedResponse)
      else .ok (payloadTooLarge errorPage) := by
  have hc : claimHandler
      { body := JsVal.jsonClone (.record [("proof", proofResult), ("paymentResolved", .bool true)]),
        headers := [("content-type", "application/json"), ("x-payment-resolved", "shielded")] } =
      grantedResponse := by
    rw [claimHandler_eq]
    have hvalid := delivered_proof_valid proofResult [("paymentResolved", .bool true)] hverified
    simp only [hvalid, if_true]
    simp [paymentEvidence, List.lookup]
  show (match deliver (shieldedRetry (claimServer w stringify refusal errorPage) proofResult) with
    | none => Except.error refusal
    | some req =>
      if (stringify (shieldedRetry (claimServer w stringify refusal errorPage)
          proofResult).body).utf8ByteSize ≤ JSON_LIMIT then
        Except.ok (respond stringify (claimHandler req))
      else Except.ok (payloadTooLarge errorPage)) = _
  rw [deliver_marker]
  simp only [hc]
  rfl

/-- The answer to the signed retry: `fetch` throws for a credential that is no header
value; otherwise, within the body limit, the claim server grants the retry exactly
when the credential that arrives is not empty. -/
theorem server_answers_signed (w : World) (stringify : JsVal → String) (refusal : Thrown)
    (errorPage : String) (proofResult : JsVal) (n : Nat) (credential : String)
    (hverified : proofResult.optProp "verified" = .bool true) :
    (claimServer w stringify refusal errorPage).fetch n
        (signedRetry (claimServer w stringify refusal errorPage) proofResult
          (.str credential)) =
      if isHeaderValue (normalizeHeaderValue credential) then
        if (stringify (.record [("proof", proofResult)])).utf8ByteSize ≤ JSON_LIMIT then
          .ok (respond stringify
            (if normalizeHeaderValue credential ≠ "" then grantedResponse
              else paymentRequiredResponse))
        else .ok (payloadTooLarge errorPage)
      else .error refusal := by
  have hc : claimHandler
      { body := JsVal.jsonClone (.record [("proof", proofResult)]),
        headers := [("content-type", "application/json"),
                    ("x-payment", normalizeHeaderValue credential)] } =
      (if normalizeHeaderValue credential ≠ "" then grantedResponse
        else paymentRequiredResponse) := by
    rw [claimHandler_eq]
    have hvalid := delivered_proof_valid proofResult [] hverified
    simp only [hvalid, if_true]
    by_cases hcred : normalizeHeaderValue credential = "" <;>
      simp [paymentEvidence, List.lookup, hcred]
  show (match deliver (signedRetry (claimServer w stringify refusal errorPage) proofResult
      (.str credential)) with
    | none => Except.error refusal
    | some req =>
      if (stringify (signedRetry (claimServer w stringify refusal errorPage)
          proofResult (.str credential)).body).utf8ByteSize ≤ JSON_LIMIT then
        Except.ok (respond stringify (claimHandler req))
      else Except.ok (payloadTooLarge errorPage)) = _
  rw [deliver_signed]
  cases hval : isHeaderValue (normalizeHeaderValue credential) with
  | false => rfl
  | true =>
    simp only [if_true, hc]
    rfl

theorem isHeaderValue_empty (value : String) (h : normalizeHeaderValue value = "") :
    isHeaderValue (normalizeHeaderValue value) = true := by
  rw [h]
  rfl

theorem utf8ByteSize_append (s t : String) :
    (s ++ t).utf8ByteSize = s.utf8ByteSize + t.utf8ByteSize := by
  cases s with
  | mk a =>
    cases t with
    | mk b =>
      show String.utf8ByteSize ⟨a ++ b⟩ = _
      simp [String.utf8ByteSize_mk, String.utf8Len_append]

theorem utf8Len_replicate (n : Nat) :
    String.utf8Len (List.replicate n (Char.ofNat 97)) = n := by
  induction n with
  | zero => rfl
  | succ k ih =>
    rw [List.replicate_succ, String.utf8Len_cons, ih]
    have : (Char.ofNat 97).utf8Size = 1 := by decide
    omega

theorem escape_replicate (n : Nat) :
    (List.replicate n (Char.ofNat 97)).map escapeJson = List.replicate n "a" := by
  rw [List.map_replicate]
  have : escapeJson (Char.ofNat 97) = "a" := by decide
  rw [this]

theorem join_replicate (n : Nat) (acc : String) :
    (List.replicate n "a").foldl (fun r s => r ++ s) acc =
      acc ++ String.mk (List.replicate n (Char.ofNat 97)) := by
  induction n generalizing acc with
  | zero =>
    apply String.ext
    simp [String.data_append]
  | succ k ih =>
    rw [List.replicate_succ, List.foldl_cons, ih, List.replicate_succ]
    apply String.ext
    simp [String.data_append]

theorem longText_size : 200000 ≤ (quoteJson longText).utf8ByteSize := by
  have h : quoteJson longText = "\"" ++ longText ++ "\"" := by
    unfold quoteJson
    have hd : longText.data = List.replicate 200000 (Char.ofNat 97) := rfl
    rw [hd, escape_replicate]
    unfold String.join
    rw [join_replicate]
    rfl
  rw [h, utf8ByteSize_append, utf8ByteSize_append]
  have : longText.utf8ByteSize = 200000 := by
    show String.utf8ByteSize ⟨List.replicate 200000 (Char.ofNat 97)⟩ = _
    rw [String.utf8ByteSize_mk, utf8Len_replicate]
  omega

theorem largeProof_size :
    JSON_LIMIT < (JsVal.jsonText (.record [("proof", largeProof)])).utf8ByteSize := by
  have h := longText_size
  simp only [largeProof, JsVal.record, JsFields.ofList, JsVal.jsonText, JsFields.jsonText,
    utf8ByteSize_append, JSON_LIMIT]
  omega

/-- The run of a verified proof whose first request body is above the limit of
`express.json`: one request, answered 413. -/
theorem run_of_oversized (w : World) (stringify : JsVal → String) (refusal : Thrown)
    (errorPage : String) (proofResult : JsVal) (unlink : Option Unlink)
    (hverified : proofResult.optProp "verified" = .bool true)
    (hbig : JSON_LIMIT < (stringify (.record [("proof", proofResult)])).utf8ByteSize) :
    runClaimRewardAgent (claimServer w stringify refusal errorPage) proofResult unlink =
      ({ success := false,
         error := some (if errorPage ≠ "" then errorPage else "HTTP 413") },
       [agentLog "EZKL Proof detected. Initializing X402 handshake...",
        .fetch (initialRequest (claimServer w stringify refusal errorPage) proofResult),
        agentLog ("Claim failed: 413 " ++ errorPage)]) := by
  have hv : (proofResult.optProp "verified").truthy = true := by
    rw [hverified]
    rfl
  have h0 := server_answers_initial w stringify refusal errorPage proofResult 0 hverified
  rw [if_neg (Nat.not_le.mpr hbig)] at h0
  have ht : tryBlock (claimServer w stringify refusal errorPage) proofResult
      (unlink.getD emptyUnlink) =
      (.ok { success := false,
             error := some (if errorPage ≠ "" then errorPage else "HTTP 413") },
       [.fetch (initialRequest (claimServer w stringify refusal errorPage) proofResult),
        agentLog ("Claim failed: 413 " ++ errorPage)]) := by
    simp [tryBlock, h0, payloadTooLarge, conclude, FetchResponse.ok]
    exact ⟨rfl, rfl⟩
  rw [run_of_verified _ _ _ hv, ht]
  rfl

/-- C25, as stated, fails: a proof result with `verified === true` whose JSON text is
above the 100kb limit of `express.json` (`server.js`, line 17) never reaches
`claimHandler`. The server answers 413, the agent sends one request only and the
attempt ends with `success = false`. -/
theorem large_proof_is_refused :
    largeProof.optProp "verified" = .bool true ∧
    (runClaimRewardAgent
        (claimServer alwaysGrant JsVal.jsonText invalidHeaderError "request entity too large")
        largeProof none).1 =
      { success := false, error := some "request entity too large" } ∧
    requestsOf (runClaimRewardAgent
        (claimServer alwaysGrant JsVal.jsonText invalidHeaderError "request entity too large")
        largeProof none).2 =
      [initialRequest
        (claimServer alwaysGrant JsVal.jsonText invalidHeaderError "request entity too large")
        largeProof] := by
  rw [run_of_oversized alwaysGrant JsVal.jsonText invalidHeaderError "request entity too large"
    largeProof none rfl largeProof_size]
  exact ⟨rfl, rfl, rfl⟩

/-- C25, amended. With the claim route of `server.js` as the server: for every proof
result with `verified === true` whose two request bodies are within the 100kb limit
of `express.json`, and a bundle with no signer, no `send` and no `activeAccount`, the
transfer guard of line 57 is false and the attempt sends exactly two requests, the
second carrying `X-Payment-Resolved: shielded` while neither the signer nor the
transfer was called, and ends with `{success: true}`. -/
theorem composed_unresolved_claim_succeeds (w : World) (stringify : JsVal → String)
    (refusal : Thrown) (errorPage : String) (proofResult : JsVal) (unlink : Option Unlink)
    (hverified : proofResult.optProp "verified" = .bool true)
    (hsigner : ∀ sign, (unlink.getD emptyUnlink).signX402Header ≠ .func sign)
    (hsend : (unlink.getD emptyUnlink).send.truthy = false)
    (haccount : ((unlink.getD emptyUnlink).activeAccount.optProp "address").truthy = false)
    (hsize0 : (stringify (.record [("proof", proofResult)])).utf8ByteSize ≤ JSON_LIMIT)
    (hsize1 : (stringify (.record [("proof", proofResult),
      ("paymentResolved", .bool true)])).utf8ByteSize ≤ JSON_LIMIT) :
    ((unlink.getD emptyUnlink).send.truthy &&
        ((unlink.getD emptyUnlink).activeAccount.optProp "address").truthy) = false ∧
      requestsOf (runClaimRewardAgent (claimServer w stringify refusal errorPage)
          proofResult unlink).2 =
        [initialRequest (claimServer w stringify refusal errorPage) proofResult,
         shieldedRetry (claimServer w stringify refusal errorPage) proofResult] ∧
      (shieldedRetry (claimServer w stringify refusal errorPage) proofResult).headers.lookup
        "X-Payment-Resolved" = some (.str "shielded") ∧
      signCallsOf (runClaimRewardAgent (claimServer w stringify refusal errorPage)
        proofResult unlink).2 = [] ∧
      sendCallsOf (runClaimRewardAgent (claimServer w stringify refusal errorPage)
        proofResult unlink).2 = [] ∧
      (runClaimRewardAgent (claimServer w stringify refusal errorPage) proofResult unlink).1 =
        { success := true, error := none } := by
  have hv : (proofResult.optProp "verified").truthy = true := by
    rw [hverified]
    rfl
  have h0 := server_answers_initial w stringify refusal errorPage proofResult 0 hverified
  rw [if_pos hsize0] at h0
  have h1 := server_answers_marker w stringify refusal errorPage proofResult 1 hverified
  rw [if_pos hsize1] at h1
  have hr := respond_challenge stringify
  have hst := signerAndToken_none (unlink.getD emptyUnlink).signX402Header
    ((respond stringify paymentRequiredResponse).headers "x402-payment-request")
    (Or.inl hsigner)
  have hc : ((unlink.getD emptyUnlink).send.truthy &&
      ((unlink.getD emptyUnlink).activeAccount.optProp "address").truthy) = false := by
    rw [hsend, haccount]
    rfl
  have hm := run_with_marker (claimServer w stringify refusal errorPage) proofResult unlink _
    hv h0 hr.1 hst hc
  have hsucc : (runClaimRewardAgent (claimServer w stringify refusal errorPage) proofResult
      unlink).1.success = true := hm.2.2.2.2 ⟨_, h1, hr.2.2.2⟩
  refine ⟨hc, hm.2.2.1, ?_, hm.1, hm.2.1, ?_⟩
  · simp [shieldedRetry, List.lookup]
  · rcases run_outcome_forms (claimServer w stringify refusal errorPage) proofResult unlink
      with h | ⟨reason, h⟩
    · exact h
    · rw [h] at hsucc
      cases hsucc

/-- Witness of C25: no bundle at all, and the small proof result of the classifier. -/
theorem composed_unresolved_claim_succeeds_witness :
    (runClaimRewardAgent
        (claimServer alwaysGrant JsVal.jsonText invalidHeaderError "request entity too large")
        verifiedProof none).1 =
      { success := true, error := none } :=
  (composed_unresolved_claim_succeeds alwaysGrant JsVal.jsonText invalidHeaderError
    "request entity too large" verifiedProof none
    (by decide) (by intro sign h; cases h) (by decide) (by decide) (by decide)
    (by decide)).2.2.2.2.2

/-- The run in which the signer returns a string credential, against the claim
server, for a proof within the body limit. -/
theorem run_signed_composed (w : World) (stringify : JsVal → String)
    (refusal : Thrown) (errorPage : String) (proofResult : JsVal) (u : Unlink)
    (sign : String → Except Thrown JsVal) (credential : String)
    (hverified : proofResult.optProp "verified" = .bool true)
    (hsign : u.signX402Header = .func sign)
    (hcred : sign "monad-testnet-0x123" = .ok (.str credential))
    (hsize : (stringify (.record [("proof", proofResult)])).utf8ByteSize ≤ JSON_LIMIT) :
    tryBlock (claimServer w stringify refusal errorPage) proofResult u =
      ((if isHeaderValue (normalizeHeaderValue credential) then
          (conclude (respond stringify
            (if normalizeHeaderValue credential ≠ "" then grantedResponse
              else paymentRequiredResponse))).1
        else .error refusal),
       [.fetch (initialRequest (claimServer w stringify refusal errorPage) proofResult),
        agentLog "402 Challenge Received. Agent signing payment...",
        .sign "monad-testnet-0x123",
        agentLog "402 Challenge resolved. Retrying with payment header...",
        .fetch (signedRetry (claimServer w stringify refusal errorPage) proofResult
          (.str credential))] ++
        (if isHeaderValue (normalizeHeaderValue credential) then
          (conclude (respond stringify
            (if normalizeHeaderValue credential ≠ "" then grantedResponse
              else paymentRequiredResponse))).2
        else [])) := by
  have h0 := server_answers_initial w stringify refusal errorPage proofResult 0 hverified
  rw [if_pos hsize] at h0
  have h1 := server_answers_signed w stringify refusal errorPage proofResult 1 credential
    hverified
  rw [if_pos hsize] at h1
  have hr := respond_challenge stringify
  have hst : signerAndToken u.signX402Header
      ((respond stringify paymentRequiredResponse).headers "x402-payment-request") =
      some (sign, "monad-testnet-0x123") :=
    (signerAndToken_some _ _ _ _).2 ⟨hsign, hr.2.1, by decide⟩
  have ht := tryBlock_of_challenge (claimServer w stringify refusal errorPage) proofResult u _
    h0 hr.1
  rw [hst] at ht
  dsimp only at ht
  rw [ht]
  cases hval : isHeaderValue (normalizeHeaderValue credential) with
  | true =>
    rw [hval] at h1
    simp only [signerBranch, hcred, h1, if_true]
    rfl
  | false =>
    rw [hval] at h1
    simp only [signerBranch, hcred, h1]
    rfl

/-- C26, as stated, fails: a signer that returns a single space returns a non-empty
credential, yet `fetch` strips the whitespace around a header value, the handler
receives an empty `x-payment`, answers 402 again, and the attempt ends with
`success = false`. -/
theorem blank_credential_is_refused :
    blankSigner.signX402Header.truthy = true ∧
    (runClaimRewardAgent
        (claimServer alwaysGrant JsVal.jsonText invalidHeaderError "request entity too large")
        verifiedProof (some blankSigner)).1 =
      { success := false,
        error := some
          "\x7b\"error\":\"Payment Required\",\"message\":\"X-PAYMENT header required to complete claim\"\x7d" } ∧
    requestsOf (runClaimRewardAgent
        (claimServer alwaysGrant JsVal.jsonText invalidHeaderError "request entity too large")
        verifiedProof (some blankSigner)).2 =
      [initialRequest
        (claimServer alwaysGrant JsVal.jsonText invalidHeaderError "request entity too large")
        verifiedProof,
       signedRetry
        (claimServer alwaysGrant JsVal.jsonText invalidHeaderError "request entity too large")
        verifiedProof (.str " ")] := by
  decide

/-- C26, amended. With the claim route of `server.js` as the server: for every proof
result with `verified === true` whose request body is within the 100kb limit of
`express.json`, and a signer that returns the string `credential` for the challenge
token, the attempt sends the initial request and the signed retry, and it succeeds
if and only if the credential, once `fetch` has stripped the whitespace around it, is
a header value and is not empty. When it is empty after stripping, the retry is
answered 402 again and the attempt ends with `success = false`; when it is no header
value, `fetch` throws at the retry and the attempt ends with the reason of that
error. -/
theorem composed_signed_claim (w : World) (stringify : JsVal → String)
    (refusal : Thrown) (errorPage : String) (proofResult : JsVal) (u : Unlink)
    (sign : String → Except Thrown JsVal) (credential : String)
    (hverified : proofResult.optProp "verified" = .bool true)
    (hsign : u.signX402Header = .func sign)
    (hcred : sign "monad-testnet-0x123" = .ok (.str credential))
    (hsize : (stringify (.record [("proof", proofResult)])).utf8ByteSize ≤ JSON_LIMIT) :
    ((runClaimRewardAgent (claimServer w stringify refusal errorPage) proofResult
          (some u)).1.success = true ↔
        isHeaderValue (normalizeHeaderValue credential) = true ∧
          normalizeHeaderValue credential ≠ "") ∧
      requestsOf (runClaimRewardAgent (claimServer w stringify refusal errorPage) proofResult
          (some u)).2 =
        [initialRequest (claimServer w stringify refusal errorPage) proofResult,
         signedRetry (claimServer w stringify refusal errorPage) proofResult
           (.str credential)] ∧
      (normalizeHeaderValue credential = "" →
        (claimServer w stringify refusal errorPage).fetch 1
            (signedRetry (claimServer w stringify refusal errorPage) proofResult
              (.str credential)) =
          .ok (respond stringify paymentRequiredResponse) ∧
        (respond stringify paymentRequiredResponse).status = 402 ∧
        (runClaimRewardAgent (claimServer w stringify refusal errorPage) proofResult
          (some u)).1.success = false) ∧
      (isHeaderValue (normalizeHeaderValue credential) = false →
        (claimServer w stringify refusal errorPage).fetch 1
            (signedRetry (claimServer w stringify refusal errorPage) proofResult
              (.str credential)) = .error refusal ∧
        (runClaimRewardAgent (claimServer w stringify refusal errorPage) proofResult
          (some u)).1 = { success := false, error := some refusal.reason }) := by
  have hv : (proofResult.optProp "verified").truthy = true := by
    rw [hverified]
    rfl
  have h1 := server_answers_signed w stringify refusal errorPage proofResult 1 credential
    hverified
  rw [if_pos hsize] at h1
  have hr := respond_challenge stringify
  have ht := run_signed_composed w stringify refusal errorPage proofResult u sign credential
    hverified hsign hcred hsize
  have hrun := run_of_verified (claimServer w stringify refusal errorPage) proofResult (some u) hv
  simp only [Option.getD, ht] at hrun
  have hreq : requestsOf (runClaimRewardAgent (claimServer w stringify refusal errorPage)
      proofResult (some u)).2 =
      [initialRequest (claimServer w stringify refusal errorPage) proofResult,
       signedRetry (claimServer w stringify refusal errorPage) proofResult
         (.str credential)] := by
    rw [run_requests _ proofResult (some u) hv]
    simp only [Option.getD, ht]
    cases hval : isHeaderValue (normalizeHeaderValue credential) <;>
      simp [requestsOf, requestsOf_append, agentLog, (conclude_events _).1]
  cases hval : isHeaderValue (normalizeHeaderValue credential) with
  | false =>
    rw [hval] at h1 hrun
    have hout : (runClaimRewardAgent (claimServer w stringify refusal errorPage) proofResult
        (some u)).1 = { success := false, error := some refusal.reason } := by
      rw [hrun]
      rfl
    refine ⟨?_, hreq, ?_, ?_⟩
    · rw [hout]
      simp
    · intro hempty
      rw [isHeaderValue_empty credential hempty] at hval
      cases hval
    · intro _
      exact ⟨h1, hout⟩
  | true =>
    rw [hval] at h1 hrun
    simp only [if_true] at h1 hrun
    have hsucc : (runClaimRewardAgent (claimServer w stringify refusal errorPage) proofResult
        (some u)).1.success =
        (respond stringify
          (if normalizeHeaderValue credential ≠ "" then grantedResponse
            else paymentRequiredResponse)).ok := by
      rw [hrun]
      exact settle_conclude_success _ _
    refine ⟨?_, hreq, ?_, ?_⟩
    · rw [hsucc]
      by_cases hc : normalizeHeaderValue credential = ""
      · simp [hc, hr.2.2.1]
      · simp [hc, hr.2.2.2]
    · intro hc
      refine ⟨?_, hr.1, ?_⟩
      · rw [h1]
        simp [hc]
      · rw [hsucc]
        simp [hc, hr.2.2.1]
    · intro h
      cases h

/-- Witness of C26: a signer that returns `signed:<token>` succeeds, a signer that
returns the empty string does not. -/
theorem composed_signed_claim_witness :
    (runClaimRewardAgent
        (claimServer alwaysGrant JsVal.jsonText invalidHeaderError "request entity too large")
        verifiedProof (some signingUnlink)).1.success = true ∧
      (runClaimRewardAgent
        (claimServer alwaysGrant JsVal.jsonText invalidHeaderError "request entity too large")
        verifiedProof (some emptySigner)).1.success = false :=
  ⟨(composed_signed_claim alwaysGrant JsVal.jsonText invalidHeaderError
      "request entity too large" verifiedProof signingUnlink
      (fun token => .ok (.str ("signed:" ++ token))) "signed:monad-testnet-0x123"
      (by decide) rfl rfl (by decide)).1.2 (by decide),
   ((composed_signed_claim alwaysGrant JsVal.jsonText invalidHeaderError
      "request entity too large" verifiedProof emptySigner
      (fun _ => .ok (.str "")) "" (by decide) rfl rfl (by decide)).2.2.1 (by decide)).2.2⟩

/-! ## Properties of the agent when anything may be thrown -/

theorem conversionError_errorLike_general (w : General.World) :
    (General.conversionError w).ErrorLike := by
  unfold General.Thrown.ErrorLike General.Thrown.reason General.conversionError
  by_cases h : w.conversionText = ""
  · exact ⟨"TypeError", by simp [h, JsVal.truthy]⟩
  · exact ⟨w.conversionText, by simp [h, JsVal.truthy]⟩

/-- The `catch` block returns a failure record for a thrown value that is like an
`Error`. -/
theorem catchBlock_of_text_general (err : General.Thrown) (text : String)
    (h : err.reason = some (.str text)) :
    (General.catchBlock err).1 =
      .fulfilled { success := false, error := some (.str text) } := by
  unfold General.catchBlock
  rw [h]
  rfl

theorem conclude_cases_general (res : General.FetchResponse) :
    (∃ outcome, (General.conclude res).1 = .ok outcome ∧ outcome.WellFormed) ∨
      ∃ err, res.text = .error err ∧ (General.conclude res).1 = .error err := by
  unfold General.conclude
  cases hok : res.ok with
  | true => exact Or.inl ⟨_, by simp, Or.inl rfl⟩
  | false =>
    cases ht : res.text with
    | error err => exact Or.inr ⟨err, rfl, by simp⟩
    | ok text =>
      exact Or.inl ⟨{ success := false,
                      error := some (.str (if text ≠ "" then text
                        else "HTTP " ++ toString res.status)) },
        by simp, Or.inr ⟨_, rfl⟩⟩

theorem transferCatch_cases_general (w : General.World) (err : General.Thrown)
    (before : List General.Event) :
    (∃ reason, (General.transferCatch w err before).1 =
        .ok { success := false, error := some reason }) ∨
      (General.transferCatch w err before).1 = .error (General.conversionError w) := by
  unfold General.transferCatch
  cases err.reason with
  | none => exact Or.inr rfl
  | some message => exact Or.inl ⟨message, rfl⟩

/-- The shielded transfer returns a well-formed record, or throws the `TypeError` of
a failed `String(err)`. -/
theorem runShieldedTransfer_cases_general (w : General.World)
    (send : Slot (List SendInput → Except General.Thrown Unit)) (activeAccount : JsVal)
    (tokenAddress : String) :
    (∃ outcome, (General.runShieldedTransfer w send activeAccount tokenAddress).1 = .ok outcome ∧
        outcome.WellFormed) ∨
      (General.runShieldedTransfer w send activeAccount tokenAddress).1 =
        .error (General.conversionError w) := by
  have key : ∀ err before,
      (∃ outcome, (General.transferCatch w err before).1 = .ok outcome ∧ outcome.WellFormed) ∨
        (General.transferCatch w err before).1 = .error (General.conversionError w) := by
    intro err before
    rcases transferCatch_cases_general w err before with ⟨reason, h⟩ | h
    · exact Or.inl ⟨_, h, Or.inr ⟨reason, rfl⟩⟩
    · exact Or.inr h
  unfold General.runShieldedTransfer
  cases send with
  | value v => exact Or.inl ⟨_, rfl, Or.inr ⟨_, rfl⟩⟩
  | func sendFn =>
    dsimp only
    split
    · exact Or.inl ⟨_, rfl, Or.inr ⟨_, rfl⟩⟩
    · split
      · exact key _ _
      · split
        · exact Or.inl ⟨_, rfl, Or.inl rfl⟩
        · exact key _ _

/-- What a `fetch` call followed by lines 76-83 gives: a well-formed record, or a
value thrown by `fetch` or by reading the body. -/
theorem afterFetch_cases_general (w : General.World) (u : General.Unlink) (n : Nat)
    (init : FetchInit) (before : List General.Event) :
    (∃ outcome,
        (match w.fetch n init with
          | .error err => ((.error err : Except General.Thrown General.Outcome), before)
          | .ok res => ((General.conclude res).1, before ++ (General.conclude res).2)).1 =
          .ok outcome ∧ outcome.WellFormed) ∨
      ∃ err,
        (match w.fetch n init with
          | .error err => ((.error err : Except General.Thrown General.Outcome), before)
          | .ok res => ((General.conclude res).1, before ++ (General.conclude res).2)).1 =
          .error err ∧ General.ReachesCatch w u err := by
  cases hf : w.fetch n init with
  | error err => exact Or.inr ⟨err, rfl, Or.inl ⟨n, init, hf⟩⟩
  | ok res =>
    rcases conclude_cases_general res with ⟨outcome, ho, hw⟩ | ⟨err, ht, he⟩
    · exact Or.inl ⟨outcome, ho, hw⟩
    · exact Or.inr ⟨err, he, Or.inr (Or.inl ⟨n, init, res, hf, ht⟩)⟩

theorem markerRetry_cases_general (w : General.World) (proof : JsVal) (u : General.Unlink) :
    (∃ outcome, (General.markerRetry w proof).1 = .ok outcome ∧ outcome.WellFormed) ∨
      ∃ err, (General.markerRetry w proof).1 = .error err ∧ General.ReachesCatch w u err :=
  afterFetch_cases_general w u 1 (General.shieldedRetry w proof) _

theorem signerBranch_cases_general (w : General.World) (proof : JsVal) (u : General.Unlink)
    (sign : String → Except General.Thrown JsVal) (token : String)
    (hsign : u.signX402Header = .func sign) :
    (∃ outcome, (General.signerBranch w proof sign token).1 = .ok outcome ∧
        outcome.WellFormed) ∨
      ∃ err, (General.signerBranch w proof sign token).1 = .error err ∧
        General.ReachesCatch w u err := by
  unfold General.signerBranch
  cases hs : sign token with
  | error err => exact Or.inr ⟨err, rfl, Or.inr (Or.inr (Or.inl ⟨sign, token, hsign, hs⟩))⟩
  | ok credential => exact afterFetch_cases_general w u 1 _ _

theorem transferBranch_cases_general (w : General.World) (proof : JsVal) (u : General.Unlink) :
    (∃ outcome, (General.transferBranch w proof u).1 = .ok outcome ∧ outcome.WellFormed) ∨
      ∃ err, (General.transferBranch w proof u).1 = .error err ∧
        General.ReachesCatch w u err := by
  unfold General.transferBranch
  split
  · rcases runShieldedTransfer_cases_general w u.send u.activeAccount
      (General.PRP_TOKEN_ADDRESS w) with ⟨outcome, ho, hw⟩ | he
    · rcases hr : General.runShieldedTransfer w u.send u.activeAccount
        (General.PRP_TOKEN_ADDRESS w) with ⟨r, events⟩
      rw [hr] at ho
      simp only at ho
      subst ho
      dsimp only
      cases hsucc : outcome.success with
      | true =>
        simp only [Bool.not_true, Bool.false_eq_true, if_false]
        exact markerRetry_cases_general w proof u
      | false =>
        simp only [Bool.not_false, if_true]
        rcases hw with hw | ⟨reason, hw⟩
        · rw [hw] at hsucc
          cases hsucc
        · exact Or.inl ⟨_, rfl, Or.inr ⟨reason, by rw [hw]⟩⟩
    · rcases hr : General.runShieldedTransfer w u.send u.activeAccount
        (General.PRP_TOKEN_ADDRESS w) with ⟨r, events⟩
      rw [hr] at he
      simp only at he
      subst he
      exact Or.inr ⟨_, rfl, Or.inr (Or.inr (Or.inr rfl))⟩
  · exact markerRetry_cases_general w proof u

/-- The `try` block returns a well-formed record, or throws a value that reached it
from `fetch`, from the body of a response, from the signer, or from a failed
`String(err)` in the shielded transfer. -/
theorem tryBlock_cases_general (w : General.World) (proof : JsVal) (u : General.Unlink) :
    (∃ outcome, (General.tryBlock w proof u).1 = .ok outcome ∧ outcome.WellFormed) ∨
      ∃ err, (General.tryBlock w proof u).1 = .error err ∧ General.ReachesCatch w u err := by
  unfold General.tryBlock
  cases h0 : w.fetch 0 (General.initialRequest w proof) with
  | error err => exact Or.inr ⟨err, rfl, Or.inl ⟨0, _, h0⟩⟩
  | ok res =>
    dsimp only
    split
    · cases hst : General.signerAndToken u.signX402Header (res.headers "x402-payment-request") with
      | none => exact transferBranch_cases_general w proof u
      | some pair =>
        rcases pair with ⟨sign, token⟩
        have hsign : u.signX402Header = .func sign := by
          unfold General.signerAndToken at hst
          split at hst
          · split at hst
            · rename_i hfunc _ _
              simp only [Option.some.injEq, Prod.mk.injEq] at hst
              rw [← hst.1]
              exact hfunc
            · cases hst
          · cases hst
        exact signerBranch_cases_general w proof u sign token hsign
    · rcases conclude_cases_general res with ⟨outcome, ho, hw⟩ | ⟨err, ht, he⟩
      · exact Or.inl ⟨outcome, ho, hw⟩
      · exact Or.inr ⟨err, he, Or.inr (Or.inl ⟨0, _, res, h0, ht⟩)⟩

/-- Past the start guard, the call settles as the `try` block and the `catch` block
decide. -/
theorem run_of_verified_general (w : General.World) (proofResult : JsVal)
    (unlink : Option General.Unlink)
    (hv : (proofResult.optProp "verified").truthy = true) :
    General.runClaimRewardAgent w proofResult unlink =
      match General.tryBlock w proofResult (unlink.getD General.emptyUnlink) with
      | (.ok outcome, events) =>
        (.fulfilled outcome,
         General.agentLog "EZKL Proof detected. Initializing X402 handshake..." :: events)
      | (.error err, events) =>
        ((General.catchBlock err).1,
         General.agentLog "EZKL Proof detected. Initializing X402 handshake..." :: events ++
           (General.catchBlock err).2) := by
  unfold General.runClaimRewardAgent
  simp [hv]

/-- The `try` block when the signer throws at a 402 that carries a token. -/
theorem tryBlock_of_signer_throw_general (w : General.World) (proofResult : JsVal)
    (u : General.Unlink) (res : General.FetchResponse)
    (sign : String → Except General.Thrown JsVal) (token : String) (err : General.Thrown)
    (h0 : w.fetch 0 (General.initialRequest w proofResult) = .ok res)
    (h402 : res.status = 402)
    (htoken : res.headers "x402-payment-request" = some token)
    (hne : token ≠ "")
    (hsign : u.signX402Header = .func sign)
    (hthrow : sign token = .error err) :
    General.tryBlock w proofResult u =
      (.error err,
       [.fetch (General.initialRequest w proofResult),
        General.agentLog "402 Challenge Received. Agent signing payment...",
        .sign token]) := by
  have hst : General.signerAndToken u.signX402Header (res.headers "x402-payment-request") =
      some (sign, token) := by
    simp [General.signerAndToken, hsign, htoken, hne]
  have hb : General.signerBranch w proofResult sign token = (.error err, [.sign token]) := by
    simp [General.signerBranch, hthrow]
  simp [General.tryBlock, h0, h402, hst, hb]

/-- C9, as stated, fails: the initial response is a 402 that carries the challenge
token and the signer throws, as the claim asks; but the value it throws is the object
`{ message: 42 }`. The `catch` block takes the number for the message, `msg.includes`
is no function, and the call rejects instead of returning `{success: false, error}`. -/
theorem signer_throw_can_reject :
    General.alwaysChallenge.fetch 0
        (General.initialRequest General.alwaysChallenge verifiedProof) =
      .ok General.challengeResponse ∧
    General.challengeResponse.status = 402 ∧
    General.challengeResponse.headers "x402-payment-request" = some "monad-testnet-0x123" ∧
    General.runClaimRewardAgent General.alwaysChallenge verifiedProof
        (some General.numberThrower) =
      (.rejected .includesNotCallable,
       [.log "[Agent]: EZKL Proof detected. Initializing X402 handshake...",
        .fetch (General.initialRequest General.alwaysChallenge verifiedProof),
        .log "[Agent]: 402 Challenge Received. Agent signing payment...",
        .sign "monad-testnet-0x123"]) := by
  refine ⟨rfl, rfl, rfl, ?_⟩
  decide

/-- C9, amended. When the initial response is a 402 carrying a challenge token and
the signer throws a value that is like an `Error`, one for which
`err?.message || String(err)` is a string `reason` (the `message` when it is a
non-empty string, `String(err)` when there is no truthy `message`), the call returns
`{success: false, error: reason}`; the signer was called once, with the token, and
the initial request is the only request sent. -/
theorem signer_failure_is_terminal (w : General.World) (proofResult : JsVal)
    (u : General.Unlink) (res : General.FetchResponse)
    (sign : String → Except General.Thrown JsVal) (token : String) (err : General.Thrown)
    (reason : String)
    (hv : (proofResult.optProp "verified").truthy = true)
    (h0 : w.fetch 0 (General.initialRequest w proofResult) = .ok res)
    (h402 : res.status = 402)
    (htoken : res.headers "x402-payment-request" = some token)
    (hne : token ≠ "")
    (hsign : u.signX402Header = .func sign)
    (hthrow : sign token = .error err)
    (hlike : err.reason = some (.str reason)) :
    (General.runClaimRewardAgent w proofResult (some u)).1 =
        .fulfilled { success := false, error := some (.str reason) } ∧
      General.requestsOf (General.runClaimRewardAgent w proofResult (some u)).2 =
        [General.initialRequest w proofResult] ∧
      General.signCallsOf (General.runClaimRewardAgent w proofResult (some u)).2 = [token] := by
  have ht := tryBlock_of_signer_throw_general w proofResult u res sign token err h0 h402 htoken
    hne hsign hthrow
  have hc : General.catchBlock err =
      (.fulfilled { success := false, error := some (.str reason) },
       [General.agentLog (if includes reason "Failed to fetch" || includes reason "NetworkError" ||
          includes reason "Load failed" then
          "Connection failed. Is the claim server running? Run in a separate terminal: npm run server"
        else "Error: " ++ reason)]) := by
    unfold General.catchBlock
    rw [hlike]
    rfl
  rw [run_of_verified_general w proofResult (some u) hv]
  simp only [Option.getD, ht, hc]
  refine ⟨?_, ?_, ?_⟩ <;> trivial

/-- Witness of C9 (scenario E): the signer throws `new Error('User rejected the
request')` at the challenge of a server that answers 402. -/
theorem signer_failure_is_terminal_witness :
    (General.runClaimRewardAgent General.alwaysChallenge verifiedProof
        (some General.rejectingUnlink)).1 =
        .fulfilled { success := false, error := some (.str "User rejected the request") } ∧
      General.requestsOf (General.runClaimRewardAgent General.alwaysChallenge verifiedProof
        (some General.rejectingUnlink)).2 =
        [General.initialRequest General.alwaysChallenge verifiedProof] ∧
      General.signCallsOf (General.runClaimRewardAgent General.alwaysChallenge verifiedProof
        (some General.rejectingUnlink)).2 = ["monad-testnet-0x123"] :=
  signer_failure_is_terminal General.alwaysChallenge verifiedProof General.rejectingUnlink
    General.challengeResponse
    (fun _ => .error { message := .str "User rejected the request",
                       asString := some "Error: User rejected the request" })
    "monad-testnet-0x123"
    { message := .str "User rejected the request",
      asString := some "Error: User rejected the request" }
    "User rejected the request"
    (by decide) rfl rfl rfl (by decide) rfl rfl (by decide)

/-- C28, as stated, fails: the signer may throw any value. When it throws the object
`{ message: 42 }`, `msg.includes` in the `catch` block is no function; when it throws
`Object.create(null)`, `String(err)` in the `catch` block throws. Either way the
`TypeError` leaves the `catch` block and the call rejects, although `onLog` is not
even called by then. -/
theorem throwing_signer_rejects_the_call :
    (General.runClaimRewardAgent General.alwaysChallenge
        (.record [("verified", .bool true)]) (some General.numberThrower)).1 =
      .rejected .includesNotCallable ∧
    (General.runClaimRewardAgent General.alwaysChallenge
        (.record [("verified", .bool true)]) (some General.bareThrower)).1 =
      .rejected .notConvertible := by
  decide

/-- C28, amended. For every proof result, every bundle (a missing one included, which
is read as the empty bundle) and every behaviour of the network, the signer and the
transfer, `runClaimRewardAgent` completes with an outcome record, of the form
`{success: true}` or `{success: false, error}`, provided `onLog` returns normally and
every value thrown by `fetch`, by reading a response body or by the signer is like an
`Error`: `err?.message || String(err)` is a string. Nothing is asked of what `send`
and `parseAmount` throw: the shielded transfer catches it. -/
theorem agent_never_fails_abruptly (w : General.World) (proofResult : JsVal)
    (unlink : Option General.Unlink)
    (hfetch : ∀ n init err, w.fetch n init = .error err → err.ErrorLike)
    (htext : ∀ n init res err, w.fetch n init = .ok res → res.text = .error err →
      err.ErrorLike)
    (hsign : ∀ sign token err,
      (unlink.getD General.emptyUnlink).signX402Header = .func sign →
      sign token = .error err → err.ErrorLike) :
    (∃ outcome, (General.runClaimRewardAgent w proofResult unlink).1 = .fulfilled outcome ∧
      (outcome = { success := true, error := none } ∨
        ∃ reason, outcome = { success := false, error := some reason })) ∧
    General.runClaimRewardAgent w proofResult none =
      General.runClaimRewardAgent w proofResult (some General.emptyUnlink) := by
  refine ⟨?_, rfl⟩
  cases hv : (proofResult.optProp "verified").truthy with
  | false =>
    refine ⟨{ success := false, error := some (.str "Invalid proof result") }, ?_,
      Or.inr ⟨_, rfl⟩⟩
    unfold General.runClaimRewardAgent
    simp [hv]
  | true =>
    rw [run_of_verified_general w proofResult unlink hv]
    rcases tryBlock_cases_general w proofResult (unlink.getD General.emptyUnlink) with
      ⟨outcome, ho, hw⟩ | ⟨err, he, hreach⟩
    · rcases hr : General.tryBlock w proofResult (unlink.getD General.emptyUnlink) with
        ⟨r, events⟩
      rw [hr] at ho
      simp only at ho
      subst ho
      exact ⟨outcome, rfl, hw⟩
    · rcases hr : General.tryBlock w proofResult (unlink.getD General.emptyUnlink) with
        ⟨r, events⟩
      rw [hr] at he
      simp only at he
      subst he
      have hlike : err.ErrorLike := by
        rcases hreach with ⟨n, init, h⟩ | ⟨n, init, res, h, ht⟩ | ⟨sign, token, hs, ht⟩ | h
        · exact hfetch n init err h
        · exact htext n init res err h ht
        · exact hsign sign token err hs ht
        · rw [h]
          exact conversionError_errorLike_general w
      rcases hlike with ⟨text, htext2⟩
      exact ⟨_, catchBlock_of_text_general err text htext2, Or.inr ⟨_, rfl⟩⟩

/-- Witness of C28: the signer throws `new Error('User rejected the request')`; the
call completes with a failure record. -/
theorem agent_never_fails_abruptly_witness :
    ∃ outcome, (General.runClaimRewardAgent General.alwaysChallenge verifiedProof
        (some General.rejectingUnlink)).1 = .fulfilled outcome ∧
      (outcome = { success := true, error := none } ∨
        ∃ reason, outcome = { success := false, error := some reason }) :=
  (agent_never_fails_abruptly General.alwaysChallenge verifiedProof
    (some General.rejectingUnlink)
    (by intro n init err h; cases h)
    (by
      intro n init res err h ht
      have hres : res = General.challengeResponse := by
        cases h
        rfl
      rw [hres] at ht
      cases ht)
    (by
      intro sign token err hs ht
      have hsign : sign = fun _ =>
          .error { message := .str "User rejected the request",
                   asString := some "Error: User rejected the request" } := by
        cases hs
        rfl
      rw [hsign] at ht
      cases ht
      exact ⟨"User rejected the request", by decide⟩)).1

/-! ## The agent of the first sections is the general agent on `Error`-like values -/

theorem reason_ofThrown (err : Thrown) :
    (General.ofThrown err).reason = some (.str err.reason) := by
  unfold General.Thrown.reason General.ofThrown Thrown.reason
  cases hm : err.message with
  | none => simp [JsVal.truthy]
  | some m =>
    by_cases he : m = ""
    · simp [JsVal.truthy, he]
    · simp [JsVal.truthy, he]

theorem requests_ofWorld (w : World) (text : String) (proof credential : JsVal) :
    General.initialRequest (General.ofWorld w text) proof = initialRequest w proof ∧
    General.signedRetry (General.ofWorld w text) proof credential =
      signedRetry w proof credential ∧
    General.shieldedRetry (General.ofWorld w text) proof = shieldedRetry w proof ∧
    General.PRP_TOKEN_ADDRESS (General.ofWorld w text) = PRP_TOKEN_ADDRESS w :=
  ⟨rfl, rfl, rfl, rfl⟩

theorem conclude_ofResponse (res : FetchResponse) :
    General.conclude (General.ofResponse res) = General.ofResult (conclude res) := by
  unfold General.conclude conclude General.ofResult
  have hok : (General.ofResponse res).ok = res.ok := rfl
  rw [hok]
  cases h : res.ok with
  | true => rfl
  | false =>
    cases ht : res.text with
    | error err => simp [General.ofResponse, General.ofExcept, ht]
    | ok text =>
      simp [General.ofResponse, General.ofExcept, ht, General.ofOutcome, General.ofEvent,
        General.agentLog, agentLog]

theorem transferCatch_ofThrown (w : World) (text : String) (err : Thrown)
    (before : List Event) :
    General.transferCatch (General.ofWorld w text) (General.ofThrown err)
        (before.map General.ofEvent) =
      General.ofResult
        (.ok { success := false, error := some err.reason },
         before ++ [.consoleError "[Unlink] Shielded send failed:" err.reason]) := by
  unfold General.transferCatch
  rw [reason_ofThrown]
  simp [General.ofResult, General.ofOutcome, General.ofEvent]

theorem runShieldedTransfer_ofWorld (w : World) (text : String)
    (send : Slot (List SendInput → Except Thrown Unit)) (activeAccount : JsVal)
    (tokenAddress : String) :
    General.runShieldedTransfer (General.ofWorld w text) (General.ofSlot send) activeAccount
        tokenAddress =
      General.ofResult
        (.ok (runShieldedTransfer w send activeAccount tokenAddress).1,
         (runShieldedTransfer w send activeAccount tokenAddress).2) := by
  unfold General.runShieldedTransfer runShieldedTransfer
  cases send with
  | value v => rfl
  | func sendFn =>
    simp only [General.ofSlot]
    by_cases ha : (activeAccount.optProp "address").truthy = true
    · simp only [ha, Bool.not_true, Bool.false_eq_true, if_false]
      have hp : (General.ofWorld w text).parseAmount REWARD_AMOUNT PRP_DECIMALS =
          General.ofExcept (w.parseAmount REWARD_AMOUNT PRP_DECIMALS) := rfl
      rw [hp]
      cases hpa : w.parseAmount REWARD_AMOUNT PRP_DECIMALS with
      | error err =>
        simp only [General.ofExcept]
        exact transferCatch_ofThrown w text err []
      | ok amount =>
        simp only [General.ofExcept]
        cases hs : sendFn [{ token := tokenAddress,
                             recipient := activeAccount.getProp "address",
                             amount := amount }] with
        | ok done => rfl
        | error err =>
          simp only
          exact transferCatch_ofThrown w text err [.send _]
    · simp only [Bool.not_eq_true] at ha
      simp only [ha, Bool.not_false, if_true]
      rfl

theorem afterFetch_ofWorld (w : World) (text : String) (n : Nat) (init : FetchInit)
    (before : List Event) :
    (match (General.ofWorld w text).fetch n init with
      | .error err =>
        ((.error err : Except General.Thrown General.Outcome), before.map General.ofEvent)
      | .ok res =>
        ((General.conclude res).1, before.map General.ofEvent ++ (General.conclude res).2)) =
      General.ofResult
        (match w.fetch n init with
          | .error err => ((.error err : Except Thrown Outcome), before)
          | .ok res => ((conclude res).1, before ++ (conclude res).2)) := by
  have hf : (General.ofWorld w text).fetch n init =
      match w.fetch n init with
      | .ok res => .ok (General.ofResponse res)
      | .error err => .error (General.ofThrown err) := rfl
  rw [hf]
  cases h : w.fetch n init with
  | error err => rfl
  | ok res =>
    simp only [conclude_ofResponse]
    simp [General.ofResult]

theorem markerRetry_ofWorld (w : World) (text : String) (proof : JsVal) :
    General.markerRetry (General.ofWorld w text) proof =
      General.ofResult (markerRetry w proof) :=
  afterFetch_ofWorld w text 1 (shieldedRetry w proof)
    [agentLog "402 Challenge resolved. Retrying with payment header...",
     .fetch (shieldedRetry w proof)]

theorem signerBranch_ofWorld (w : World) (text : String) (proof : JsVal)
    (sign : String → Except Thrown JsVal) (token : String) :
    General.signerBranch (General.ofWorld w text) proof
        (fun t => General.ofExcept (sign t)) token =
      General.ofResult (signerBranch w proof sign token) := by
  unfold General.signerBranch signerBranch
  dsimp only
  cases hs : sign token with
  | error err => rfl
  | ok credential =>
    simp only [General.ofExcept]
    exact afterFetch_ofWorld w text 1 (signedRetry w proof credential)
      [.sign token, agentLog "402 Challenge resolved. Retrying with payment header...",
       .fetch (signedRetry w proof credential)]

theorem ofResult_fst_snd (r : Except Thrown Outcome) (a b : List Event) :
    ((General.ofResult (r, b)).1, a.map General.ofEvent ++ (General.ofResult (r, b)).2) =
      General.ofResult (r, a ++ b) := by
  simp [General.ofResult]

theorem transferBranch_ofWorld (w : World) (text : String) (proof : JsVal) (u : Unlink) :
    General.transferBranch (General.ofWorld w text) proof (General.ofUnlink u) =
      General.ofResult (transferBranch w proof u) := by
  unfold General.transferBranch transferBranch
  have hsend : (General.ofUnlink u).send.truthy = u.send.truthy := by
    unfold General.ofUnlink General.ofSlot
    cases u.send <;> rfl
  have hacc : (General.ofUnlink u).activeAccount = u.activeAccount := rfl
  rw [hsend, hacc]
  by_cases hc : (u.send.truthy && (u.activeAccount.optProp "address").truthy) = true
  · simp only [hc, if_true]
    have ht : General.runShieldedTransfer (General.ofWorld w text) (General.ofUnlink u).send
        u.activeAccount (General.PRP_TOKEN_ADDRESS (General.ofWorld w text)) =
        General.ofResult
          (.ok (runShieldedTransfer w u.send u.activeAccount (PRP_TOKEN_ADDRESS w)).1,
           (runShieldedTransfer w u.send u.activeAccount (PRP_TOKEN_ADDRESS w)).2) :=
      runShieldedTransfer_ofWorld w text u.send u.activeAccount (PRP_TOKEN_ADDRESS w)
    rw [ht]
    simp only [General.ofResult]
    cases hs : (runShieldedTransfer w u.send u.activeAccount (PRP_TOKEN_ADDRESS w)).1.success with
    | true =>
      simp only [General.ofOutcome, hs, Bool.not_true, Bool.false_eq_true, if_false]
      rw [markerRetry_ofWorld]
      simp [General.ofResult, General.ofOutcome]
    | false =>
      simp only [General.ofOutcome, hs, Bool.not_false, if_true]
      cases he : (runShieldedTransfer w u.send u.activeAccount (PRP_TOKEN_ADDRESS w)).1.error <;>
        simp [General.ofEvent, General.agentLog, agentLog, JsVal.toText]
  · simp only [Bool.not_eq_true] at hc
    simp only [hc, Bool.false_eq_true, if_false]
    exact markerRetry_ofWorld w text proof

theorem signerAndToken_ofSlot (slot : Slot (String → Except Thrown JsVal))
    (paymentRequest : Option String) :
    General.signerAndToken (General.ofSlot slot) paymentRequest =
      (signerAndToken slot paymentRequest).map
        (fun pair => ((fun t => General.ofExcept (pair.1 t)), pair.2)) := by
  unfold General.signerAndToken signerAndToken General.ofSlot
  cases slot with
  | value v => rfl
  | func sign =>
    cases paymentRequest with
    | none => rfl
    | some token =>
      by_cases h : token = ""
      · simp [h]
      · simp [h]

theorem tryBlock_ofWorld (w : World) (text : String) (proof : JsVal) (u : Unlink) :
    General.tryBlock (General.ofWorld w text) proof (General.ofUnlink u) =
      General.ofResult (tryBlock w proof u) := by
  unfold General.tryBlock tryBlock
  have hf : (General.ofWorld w text).fetch 0 (General.initialRequest (General.ofWorld w text) proof) =
      match w.fetch 0 (initialRequest w proof) with
      | .ok res => .ok (General.ofResponse res)
      | .error err => .error (General.ofThrown err) := rfl
  rw [hf]
  cases h0 : w.fetch 0 (initialRequest w proof) with
  | error err => rfl
  | ok res =>
    dsimp only
    have hstatus : (General.ofResponse res).status = res.status := rfl
    have hheaders : (General.ofResponse res).headers = res.headers := rfl
    rw [hstatus, hheaders]
    by_cases h402 : res.status = 402
    · simp only [h402, if_true]
      have hsig : (General.ofUnlink u).signX402Header = General.ofSlot u.signX402Header := rfl
      rw [hsig, signerAndToken_ofSlot]
      cases hst : signerAndToken u.signX402Header (res.headers "x402-payment-request") with
      | none =>
        simp only [Option.map]
        rw [transferBranch_ofWorld]
        simp [General.ofResult, General.ofEvent, General.agentLog, agentLog]
        rfl
      | some pair =>
        rcases pair with ⟨sign, token⟩
        simp only [Option.map]
        rw [signerBranch_ofWorld]
        simp [General.ofResult, General.ofEvent, General.agentLog, agentLog]
        rfl
    · simp only [h402, if_false]
      rw [conclude_ofResponse]
      simp [General.ofResult, General.ofEvent]
      rfl

theorem catchBlock_ofThrown (err : Thrown) :
    General.catchBlock (General.ofThrown err) =
      (.fulfilled (General.ofOutcome (catchBlock err).1),
       (catchBlock err).2.map General.ofEvent) := by
  unfold General.catchBlock
  rw [reason_ofThrown]
  simp [JsVal.includesText, catchBlock, General.ofOutcome, General.ofEvent, General.agentLog,
    agentLog, JsVal.toText]

/-- The agent of the first sections is the general agent run with collaborators that
throw values with a string `message` only: the call is fulfilled, with the same
outcome and the same effects. -/
theorem run_ofWorld (w : World) (text : String) (proofResult : JsVal)
    (unlink : Option Unlink) :
    General.runClaimRewardAgent (General.ofWorld w text) proofResult
        (unlink.map General.ofUnlink) =
      (.fulfilled (General.ofOutcome (runClaimRewardAgent w proofResult unlink).1),
       (runClaimRewardAgent w proofResult unlink).2.map General.ofEvent) := by
  have hu : (unlink.map General.ofUnlink).getD General.emptyUnlink =
      General.ofUnlink (unlink.getD emptyUnlink) := by
    cases unlink <;> rfl
  cases hv : (proofResult.optProp "verified").truthy with
  | false =>
    unfold General.runClaimRewardAgent
    rw [runClaimRewardAgent_eq]
    simp [hv, General.ofOutcome]
  | true =>
    rw [run_of_verified_general _ _ _ hv, run_of_verified w proofResult unlink hv, hu,
      tryBlock_ofWorld]
    rcases hr : tryBlock w proofResult (unlink.getD emptyUnlink) with ⟨r, events⟩
    cases r with
    | ok outcome => simp [General.ofResult, settle, General.ofEvent, General.agentLog, agentLog]
    | error err =>
      simp [General.ofResult, settle, catchBlock_ofThrown, General.ofEvent, General.agentLog,
        agentLog]

/-! ## The insurance proof as the component calls it -/

/-- Whenever the button of the component is enabled (`canGenerate`), the call it makes
succeeds; `NaN` never enables the button. -/
theorem enabled_button_succeeds (decimal : ℚ → String) (now : Nat)
    (shieldedBalance : JsNumber) (demo10PRP : Bool)
    (h : canGenerate shieldedBalance demo10PRP = true) :
    (generateInsuranceProof decimal now shieldedBalance (.bool demo10PRP)).success = true ∧
      canGenerate .nan false = false := by
  refine ⟨?_, rfl⟩
  rw [generateInsuranceProof_eq]
  cases demo10PRP with
  | true => simp [JsVal.truthy]
  | false =>
    have hge : JsNumber.ge shieldedBalance REQUIRED_BALANCE = true := by
      simpa [canGenerate, REQUIRED_BALANCE] using h
    have hnum : shieldedBalance ≠ .nan := by
      intro hn
      rw [hn] at hge
      cases hge
    rw [ge_eq_not_lt shieldedBalance hnum] at hge
    have hlt : JsNumber.lt shieldedBalance REQUIRED_BALANCE = false := by
      cases hl : JsNumber.lt shieldedBalance REQUIRED_BALANCE with
      | false => rfl
      | true => rw [hl] at hge; cases hge
    simp [hlt]

end PrivaPulse
